import Mathlib

/-!
# providers/common/provider_util.c

A shallow embedding of the provider utility functions of OpenSSL
(`providers/common/provider_util.c`) and theorems about them.

Pointers are `Option` values (`none` is `NULL`), handles are natural numbers,
C `int` results are `Int`.  Every call that leaves the file (the registry, the
legacy name table, the engine table, the error stack) is recorded in the
`trace` of a `World`, in call order, so that "releases", "does not consult"
and "exactly once" are statements about that trace.  Build-time switches
(`FIPS_MODULE`, `OPENSSL_NO_ENGINE`) and the header constants the file uses
are fields of a `Config`.
-/

namespace ProviderUtil

/-! ## Data model -/

/-- What a `void *data` of a parameter points to: a C string or raw bytes. -/
inductive Data where
  | str (s : String)
  | octets (b : List Nat)
  deriving DecidableEq, Repr

/-- One entry of an `OSSL_PARAM` array (the terminating entry is not stored). -/
structure OSSL_PARAM where
  key : String
  data_type : Nat
  data : Data
  data_size : Nat
  deriving DecidableEq, Repr

/-- A value of C type `int` (32 bits, two's complement). -/
abbrev CInt := { x : Int // -(2 ^ 31) ≤ x ∧ x < 2 ^ 31 }

/-- Build switches and the constants of the OpenSSL headers that
`provider_util.c` uses; the headers live outside this file, so their values
are parameters. -/
structure Config where
  FIPS_MODULE : Bool
  OPENSSL_NO_ENGINE : Bool
  OSSL_PARAM_UTF8_STRING : Nat
  OSSL_PARAM_OCTET_STRING : Nat
  OSSL_ALG_PARAM_PROPERTIES : String
  OSSL_ALG_PARAM_ENGINE : String
  OSSL_ALG_PARAM_CIPHER : String
  OSSL_ALG_PARAM_DIGEST : String
  OSSL_ALG_PARAM_MAC : String
  OSSL_MAC_PARAM_DIGEST : String
  OSSL_MAC_PARAM_CIPHER : String
  OSSL_MAC_PARAM_PROPERTIES : String
  OSSL_MAC_PARAM_KEY : String
  NID_undef : Int
  NID_sha1 : CInt
  NID_sha224 : CInt
  NID_sha256 : CInt
  NID_sha384 : CInt
  NID_sha512 : CInt
  NID_sha512_224 : CInt
  NID_sha512_256 : CInt
  NID_sha3_224 : CInt
  NID_sha3_256 : CInt
  NID_sha3_384 : CInt
  NID_sha3_512 : CInt
  OSSL_DIGEST_NAME_SHA1 : String
  OSSL_DIGEST_NAME_SHA2_224 : String
  OSSL_DIGEST_NAME_SHA2_256 : String
  OSSL_DIGEST_NAME_SHA2_384 : String
  OSSL_DIGEST_NAME_SHA2_512 : String
  OSSL_DIGEST_NAME_SHA2_512_224 : String
  OSSL_DIGEST_NAME_SHA2_512_256 : String
  OSSL_DIGEST_NAME_SHA3_224 : String
  OSSL_DIGEST_NAME_SHA3_256 : String
  OSSL_DIGEST_NAME_SHA3_384 : String
  OSSL_DIGEST_NAME_SHA3_512 : String

/-- The struct `PROV_CIPHER` of prov/provider_util.h: `cipher` is the active
handle, `alloc_cipher` the owned (fetched) one, `engine` the legacy fallback. -/
structure PROV_CIPHER where
  cipher : Option Nat
  alloc_cipher : Option Nat
  engine : Option Nat
  deriving DecidableEq, Repr

/-- The struct `PROV_DIGEST` of prov/provider_util.h. -/
structure PROV_DIGEST where
  md : Option Nat
  alloc_md : Option Nat
  engine : Option Nat
  deriving DecidableEq, Repr

/-- A slot of a parameter array as it is handed on: an entry, or the end
marker that `OSSL_PARAM_construct_end` builds. -/
inductive ParamSlot where
  | entry (p : OSSL_PARAM)
  | END
  deriving DecidableEq, Repr

/-- A call made to a collaborator outside provider_util.c. -/
inductive Call where
  | EVP_CIPHER_free (p : Option Nat)
  | EVP_CIPHER_up_ref (h : Nat)
  | EVP_CIPHER_fetch (ctx : Nat) (name : Data) (propq : Option Data)
  | EVP_get_cipherbyname (name : Data)
  | EVP_MD_free (p : Option Nat)
  | EVP_MD_up_ref (h : Nat)
  | EVP_MD_fetch (ctx : Nat) (name : Data) (propq : Option Data)
  | EVP_get_digestbyname (name : Data)
  | ENGINE_finish (e : Option Nat)
  | ENGINE_by_id (id : Data)
  | ERR_set_mark
  | ERR_pop_to_mark
  | ERR_clear_last_mark
  | ERR_raise (text : String)
  | EVP_MD_is_a (md : Nat) (name : String)
  | capable (f : Nat)
  | EVP_MAC_fetch (libctx : Nat) (name : Data) (properties : Option Data)
  | EVP_MAC_free (mac : Option Nat)
  | EVP_MAC_CTX_new (mac : Nat)
  | EVP_MAC_CTX_free (ctx : Option Nat)
  | EVP_MAC_CTX_set_params (ctx : Nat) (batch : List ParamSlot)
  deriving DecidableEq, Repr

/-- The state outside the bindings: the calls made so far, oldest first, and
the reference count of every algorithm handle. -/
structure World where
  trace : List Call
  refcnt : Nat → Int

/-- The answers of the collaborators: the registry, the legacy name tables,
the engine table, the reference-count increment, the is-a relation of digests,
the NIST curve-name table, the gate predicates of capability tables (by
function address), the MAC registry, the MAC context constructor, the MAC
context's `set_params`, and the size `OSSL_PARAM_construct_utf8_string` gives
a string whose size is passed as 0. -/
structure Env where
  cipher_fetch : Nat → Data → Option Data → Option Nat
  cipher_byname : Data → Option Nat
  cipher_up_ref : Nat → Bool
  md_fetch : Nat → Data → Option Data → Option Nat
  md_byname : Data → Option Nat
  md_up_ref : Nat → Bool
  md_is_a : Nat → String → Bool
  engine_by_id : Data → Option Nat
  nid2nist : Int → Option String
  capable : Nat → Bool
  mac_fetch : Nat → Data → Option Data → Option Nat
  mac_ctx_new : Nat → Option Nat
  mac_set_params : Nat → List ParamSlot → Bool
  strsize : Data → Nat

/-- Append one call to the trace. -/
def World.log (w : World) (c : Call) : World :=
  { w with trace := w.trace ++ [c] }

/-- Add `d` to the reference count of handle `h`. -/
def World.bump (w : World) (h : Nat) (d : Int) : World :=
  { w with refcnt := fun k => if k = h then w.refcnt k + d else w.refcnt k }

/-! ## Collaborators -/

/-- Modelled from the spec: `OSSL_PARAM_locate_const`, which is defined in
crypto/params.c.  "Keys are not required unique but lookup returns the first
match"; a `NULL` array holds nothing. -/
def OSSL_PARAM_locate_const (params : Option (List OSSL_PARAM)) (key : String) :
    Option OSSL_PARAM :=
  match params with
  | none => none
  | some ps => ps.find? (fun p => p.key == key)

/-- Modelled from the spec: `EVP_CIPHER_free`, the registry's `release(handle)`:
drops one reference of a handle, and does nothing on `NULL`. -/
def EVP_CIPHER_free (w : World) (p : Option Nat) : World :=
  match p with
  | none => w.log (Call.EVP_CIPHER_free none)
  | some h => (w.log (Call.EVP_CIPHER_free (some h))).bump h (-1)

/-- Modelled from the spec: `EVP_CIPHER_up_ref`, the registry's
`up_ref(handle) -> bool`: adds one reference when it succeeds. -/
def EVP_CIPHER_up_ref (env : Env) (w : World) (h : Nat) : Bool × World :=
  if env.cipher_up_ref h then (true, (w.log (Call.EVP_CIPHER_up_ref h)).bump h 1)
  else (false, w.log (Call.EVP_CIPHER_up_ref h))

/-- Modelled from the spec: `EVP_CIPHER_fetch`, the registry's
`fetch(context, name, property_query) -> Option<OwnedAlgorithmHandle>`: the
caller holds one reference of the handle returned. -/
def EVP_CIPHER_fetch (env : Env) (w : World) (ctx : Nat) (name : Data)
    (propq : Option Data) : Option Nat × World :=
  match env.cipher_fetch ctx name propq with
  | none => (none, w.log (Call.EVP_CIPHER_fetch ctx name propq))
  | some h => (some h, (w.log (Call.EVP_CIPHER_fetch ctx name propq)).bump h 1)

/-- Modelled from the spec: `EVP_get_cipherbyname`, the legacy
`lookup_by_name(name) -> Option<NonOwningAlgorithmHandle>`. -/
def EVP_get_cipherbyname (env : Env) (w : World) (name : Data) : Option Nat × World :=
  (env.cipher_byname name, w.log (Call.EVP_get_cipherbyname name))

/-- Modelled from the spec: `EVP_MD_free`, the registry's `release(handle)`. -/
def EVP_MD_free (w : World) (p : Option Nat) : World :=
  match p with
  | none => w.log (Call.EVP_MD_free none)
  | some h => (w.log (Call.EVP_MD_free (some h))).bump h (-1)

/-- Modelled from the spec: `EVP_MD_up_ref`, the registry's `up_ref(handle)`. -/
def EVP_MD_up_ref (env : Env) (w : World) (h : Nat) : Bool × World :=
  if env.md_up_ref h then (true, (w.log (Call.EVP_MD_up_ref h)).bump h 1)
  else (false, w.log (Call.EVP_MD_up_ref h))

/-- Modelled from the spec: `EVP_MD_fetch`, the registry's `fetch`. -/
def EVP_MD_fetch (env : Env) (w : World) (ctx : Nat) (name : Data)
    (propq : Option Data) : Option Nat × World :=
  match env.md_fetch ctx name propq with
  | none => (none, w.log (Call.EVP_MD_fetch ctx name propq))
  | some h => (some h, (w.log (Call.EVP_MD_fetch ctx name propq)).bump h 1)

/-- Modelled from the spec: `EVP_get_digestbyname`, the legacy `lookup_by_name`. -/
def EVP_get_digestbyname (env : Env) (w : World) (name : Data) : Option Nat × World :=
  (env.md_byname name, w.log (Call.EVP_get_digestbyname name))

/-- Modelled from the spec: `ENGINE_finish`, `release_legacy_provider(handle)`. -/
def ENGINE_finish (w : World) (e : Option Nat) : World :=
  w.log (Call.ENGINE_finish e)

/-- Modelled from the spec: `ENGINE_by_id`,
`lookup_legacy_provider(name) -> Option<LegacyProviderHandle>`. -/
def ENGINE_by_id (env : Env) (w : World) (id : Data) : Option Nat × World :=
  (env.engine_by_id id, w.log (Call.ENGINE_by_id id))

/-- Modelled from the spec: `ERR_set_mark`, the diagnostic checkpoint. -/
def ERR_set_mark (w : World) : World := w.log Call.ERR_set_mark

/-- Modelled from the spec: `ERR_pop_to_mark`, discarding the diagnostics
accumulated since the checkpoint. -/
def ERR_pop_to_mark (w : World) : World := w.log Call.ERR_pop_to_mark

/-- Modelled from the spec: `ERR_clear_last_mark`, keeping the diagnostics. -/
def ERR_clear_last_mark (w : World) : World := w.log Call.ERR_clear_last_mark

/-- Modelled from the spec: `ERR_raise` and `ERR_raise_data`, reporting an
`InvalidCurve` diagnostic with the given text. -/
def ERR_raise (w : World) (text : String) : World := w.log (Call.ERR_raise text)

/-! ## Cipher bindings -/

/-- The function `ossl_prov_cipher_reset`. -/
def ossl_prov_cipher_reset (w : World) (pc : PROV_CIPHER) : World × PROV_CIPHER :=
  let w := EVP_CIPHER_free w pc.alloc_cipher
  let pc := { pc with alloc_cipher := none }
  let pc := { pc with cipher := none }
  let pc := { pc with engine := none }
  (w, pc)

/-- Store `v` at address `a` of a memory of bindings. -/
def store {α : Type} (m : Nat → α) (a : Nat) (v : α) : Nat → α :=
  fun k => if k = a then v else m k

/-- The function `ossl_prov_cipher_copy`.  `dst` and `src` are addresses in a
memory `m` of bindings (they may be the same address); the result is the
return value, the world and the memory afterwards. -/
def ossl_prov_cipher_copy (env : Env) (w : World) (m : Nat → PROV_CIPHER)
    (dst src : Nat) : Int × World × (Nat → PROV_CIPHER) :=
  match (m src).alloc_cipher with
  | some h =>
    let r := EVP_CIPHER_up_ref env w h
    if !r.1 then (0, r.2, m)
    else
      let m := store m dst { m dst with engine := (m src).engine }
      let m := store m dst { m dst with cipher := (m src).cipher }
      let m := store m dst { m dst with alloc_cipher := (m src).alloc_cipher }
      (1, r.2, m)
  | none =>
    let m := store m dst { m dst with engine := (m src).engine }
    let m := store m dst { m dst with cipher := (m src).cipher }
    let m := store m dst { m dst with alloc_cipher := (m src).alloc_cipher }
    (1, w, m)

/-- What `load_common` leaves behind: its return value, the world, and the
values stored through `propquery` and `engine`. -/
structure LoadCommon where
  ret : Int
  world : World
  propquery : Option Data
  engine : Option Nat

/-- Lines 51-65 of `load_common`: the legacy engine, which is looked up only
when neither `FIPS_MODULE` nor `OPENSSL_NO_ENGINE` is defined. -/
def load_common_engine (c : Config) (env : Env) (w : World)
    (params : Option (List OSSL_PARAM)) (propquery : Option Data) : LoadCommon :=
  let engine : Option Nat := none
  if !c.FIPS_MODULE && !c.OPENSSL_NO_ENGINE then
    match OSSL_PARAM_locate_const params c.OSSL_ALG_PARAM_ENGINE with
    | some p =>
      if p.data_type ≠ c.OSSL_PARAM_UTF8_STRING then ⟨0, w, propquery, engine⟩
      else
        let w := ENGINE_finish w engine
        let e := ENGINE_by_id env w p.data
        if e.1 = none then ⟨0, e.2, propquery, e.1⟩ else ⟨1, e.2, propquery, e.1⟩
    | none => ⟨1, w, propquery, engine⟩
  else ⟨1, w, propquery, engine⟩

/-- The function `load_common`; `engine` is the value `*engine` holds on
entry. -/
def load_common (c : Config) (env : Env) (w : World)
    (params : Option (List OSSL_PARAM)) (engine : Option Nat) : LoadCommon :=
  let propquery : Option Data := none
  match OSSL_PARAM_locate_const params c.OSSL_ALG_PARAM_PROPERTIES with
  | some p =>
    if p.data_type ≠ c.OSSL_PARAM_UTF8_STRING then ⟨0, w, propquery, engine⟩
    else load_common_engine c env w params (some p.data)
  | none => load_common_engine c env w params propquery

/-- The function `ossl_prov_cipher_load_from_params`. -/
def ossl_prov_cipher_load_from_params (c : Config) (env : Env) (w : World)
    (pc : PROV_CIPHER) (params : Option (List OSSL_PARAM)) (ctx : Nat) :
    Int × World × PROV_CIPHER :=
  let lc := load_common c env w params pc.engine
  let pc := { pc with engine := lc.engine }
  if lc.ret = 0 then (0, lc.world, pc)
  else
    match OSSL_PARAM_locate_const params c.OSSL_ALG_PARAM_CIPHER with
    | none => (1, lc.world, pc)
    | some p =>
      if p.data_type ≠ c.OSSL_PARAM_UTF8_STRING then (0, lc.world, pc)
      else
        let w := EVP_CIPHER_free lc.world pc.alloc_cipher
        let w := ERR_set_mark w
        let f := EVP_CIPHER_fetch env w ctx p.data lc.propquery
        let pc := { pc with alloc_cipher := f.1, cipher := f.1 }
        let g := if !c.FIPS_MODULE && pc.cipher = none
                 then EVP_get_cipherbyname env f.2 p.data else (pc.cipher, f.2)
        let pc := { pc with cipher := g.1 }
        let w := if pc.cipher ≠ none then ERR_pop_to_mark g.2 else ERR_clear_last_mark g.2
        (if pc.cipher ≠ none then 1 else 0, w, pc)

/-! ## Digest bindings -/

/-- The function `ossl_prov_digest_reset`. -/
def ossl_prov_digest_reset (w : World) (pd : PROV_DIGEST) : World × PROV_DIGEST :=
  let w := EVP_MD_free w pd.alloc_md
  let pd := { pd with alloc_md := none }
  let pd := { pd with md := none }
  let pd := { pd with engine := none }
  (w, pd)

/-- The function `ossl_prov_digest_copy`, over a memory of digest bindings. -/
def ossl_prov_digest_copy (env : Env) (w : World) (m : Nat → PROV_DIGEST)
    (dst src : Nat) : Int × World × (Nat → PROV_DIGEST) :=
  match (m src).alloc_md with
  | some h =>
    let r := EVP_MD_up_ref env w h
    if !r.1 then (0, r.2, m)
    else
      let m := store m dst { m dst with engine := (m src).engine }
      let m := store m dst { m dst with md := (m src).md }
      let m := store m dst { m dst with alloc_md := (m src).alloc_md }
      (1, r.2, m)
  | none =>
    let m := store m dst { m dst with engine := (m src).engine }
    let m := store m dst { m dst with md := (m src).md }
    let m := store m dst { m dst with alloc_md := (m src).alloc_md }
    (1, w, m)

/-- The function `ossl_prov_digest_load_from_params`. -/
def ossl_prov_digest_load_from_params (c : Config) (env : Env) (w : World)
    (pd : PROV_DIGEST) (params : Option (List OSSL_PARAM)) (ctx : Nat) :
    Int × World × PROV_DIGEST :=
  let lc := load_common c env w params pd.engine
  let pd := { pd with engine := lc.engine }
  if lc.ret = 0 then (0, lc.world, pd)
  else
    match OSSL_PARAM_locate_const params c.OSSL_ALG_PARAM_DIGEST with
    | none => (1, lc.world, pd)
    | some p =>
      if p.data_type ≠ c.OSSL_PARAM_UTF8_STRING then (0, lc.world, pd)
      else
        let w := EVP_MD_free lc.world pd.alloc_md
        let w := ERR_set_mark w
        let f := EVP_MD_fetch env w ctx p.data lc.propquery
        let pd := { pd with alloc_md := f.1, md := f.1 }
        let g := if !c.FIPS_MODULE && pd.md = none
                 then EVP_get_digestbyname env f.2 p.data else (pd.md, f.2)
        let pd := { pd with md := g.1 }
        let w := if pd.md ≠ none then ERR_pop_to_mark g.2 else ERR_clear_last_mark g.2
        (if pd.md ≠ none then 1 else 0, w, pd)

/-! ## Digest identity -/

/-- One entry of an `OSSL_ITEM` table: `unsigned int id; void *ptr`. -/
structure OSSL_ITEM where
  id : Nat
  ptr : String
  deriving DecidableEq, Repr

/-- The conversion of an `int` to `unsigned int`. -/
def uint_of_int (x : Int) : Nat := (x % 2 ^ 32).toNat

/-- The cast `(int)` of an `unsigned int`. -/
def int_of_uint (u : Nat) : Int :=
  if u % 2 ^ 32 < 2 ^ 31 then ((u % 2 ^ 32 : Nat) : Int) else ((u % 2 ^ 32 : Nat) : Int) - 2 ^ 32

/-- Modelled from the spec: `EVP_MD_is_a`, the "is-a" match of a digest handle
against a name. -/
def EVP_MD_is_a (env : Env) (w : World) (md : Nat) (name : String) : Bool × World :=
  (env.md_is_a md name, w.log (Call.EVP_MD_is_a md name))

/-- The loop of `ossl_prov_digest_md_to_nid` over the entries not yet visited;
`mdnid` is the value the variable holds when the loop runs out. -/
def md_to_nid_loop (env : Env) (md : Nat) (mdnid : Int) :
    World → List OSSL_ITEM → Int × World
  | w, [] => (mdnid, w)
  | w, e :: rest =>
    let r := EVP_MD_is_a env w md e.ptr
    if r.1 then (int_of_uint e.id, r.2) else md_to_nid_loop env md mdnid r.2 rest

/-- The function `ossl_prov_digest_md_to_nid`: `it` is the table and the loop
visits its first `it_len` entries (`it_len` is at most the table's length). -/
def ossl_prov_digest_md_to_nid (c : Config) (env : Env) (w : World) (md : Option Nat)
    (it : List OSSL_ITEM) (it_len : Nat) : Int × World :=
  let mdnid := c.NID_undef
  match md with
  | none => (mdnid, w)
  | some h => md_to_nid_loop env h mdnid w (it.take it_len)

/-- The table `name_to_nid` of `ossl_prov_digest_get_approved_nid`. -/
def name_to_nid (c : Config) : List OSSL_ITEM :=
  [ ⟨uint_of_int c.NID_sha1, c.OSSL_DIGEST_NAME_SHA1⟩,
    ⟨uint_of_int c.NID_sha224, c.OSSL_DIGEST_NAME_SHA2_224⟩,
    ⟨uint_of_int c.NID_sha256, c.OSSL_DIGEST_NAME_SHA2_256⟩,
    ⟨uint_of_int c.NID_sha384, c.OSSL_DIGEST_NAME_SHA2_384⟩,
    ⟨uint_of_int c.NID_sha512, c.OSSL_DIGEST_NAME_SHA2_512⟩,
    ⟨uint_of_int c.NID_sha512_224, c.OSSL_DIGEST_NAME_SHA2_512_224⟩,
    ⟨uint_of_int c.NID_sha512_256, c.OSSL_DIGEST_NAME_SHA2_512_256⟩,
    ⟨uint_of_int c.NID_sha3_224, c.OSSL_DIGEST_NAME_SHA3_224⟩,
    ⟨uint_of_int c.NID_sha3_256, c.OSSL_DIGEST_NAME_SHA3_256⟩,
    ⟨uint_of_int c.NID_sha3_384, c.OSSL_DIGEST_NAME_SHA3_384⟩,
    ⟨uint_of_int c.NID_sha3_512, c.OSSL_DIGEST_NAME_SHA3_512⟩ ]

/-- The macro `OSSL_NELEM` of internal/nelem.h: the number of elements of an
array. -/
def OSSL_NELEM {α : Type} (x : List α) : Nat := x.length

/-- The function `ossl_prov_digest_get_approved_nid`. -/
def ossl_prov_digest_get_approved_nid (c : Config) (env : Env) (w : World)
    (md : Option Nat) (sha1_allowed : Int) : Int × World :=
  let r := ossl_prov_digest_md_to_nid c env w md (name_to_nid c) (OSSL_NELEM (name_to_nid c))
  let mdnid := r.1
  let mdnid := if c.FIPS_MODULE && mdnid = c.NID_sha1.val && sha1_allowed = 0
               then c.NID_undef else mdnid
  (mdnid, r.2)

/-! ## Curve policy -/

/-- What this file reads of an `EC_GROUP`: its curve identifier
(`EC_GROUP_get_curve_name`) and the bit length of its order
(`EC_GROUP_order_bits`). -/
structure EC_GROUP where
  curve_name : Int
  order_bits : Int
  deriving DecidableEq, Repr

/-- What this file reads of an `EC_KEY`: its group (`EC_KEY_get0_group`). -/
structure EC_KEY where
  group : Option EC_GROUP
  deriving DecidableEq, Repr

/-- The function `ossl_prov_ec_check`. -/
def ossl_prov_ec_check (c : Config) (env : Env) (w : World) (ec : EC_KEY)
    (protect : Int) : Int × World :=
  if c.FIPS_MODULE then
    match ec.group with
    | none => (0, ERR_raise w "No group")
    | some group =>
      let nid := group.curve_name
      if nid = c.NID_undef then
        (0, ERR_raise w "Explicit curves are not allowed in fips mode")
      else
        match env.nid2nist nid with
        | none => (0, ERR_raise w "Curve %s is not approved in FIPS mode")
        | some _curve_name =>
          let strength := Int.tdiv group.order_bits 2
          if strength < 80 then (0, ERR_raise w "")
          else if protect ≠ 0 && strength < 112 then
            (0, ERR_raise w "Curve %s cannot be used for signing")
          else (1, w)
  else (1, w)

/-! ## MAC configuration -/

/-- Modelled from the spec: `OSSL_PARAM_construct_utf8_string`, an entry with
the key, the declared type UTF8 string and the value; a size passed as 0 is
replaced by the size of the string. -/
def OSSL_PARAM_construct_utf8_string (c : Config) (env : Env) (key : String) (buf : Data)
    (bsize : Nat) : OSSL_PARAM :=
  ⟨key, c.OSSL_PARAM_UTF8_STRING, buf, if bsize = 0 then env.strsize buf else bsize⟩

/-- Modelled from the spec: `OSSL_PARAM_construct_octet_string`, an entry with
the key, the declared type octet string, the bytes and their length. -/
def OSSL_PARAM_construct_octet_string (c : Config) (key : String) (buf : Data)
    (bsize : Nat) : OSSL_PARAM :=
  ⟨key, c.OSSL_PARAM_OCTET_STRING, buf, bsize⟩

/-- Modelled from the spec: `OSSL_PARAM_construct_end`, the terminator. -/
def OSSL_PARAM_construct_end : ParamSlot := ParamSlot.END

/-- Modelled from the spec: `EVP_MAC_CTX_set_params`, the MAC context
collaborator's `set_params(context, ConfigParameterSet) -> bool`. -/
def EVP_MAC_CTX_set_params (env : Env) (w : World) (ctx : Nat) (batch : List ParamSlot) :
    Int × World :=
  (if env.mac_set_params ctx batch then 1 else 0, w.log (Call.EVP_MAC_CTX_set_params ctx batch))

/-- Modelled from the spec: `EVP_MAC_fetch`, the registry's `fetch` for MACs. -/
def EVP_MAC_fetch (env : Env) (w : World) (libctx : Nat) (name : Data)
    (properties : Option Data) : Option Nat × World :=
  (env.mac_fetch libctx name properties, w.log (Call.EVP_MAC_fetch libctx name properties))

/-- Modelled from the spec: `EVP_MAC_free`, the release of a MAC
implementation reference (reference counts of MACs are not tracked). -/
def EVP_MAC_free (w : World) (mac : Option Nat) : World := w.log (Call.EVP_MAC_free mac)

/-- Modelled from the spec: `EVP_MAC_CTX_new`, the MAC context collaborator's
`new(implementation) -> OwnedMacContext`, which can fail. -/
def EVP_MAC_CTX_new (env : Env) (w : World) (mac : Nat) : Option Nat × World :=
  (env.mac_ctx_new mac, w.log (Call.EVP_MAC_CTX_new mac))

/-- Modelled from the spec: `EVP_MAC_CTX_free`, the MAC context collaborator's
`free(context)`. -/
def EVP_MAC_CTX_free (w : World) (ctx : Option Nat) : World := w.log (Call.EVP_MAC_CTX_free ctx)

/-- The block of lines 182-189 of `ossl_prov_set_macctx`, repeated at 190-197
and 198-205: a name that is `NULL` is taken from the first entry for `key`;
`none` stands for `return 0`. -/
def set_macctx_ambient (c : Config) (params : Option (List OSSL_PARAM)) (key : String)
    (name : Option Data) : Option (Option Data) :=
  match name with
  | some _ => some name
  | none =>
    match OSSL_PARAM_locate_const params key with
    | some p => if p.data_type ≠ c.OSSL_PARAM_UTF8_STRING then none else some (some p.data)
    | none => some name

/-- Lines 181-206 of `ossl_prov_set_macctx`: the values of `mdname`,
`ciphername` and `engine` after the ambient lookups; `none` stands for
`return 0`. -/
def set_macctx_names (c : Config) (params : Option (List OSSL_PARAM))
    (ciphername mdname engine : Option Data) :
    Option (Option Data × Option Data × Option Data) :=
  match params with
  | none => some (mdname, ciphername, engine)
  | some _ =>
    match set_macctx_ambient c params c.OSSL_ALG_PARAM_DIGEST mdname with
    | none => none
    | some mdname =>
      match set_macctx_ambient c params c.OSSL_ALG_PARAM_CIPHER ciphername with
      | none => none
      | some ciphername =>
        match set_macctx_ambient c params c.OSSL_ALG_PARAM_ENGINE engine with
        | none => none
        | some engine => some (mdname, ciphername, engine)

/-- The statement `*mp++ = v` on the array `OSSL_PARAM mac_params[6]`: `written`
holds the slots written so far, so the write lands at index `written.length`;
`none` stands for a write outside the array. -/
def mp_write (written : Option (List ParamSlot)) (v : ParamSlot) : Option (List ParamSlot) :=
  match written with
  | none => none
  | some a => if a.length < 6 then some (a ++ [v]) else none

/-- Lines 208-229 of `ossl_prov_set_macctx`: the slots of `mac_params` written,
in order; `none` stands for a write outside the array. -/
def set_macctx_batch (c : Config) (env : Env) (ciphername mdname engine properties : Option Data)
    (key : Option (List Nat)) (keylen : Nat) : Option (List ParamSlot) :=
  let mp : Option (List ParamSlot) := some []
  let mp := match mdname with
    | some n => mp_write mp
        (ParamSlot.entry (OSSL_PARAM_construct_utf8_string c env c.OSSL_MAC_PARAM_DIGEST n 0))
    | none => mp
  let mp := match ciphername with
    | some n => mp_write mp
        (ParamSlot.entry (OSSL_PARAM_construct_utf8_string c env c.OSSL_MAC_PARAM_CIPHER n 0))
    | none => mp
  let mp := match properties with
    | some n => mp_write mp
        (ParamSlot.entry (OSSL_PARAM_construct_utf8_string c env c.OSSL_MAC_PARAM_PROPERTIES n 0))
    | none => mp
  let mp := if !c.OPENSSL_NO_ENGINE && !c.FIPS_MODULE then
      match engine with
      | some n => mp_write mp
          (ParamSlot.entry (OSSL_PARAM_construct_utf8_string c env c.OSSL_ALG_PARAM_ENGINE n 0))
      | none => mp
    else mp
  let mp := match key with
    | some k => mp_write mp
        (ParamSlot.entry
          (OSSL_PARAM_construct_octet_string c c.OSSL_MAC_PARAM_KEY (Data.octets k) keylen))
    | none => mp
  mp_write mp OSSL_PARAM_construct_end

/-- The function `ossl_prov_set_macctx`; `none` stands for a write outside
`mac_params`. -/
def ossl_prov_set_macctx (c : Config) (env : Env) (w : World) (macctx : Nat)
    (params : Option (List OSSL_PARAM)) (ciphername mdname engine properties : Option Data)
    (key : Option (List Nat)) (keylen : Nat) : Option (Int × World) :=
  match set_macctx_names c params ciphername mdname engine with
  | none => some (0, w)
  | some (mdname, ciphername, engine) =>
    match set_macctx_batch c env ciphername mdname engine properties key keylen with
    | none => none
    | some mac_params => some (EVP_MAC_CTX_set_params env w macctx mac_params)

/-- Lines 270-283 of `ossl_prov_macctx_load_from_params`: the configuration
of the context in the slot. -/
def macctx_load_configure (c : Config) (env : Env) (w : World) (macctx : Option Nat)
    (params : Option (List OSSL_PARAM)) (ciphername mdname properties : Option Data) :
    Option (Int × World × Option Nat) :=
  match macctx with
  | none => some (1, w, macctx)
  | some ctx =>
    match ossl_prov_set_macctx c env w ctx params ciphername mdname none properties none 0 with
    | none => none
    | some r =>
      if r.1 ≠ 0 then some (1, r.2, macctx)
      else
        let w := EVP_MAC_CTX_free r.2 macctx
        some (0, w, none)

/-- Lines 258-283 of `ossl_prov_macctx_load_from_params`: the new context for
a MAC name, then the configuration. -/
def macctx_load_new (c : Config) (env : Env) (w : World) (macctx : Option Nat)
    (params : Option (List OSSL_PARAM)) (macname ciphername mdname properties : Option Data)
    (libctx : Nat) : Option (Int × World × Option Nat) :=
  match macname with
  | some name =>
    let mac := EVP_MAC_fetch env w libctx name properties
    let w := EVP_MAC_CTX_free mac.2 macctx
    let n : Option Nat × World := match mac.1 with
      | none => (none, w)
      | some m => EVP_MAC_CTX_new env w m
    let macctx := n.1
    let w := EVP_MAC_free n.2 mac.1
    if macctx = none then some (0, w, macctx)
    else macctx_load_configure c env w macctx params ciphername mdname properties
  | none => macctx_load_configure c env w macctx params ciphername mdname properties

/-- Lines 251-283 of `ossl_prov_macctx_load_from_params`: the properties
entry, then the rest. -/
def macctx_load_properties (c : Config) (env : Env) (w : World) (macctx : Option Nat)
    (params : Option (List OSSL_PARAM)) (macname ciphername mdname : Option Data)
    (libctx : Nat) : Option (Int × World × Option Nat) :=
  let properties : Option Data := none
  match OSSL_PARAM_locate_const params c.OSSL_ALG_PARAM_PROPERTIES with
  | some p =>
    if p.data_type ≠ c.OSSL_PARAM_UTF8_STRING then some (0, w, macctx)
    else macctx_load_new c env w macctx params macname ciphername mdname (some p.data) libctx
  | none => macctx_load_new c env w macctx params macname ciphername mdname properties libctx

/-- The function `ossl_prov_macctx_load_from_params`: `macctx` is the content
of the slot `*macctx` on entry; the result is the return value, the world and
the content of the slot on return, and `none` stands for a write outside
`mac_params`. -/
def ossl_prov_macctx_load_from_params (c : Config) (env : Env) (w : World)
    (macctx : Option Nat) (params : Option (List OSSL_PARAM))
    (macname ciphername mdname : Option Data) (libctx : Nat) :
    Option (Int × World × Option Nat) :=
  match macname with
  | some _ => macctx_load_properties c env w macctx params macname ciphername mdname libctx
  | none =>
    match OSSL_PARAM_locate_const params c.OSSL_ALG_PARAM_MAC with
    | some p =>
      if p.data_type ≠ c.OSSL_PARAM_UTF8_STRING then some (0, w, macctx)
      else macctx_load_properties c env w macctx params (some p.data) ciphername mdname libctx
    | none => macctx_load_properties c env w macctx params macname ciphername mdname libctx

/-! ## Capability export cache -/

/-- The struct `OSSL_ALGORITHM` of openssl/core.h. -/
structure OSSL_ALGORITHM where
  algorithm_names : Option String
  property_definition : Option String
  implementation : Option Nat
  deriving DecidableEq, Repr

/-- The struct `OSSL_ALGORITHM_CAPABLE` of prov/provider_util.h: an algorithm
and the address of its gate function, `none` for `NULL`. -/
structure OSSL_ALGORITHM_CAPABLE where
  alg : OSSL_ALGORITHM
  capable : Option Nat
  deriving DecidableEq, Repr

/-- A call `in[i].capable()` of the gate function at address `f`. -/
def call_capable (env : Env) (w : World) (f : Nat) : Bool × World :=
  (env.capable f, w.log (Call.capable f))

/-- The loop and the final copy of `ossl_prov_cache_exported_algorithms`
(lines 292-296) from index `i` on: the list holds `in[i]`, `in[i+1]`, ... up
to the end of the array, `j` is the next output index.  `none` stands for a
scan that leaves the array without meeting an entry with `NULL` names. -/
def cache_exported_loop (env : Env) :
    World → List OSSL_ALGORITHM_CAPABLE → (Nat → OSSL_ALGORITHM) → Nat →
      Option (World × (Nat → OSSL_ALGORITHM))
  | _, [], _, _ => none
  | w, e :: rest, out, j =>
    if e.alg.algorithm_names ≠ none then
      match e.capable with
      | none => cache_exported_loop env w rest (store out j e.alg) (j + 1)
      | some f =>
        let r := call_capable env w f
        if r.1 then cache_exported_loop env r.2 rest (store out j e.alg) (j + 1)
        else cache_exported_loop env r.2 rest out j
    else some (w, store out j e.alg)

/-- The function `ossl_prov_cache_exported_algorithms`: `in_` is the array
`in` and `out` the output buffer, by index. -/
def ossl_prov_cache_exported_algorithms (env : Env) (w : World)
    (in_ : List OSSL_ALGORITHM_CAPABLE) (out : Nat → OSSL_ALGORITHM) :
    Option (World × (Nat → OSSL_ALGORITHM)) :=
  if (out 0).algorithm_names = none then cache_exported_loop env w in_ out 0
  else some (w, out)

/-! ## Concrete instances -/

/-- The header constants as OpenSSL 3.0 defines them (core.h, core_names.h,
obj_mac.h), with the two build switches left open. -/
def openssl_config (fips no_engine : Bool) : Config where
  FIPS_MODULE := fips
  OPENSSL_NO_ENGINE := no_engine
  OSSL_PARAM_UTF8_STRING := 4
  OSSL_PARAM_OCTET_STRING := 5
  OSSL_ALG_PARAM_PROPERTIES := "properties"
  OSSL_ALG_PARAM_ENGINE := "engine"
  OSSL_ALG_PARAM_CIPHER := "cipher"
  OSSL_ALG_PARAM_DIGEST := "digest"
  OSSL_ALG_PARAM_MAC := "mac"
  OSSL_MAC_PARAM_DIGEST := "digest"
  OSSL_MAC_PARAM_CIPHER := "cipher"
  OSSL_MAC_PARAM_PROPERTIES := "properties"
  OSSL_MAC_PARAM_KEY := "key"
  NID_undef := 0
  NID_sha1 := ⟨64, by decide⟩
  NID_sha224 := ⟨675, by decide⟩
  NID_sha256 := ⟨672, by decide⟩
  NID_sha384 := ⟨673, by decide⟩
  NID_sha512 := ⟨674, by decide⟩
  NID_sha512_224 := ⟨1094, by decide⟩
  NID_sha512_256 := ⟨1095, by decide⟩
  NID_sha3_224 := ⟨1096, by decide⟩
  NID_sha3_256 := ⟨1097, by decide⟩
  NID_sha3_384 := ⟨1098, by decide⟩
  NID_sha3_512 := ⟨1099, by decide⟩
  OSSL_DIGEST_NAME_SHA1 := "SHA1"
  OSSL_DIGEST_NAME_SHA2_224 := "SHA2-224"
  OSSL_DIGEST_NAME_SHA2_256 := "SHA2-256"
  OSSL_DIGEST_NAME_SHA2_384 := "SHA2-384"
  OSSL_DIGEST_NAME_SHA2_512 := "SHA2-512"
  OSSL_DIGEST_NAME_SHA2_512_224 := "SHA2-512/224"
  OSSL_DIGEST_NAME_SHA2_512_256 := "SHA2-512/256"
  OSSL_DIGEST_NAME_SHA3_224 := "SHA3-224"
  OSSL_DIGEST_NAME_SHA3_256 := "SHA3-256"
  OSSL_DIGEST_NAME_SHA3_384 := "SHA3-384"
  OSSL_DIGEST_NAME_SHA3_512 := "SHA3-512"

/-- A world in which nothing has been called and no handle is referenced. -/
def world0 : World := ⟨[], fun _ => 0⟩

/-- A sample environment: the registry knows the cipher "AES-256-CBC" (handle
7) and the digest "SHA2-256" (handle 8), the legacy tables know "DES-CBC"
(handle 21) and "MD5" (handle 22), the engine table knows "pkcs11" (engine 5),
reference counts of handles below 100 can be incremented, handle 30 is-a
"SHA1", and curve identifier 713 has the NIST name "P-224"; the gate at
address 0 answers true and every other gate false, the MAC registry knows
"HMAC" (implementation 40), whose contexts are constructed at handle 41, and
"KMAC" (implementation 42), for which no context can be constructed, a MAC
context accepts every batch, and the size of a string counts its terminating
zero byte. -/
def env0 : Env where
  cipher_fetch := fun _ name _ => if name = Data.str "AES-256-CBC" then some 7 else none
  cipher_byname := fun name => if name = Data.str "DES-CBC" then some 21 else none
  cipher_up_ref := fun h => decide (h < 100)
  md_fetch := fun _ name _ => if name = Data.str "SHA2-256" then some 8 else none
  md_byname := fun name => if name = Data.str "MD5" then some 22 else none
  md_up_ref := fun h => decide (h < 100)
  md_is_a := fun h name => decide (h = 30 ∧ name = "SHA1")
  engine_by_id := fun id => if id = Data.str "pkcs11" then some 5 else none
  nid2nist := fun nid => if nid = 713 then some "P-224" else none
  capable := fun f => decide (f = 0)
  mac_fetch := fun _ name _ =>
    if name = Data.str "HMAC" then some 40
    else if name = Data.str "KMAC" then some 42 else none
  mac_ctx_new := fun mac => if mac = 40 then some 41 else none
  mac_set_params := fun _ _ => true
  strsize := fun d => match d with
    | Data.str v => v.length + 1
    | Data.octets b => b.length

/-- A UTF8-string parameter. -/
def utf8_param (key value : String) : OSSL_PARAM := ⟨key, 4, Data.str value, value.length⟩

/-- An integer-typed parameter (declared type `OSSL_PARAM_INTEGER`, 1). -/
def int_param (key : String) : OSSL_PARAM := ⟨key, 1, Data.octets [1, 0, 0, 0], 4⟩

/-- A sample memory of cipher bindings: address 0 holds the destination
(owned and active 7, engine 5), every other address the binding `b`. -/
def mem_cipher (b : PROV_CIPHER) : Nat → PROV_CIPHER :=
  fun a => if a = 0 then ⟨some 7, some 7, some 5⟩ else b

/-- A sample memory of digest bindings: address 0 holds the destination
(owned and active 8, engine 5), every other address the binding `b`. -/
def mem_digest (b : PROV_DIGEST) : Nat → PROV_DIGEST :=
  fun a => if a = 0 then ⟨some 8, some 8, some 5⟩ else b

/-- A sample `OSSL_ITEM` table: "MD5", then two rows named "SHA1". -/
def sample_items : List OSSL_ITEM := [⟨5, "MD5"⟩, ⟨64, "SHA1"⟩, ⟨99, "SHA1"⟩]

/-- The terminating entry of a capability table. -/
def alg_sentinel : OSSL_ALGORITHM_CAPABLE := ⟨⟨none, none, none⟩, none⟩

/-- Sample capability entries: "AES" without gate, "DES" behind gate 1 (false
in `env0`), "SHA" behind gate 0 (true in `env0`). -/
def sample_entries : List OSSL_ALGORITHM_CAPABLE :=
  [⟨⟨some "AES", none, some 1⟩, none⟩, ⟨⟨some "DES", none, some 2⟩, some 1⟩,
   ⟨⟨some "SHA", none, some 3⟩, some 0⟩]

/-- A sample capability table: the sample entries, then the terminating entry. -/
def sample_table : List OSSL_ALGORITHM_CAPABLE := sample_entries ++ alg_sentinel :: []

/-- Sample capability entries of which none passes: "DES" behind gate 1 (false
in `env0`). -/
def closed_entries : List OSSL_ALGORITHM_CAPABLE := [⟨⟨some "DES", none, some 2⟩, some 1⟩]

/-- A sample capability table whose only entry does not pass its gate. -/
def closed_table : List OSSL_ALGORITHM_CAPABLE := closed_entries ++ alg_sentinel :: []

/-- An output buffer in which every slot has `NULL` names. -/
def out_empty : Nat → OSSL_ALGORITHM := fun _ => ⟨none, none, none⟩

/-! ## Statement vocabulary -/

/-- The calls made between world `w` and a later world `w2`. -/
def calls_between (w w2 : World) : List Call := w2.trace.drop w.trace.length

/-- The legacy engine lookup is compiled in: neither `FIPS_MODULE` nor
`OPENSSL_NO_ENGINE` is defined. -/
def engine_enabled (c : Config) : Bool := !c.FIPS_MODULE && !c.OPENSSL_NO_ENGINE

/-- The Common Loader accepts a parameter set: the properties entry is absent
or a UTF8 string and, when the engine lookup is compiled in, the engine entry
is absent or a UTF8 string naming an engine the engine table knows. -/
def common_accepts (c : Config) (env : Env) (params : Option (List OSSL_PARAM)) : Prop :=
  (∀ p, OSSL_PARAM_locate_const params c.OSSL_ALG_PARAM_PROPERTIES = some p →
      p.data_type = c.OSSL_PARAM_UTF8_STRING) ∧
  (engine_enabled c = true →
    ∀ p, OSSL_PARAM_locate_const params c.OSSL_ALG_PARAM_ENGINE = some p →
      p.data_type = c.OSSL_PARAM_UTF8_STRING ∧ env.engine_by_id p.data ≠ none)

/-- The engine a parameter set names: the engine table's answer for the first
engine entry, when the engine lookup is compiled in. -/
def named_engine (c : Config) (env : Env) (params : Option (List OSSL_PARAM)) : Option Nat :=
  if engine_enabled c then
    (OSSL_PARAM_locate_const params c.OSSL_ALG_PARAM_ENGINE).bind (fun p => env.engine_by_id p.data)
  else none

/-- A cipher handle is legacy-bound: the legacy name table hands it out. -/
def cipher_legacy_bound (env : Env) (h : Nat) : Prop := ∃ name, env.cipher_byname name = some h

/-- A digest handle is legacy-bound: the legacy name table hands it out. -/
def digest_legacy_bound (env : Env) (h : Nat) : Prop := ∃ name, env.md_byname name = some h

/-- The binding invariant of the spec, for a cipher binding: "if `owned` is set,
`active` must reference the same handle; if `owned` is empty and `active` is
set, `active` is legacy-bound". -/
def cipher_binding_inv (env : Env) (pc : PROV_CIPHER) : Prop :=
  (∀ h, pc.alloc_cipher = some h → pc.cipher = some h) ∧
  (pc.alloc_cipher = none → ∀ h, pc.cipher = some h → cipher_legacy_bound env h)

/-- The binding invariant of the spec, for a digest binding. -/
def digest_binding_inv (env : Env) (pd : PROV_DIGEST) : Prop :=
  (∀ h, pd.alloc_md = some h → pd.md = some h) ∧
  (pd.alloc_md = none → ∀ h, pd.md = some h → digest_legacy_bound env h)

/-- The gate of a capability entry is absent or evaluates true. -/
def gate_passes (env : Env) (e : OSSL_ALGORITHM_CAPABLE) : Bool :=
  match e.capable with
  | none => true
  | some f => env.capable f

/-- The gate evaluations a scan over the entries makes, one per entry that
has a gate, in table order. -/
def gate_calls (l : List OSSL_ALGORITHM_CAPABLE) : List Call :=
  l.filterMap (fun e => e.capable.map Call.capable)

/-- The buffer `out` after the algorithms of `l` are written to the slots
`j`, `j + 1`, ... in turn. -/
def write_from (out : Nat → OSSL_ALGORITHM) : Nat → List OSSL_ALGORITHM → Nat → OSSL_ALGORITHM
  | _, [] => out
  | j, a :: rest => write_from (store out j a) (j + 1) rest

/-- The value of a name in the MAC configuration: the explicit argument if it
is supplied, else the data of the ambient set's first entry for `key`, if any. -/
def explicit_or_ambient (params : Option (List OSSL_PARAM)) (key : String)
    (explicit : Option Data) : Option Data :=
  match explicit with
  | some v => some v
  | none => (OSSL_PARAM_locate_const params key).map (fun p => p.data)

/-- The slots a string value contributes to a batch: one UTF8-string entry under
`key` if the value is there, none otherwise. -/
def utf8_slots (c : Config) (env : Env) (key : String) (v : Option Data) : List ParamSlot :=
  match v with
  | some n => [ParamSlot.entry ⟨key, c.OSSL_PARAM_UTF8_STRING, n, env.strsize n⟩]
  | none => []

/-- The slots a key contributes to a batch: one octet-string entry with the
bytes and their length if a key is supplied, none otherwise. -/
def key_slots (c : Config) (key : Option (List Nat)) (keylen : Nat) : List ParamSlot :=
  match key with
  | some k => [ParamSlot.entry ⟨c.OSSL_MAC_PARAM_KEY, c.OSSL_PARAM_OCTET_STRING,
      Data.octets k, keylen⟩]
  | none => []

/-- The properties entry of a parameter set is absent or a UTF8 string. -/
def properties_ok (c : Config) (params : Option (List OSSL_PARAM)) : Prop :=
  ∀ p, OSSL_PARAM_locate_const params c.OSSL_ALG_PARAM_PROPERTIES = some p →
    p.data_type = c.OSSL_PARAM_UTF8_STRING

/-- The call `ossl_prov_cipher_reset(&m[a])`: the reset of the binding at
address `a` of a memory of cipher bindings. -/
def cipher_reset_at (w : World) (m : Nat → PROV_CIPHER) (a : Nat) :
    World × (Nat → PROV_CIPHER) :=
  ((ossl_prov_cipher_reset w (m a)).1, store m a (ossl_prov_cipher_reset w (m a)).2)

/-- The call `ossl_prov_digest_reset(&m[a])`: the reset of the binding at
address `a` of a memory of digest bindings. -/
def digest_reset_at (w : World) (m : Nat → PROV_DIGEST) (a : Nat) :
    World × (Nat → PROV_DIGEST) :=
  ((ossl_prov_digest_reset w (m a)).1, store m a (ossl_prov_digest_reset w (m a)).2)

/-- A sample memory of cipher bindings: address 0 holds the empty binding,
every other address the binding `b`. -/
def mem_cipher_empty (b : PROV_CIPHER) : Nat → PROV_CIPHER :=
  fun a => if a = 0 then ⟨none, none, none⟩ else b

/-- A sample memory of digest bindings: address 0 holds the empty binding,
every other address the binding `b`. -/
def mem_digest_empty (b : PROV_DIGEST) : Nat → PROV_DIGEST :=
  fun a => if a = 0 then ⟨none, none, none⟩ else b

/-! ## Lemmas on the world and the Common Loader -/

@[simp] theorem log_trace (w : World) (c : Call) : (w.log c).trace = w.trace ++ [c] := rfl

@[simp] theorem log_refcnt (w : World) (c : Call) : (w.log c).refcnt = w.refcnt := rfl

@[simp] theorem bump_trace (w : World) (h : Nat) (d : Int) : (w.bump h d).trace = w.trace := rfl

@[simp] theorem bump_refcnt (w : World) (h : Nat) (d : Int) (k : Nat) :
    (w.bump h d).refcnt k = if k = h then w.refcnt k + d else w.refcnt k := rfl

@[simp] theorem calls_between_self (w : World) : calls_between w w = [] := by
  simp [calls_between]

theorem calls_between_append (w w2 : World) (t : List Call) (h : w2.trace = w.trace ++ t) :
    calls_between w w2 = t := by
  simp [calls_between, h]

/-- The Common Loader never touches reference counts, and calls only the
engine table. -/
theorem load_common_world (c : Config) (env : Env) (w : World)
    (params : Option (List OSSL_PARAM)) (engine : Option Nat) :
    (load_common c env w params engine).world.refcnt = w.refcnt ∧
    ∃ t, (load_common c env w params engine).world.trace = w.trace ++ t ∧
      ∀ x ∈ t, (∃ e, x = Call.ENGINE_finish e) ∨ (∃ i, x = Call.ENGINE_by_id i) := by
  have key : ∀ pq, (load_common_engine c env w params pq).world.refcnt = w.refcnt ∧
      ∃ t, (load_common_engine c env w params pq).world.trace = w.trace ++ t ∧
        ∀ x ∈ t, (∃ e, x = Call.ENGINE_finish e) ∨ (∃ i, x = Call.ENGINE_by_id i) := by
    intro pq
    unfold load_common_engine
    split
    · split
      · split
        · exact ⟨rfl, [], by simp⟩
        · rename_i p _ _
          dsimp only [ENGINE_by_id, ENGINE_finish]
          refine ⟨?_, ?_⟩
          · split <;> rfl
          · refine ⟨[Call.ENGINE_finish none, Call.ENGINE_by_id p.data], ?_, ?_⟩
            · split <;> simp
            · intro x hx
              simp at hx
              rcases hx with rfl | rfl
              · exact Or.inl ⟨_, rfl⟩
              · exact Or.inr ⟨_, rfl⟩
      · exact ⟨rfl, [], by simp⟩
    · exact ⟨rfl, [], by simp⟩
  unfold load_common
  split
  · split
    · exact ⟨rfl, [], by simp⟩
    · exact key _
  · exact key _

/-- What the Common Loader returns and stores, by cases on the parameter set. -/
theorem load_common_spec (c : Config) (env : Env) (w : World)
    (params : Option (List OSSL_PARAM)) (engine : Option Nat) :
    ((load_common c env w params engine).ret = 0 ∨
      (load_common c env w params engine).ret = 1) ∧
    ((load_common c env w params engine).ret = 1 ↔ common_accepts c env params) ∧
    ((load_common c env w params engine).ret = 1 →
      (load_common c env w params engine).engine = named_engine c env params ∧
      (load_common c env w params engine).propquery =
        (OSSL_PARAM_locate_const params c.OSSL_ALG_PARAM_PROPERTIES).map (fun p => p.data)) ∧
    ((load_common c env w params engine).engine = engine ∨
      (load_common c env w params engine).engine = none ∨
      (load_common c env w params engine).engine = named_engine c env params) := by
  unfold load_common load_common_engine common_accepts named_engine engine_enabled
  cases hP : OSSL_PARAM_locate_const params c.OSSL_ALG_PARAM_PROPERTIES with
  | none =>
    cases hE : OSSL_PARAM_locate_const params c.OSSL_ALG_PARAM_ENGINE with
    | none => simp
    | some q =>
      by_cases hen : (!c.FIPS_MODULE && !c.OPENSSL_NO_ENGINE) = true
      · by_cases hq : q.data_type = c.OSSL_PARAM_UTF8_STRING
        · cases hb : env.engine_by_id q.data <;>
            simp [hen, hq, hb, ENGINE_by_id, ENGINE_finish]
        · simp [hen, hq]
      · simp [hen]
  | some p =>
    by_cases hp : p.data_type = c.OSSL_PARAM_UTF8_STRING
    · cases hE : OSSL_PARAM_locate_const params c.OSSL_ALG_PARAM_ENGINE with
      | none => simp [hp]
      | some q =>
        by_cases hen : (!c.FIPS_MODULE && !c.OPENSSL_NO_ENGINE) = true
        · by_cases hq : q.data_type = c.OSSL_PARAM_UTF8_STRING
          · cases hb : env.engine_by_id q.data <;>
              simp [hp, hen, hq, hb, ENGINE_by_id, ENGINE_finish]
          · simp [hp, hen, hq]
        · simp [hp, hen]
    · simp [hp]

/-- With no entry for the cipher key, `ossl_prov_cipher_load_from_params`
returns what the Common Loader returned and stores only its engine. -/
theorem cipher_load_no_entry (c : Config) (env : Env) (w : World) (pc : PROV_CIPHER)
    (params : Option (List OSSL_PARAM)) (ctx : Nat)
    (h : OSSL_PARAM_locate_const params c.OSSL_ALG_PARAM_CIPHER = none) :
    ossl_prov_cipher_load_from_params c env w pc params ctx =
      ((load_common c env w params pc.engine).ret,
       (load_common c env w params pc.engine).world,
       { pc with engine := (load_common c env w params pc.engine).engine }) := by
  rcases (load_common_spec c env w params pc.engine).1 with h0 | h1
  · simp [ossl_prov_cipher_load_from_params, h0]
  · simp [ossl_prov_cipher_load_from_params, h, h1]

/-- With no entry for the digest key, `ossl_prov_digest_load_from_params`
returns what the Common Loader returned and stores only its engine. -/
theorem digest_load_no_entry (c : Config) (env : Env) (w : World) (pd : PROV_DIGEST)
    (params : Option (List OSSL_PARAM)) (ctx : Nat)
    (h : OSSL_PARAM_locate_const params c.OSSL_ALG_PARAM_DIGEST = none) :
    ossl_prov_digest_load_from_params c env w pd params ctx =
      ((load_common c env w params pd.engine).ret,
       (load_common c env w params pd.engine).world,
       { pd with engine := (load_common c env w params pd.engine).engine }) := by
  rcases (load_common_spec c env w params pd.engine).1 with h0 | h1
  · simp [ossl_prov_digest_load_from_params, h0]
  · simp [ossl_prov_digest_load_from_params, h, h1]

/-- The calls the Common Loader makes are calls to the engine table. -/
theorem load_common_calls (c : Config) (env : Env) (w : World)
    (params : Option (List OSSL_PARAM)) (engine : Option Nat) :
    ∀ x ∈ calls_between w (load_common c env w params engine).world,
      (∃ e, x = Call.ENGINE_finish e) ∨ (∃ i, x = Call.ENGINE_by_id i) := by
  obtain ⟨t, ht, hall⟩ := (load_common_world c env w params engine).2
  rw [calls_between_append w _ t ht]
  exact hall

/-- `ossl_prov_cipher_load_from_params` when the Common Loader fails. -/
theorem cipher_load_common_failed (c : Config) (env : Env) (w : World) (pc : PROV_CIPHER)
    (params : Option (List OSSL_PARAM)) (ctx : Nat)
    (h0 : (load_common c env w params pc.engine).ret = 0) :
    ossl_prov_cipher_load_from_params c env w pc params ctx =
      (0, (load_common c env w params pc.engine).world,
       { pc with engine := (load_common c env w params pc.engine).engine }) := by
  simp [ossl_prov_cipher_load_from_params, h0]

/-- `ossl_prov_cipher_load_from_params` when the cipher entry is not a string. -/
theorem cipher_load_malformed (c : Config) (env : Env) (w : World) (pc : PROV_CIPHER)
    (params : Option (List OSSL_PARAM)) (ctx : Nat) (p : OSSL_PARAM)
    (h1 : (load_common c env w params pc.engine).ret = 1)
    (hp : OSSL_PARAM_locate_const params c.OSSL_ALG_PARAM_CIPHER = some p)
    (ht : p.data_type ≠ c.OSSL_PARAM_UTF8_STRING) :
    ossl_prov_cipher_load_from_params c env w pc params ctx =
      (0, (load_common c env w params pc.engine).world,
       { pc with engine := (load_common c env w params pc.engine).engine }) := by
  simp [ossl_prov_cipher_load_from_params, h1, hp, ht]

/-- `ossl_prov_cipher_load_from_params` when the registry has the cipher. -/
theorem cipher_load_fetched (c : Config) (env : Env) (w : World) (pc : PROV_CIPHER)
    (params : Option (List OSSL_PARAM)) (ctx : Nat) (p : OSSL_PARAM) (h : Nat)
    (h1 : (load_common c env w params pc.engine).ret = 1)
    (hp : OSSL_PARAM_locate_const params c.OSSL_ALG_PARAM_CIPHER = some p)
    (ht : p.data_type = c.OSSL_PARAM_UTF8_STRING)
    (hf : env.cipher_fetch ctx p.data (load_common c env w params pc.engine).propquery
      = some h) :
    ossl_prov_cipher_load_from_params c env w pc params ctx =
      (1,
       ERR_pop_to_mark (EVP_CIPHER_fetch env
         (ERR_set_mark (EVP_CIPHER_free (load_common c env w params pc.engine).world
           pc.alloc_cipher))
         ctx p.data (load_common c env w params pc.engine).propquery).2,
       ⟨some h, some h, (load_common c env w params pc.engine).engine⟩) := by
  simp [ossl_prov_cipher_load_from_params, h1, hp, ht, EVP_CIPHER_fetch, hf]

/-- `ossl_prov_cipher_load_from_params` when the registry lacks the cipher and
the legacy name table is compiled out (`FIPS_MODULE`). -/
theorem cipher_load_unfetched_fips (c : Config) (env : Env) (w : World) (pc : PROV_CIPHER)
    (params : Option (List OSSL_PARAM)) (ctx : Nat) (p : OSSL_PARAM)
    (h1 : (load_common c env w params pc.engine).ret = 1)
    (hp : OSSL_PARAM_locate_const params c.OSSL_ALG_PARAM_CIPHER = some p)
    (ht : p.data_type = c.OSSL_PARAM_UTF8_STRING)
    (hf : env.cipher_fetch ctx p.data (load_common c env w params pc.engine).propquery
      = none)
    (hfips : c.FIPS_MODULE = true) :
    ossl_prov_cipher_load_from_params c env w pc params ctx =
      (0,
       ERR_clear_last_mark (EVP_CIPHER_fetch env
         (ERR_set_mark (EVP_CIPHER_free (load_common c env w params pc.engine).world
           pc.alloc_cipher))
         ctx p.data (load_common c env w params pc.engine).propquery).2,
       ⟨none, none, (load_common c env w params pc.engine).engine⟩) := by
  simp [ossl_prov_cipher_load_from_params, h1, hp, ht, EVP_CIPHER_fetch, hf, hfips]

/-- `ossl_prov_cipher_load_from_params` when the registry lacks the cipher and
the legacy name table is asked. -/
theorem cipher_load_unfetched_legacy (c : Config) (env : Env) (w : World) (pc : PROV_CIPHER)
    (params : Option (List OSSL_PARAM)) (ctx : Nat) (p : OSSL_PARAM)
    (h1 : (load_common c env w params pc.engine).ret = 1)
    (hp : OSSL_PARAM_locate_const params c.OSSL_ALG_PARAM_CIPHER = some p)
    (ht : p.data_type = c.OSSL_PARAM_UTF8_STRING)
    (hf : env.cipher_fetch ctx p.data (load_common c env w params pc.engine).propquery
      = none)
    (hfips : c.FIPS_MODULE = false) :
    ossl_prov_cipher_load_from_params c env w pc params ctx =
      (if env.cipher_byname p.data ≠ none then 1 else 0,
       (if env.cipher_byname p.data ≠ none then ERR_pop_to_mark else ERR_clear_last_mark)
         (EVP_get_cipherbyname env (EVP_CIPHER_fetch env
           (ERR_set_mark (EVP_CIPHER_free (load_common c env w params pc.engine).world
             pc.alloc_cipher))
           ctx p.data (load_common c env w params pc.engine).propquery).2 p.data).2,
       ⟨env.cipher_byname p.data, none, (load_common c env w params pc.engine).engine⟩) := by
  cases hb : env.cipher_byname p.data <;>
    simp [ossl_prov_cipher_load_from_params, h1, hp, ht, EVP_CIPHER_fetch, hf, hfips,
      EVP_get_cipherbyname, hb]

/-- `ossl_prov_digest_load_from_params` when the Common Loader fails. -/
theorem digest_load_common_failed (c : Config) (env : Env) (w : World) (pd : PROV_DIGEST)
    (params : Option (List OSSL_PARAM)) (ctx : Nat)
    (h0 : (load_common c env w params pd.engine).ret = 0) :
    ossl_prov_digest_load_from_params c env w pd params ctx =
      (0, (load_common c env w params pd.engine).world,
       { pd with engine := (load_common c env w params pd.engine).engine }) := by
  simp [ossl_prov_digest_load_from_params, h0]

/-- `ossl_prov_digest_load_from_params` when the digest entry is not a string. -/
theorem digest_load_malformed (c : Config) (env : Env) (w : World) (pd : PROV_DIGEST)
    (params : Option (List OSSL_PARAM)) (ctx : Nat) (p : OSSL_PARAM)
    (h1 : (load_common c env w params pd.engine).ret = 1)
    (hp : OSSL_PARAM_locate_const params c.OSSL_ALG_PARAM_DIGEST = some p)
    (ht : p.data_type ≠ c.OSSL_PARAM_UTF8_STRING) :
    ossl_prov_digest_load_from_params c env w pd params ctx =
      (0, (load_common c env w params pd.engine).world,
       { pd with engine := (load_common c env w params pd.engine).engine }) := by
  simp [ossl_prov_digest_load_from_params, h1, hp, ht]

/-- `ossl_prov_digest_load_from_params` when the registry has the digest. -/
theorem digest_load_fetched (c : Config) (env : Env) (w : World) (pd : PROV_DIGEST)
    (params : Option (List OSSL_PARAM)) (ctx : Nat) (p : OSSL_PARAM) (h : Nat)
    (h1 : (load_common c env w params pd.engine).ret = 1)
    (hp : OSSL_PARAM_locate_const params c.OSSL_ALG_PARAM_DIGEST = some p)
    (ht : p.data_type = c.OSSL_PARAM_UTF8_STRING)
    (hf : env.md_fetch ctx p.data (load_common c env w params pd.engine).propquery
      = some h) :
    ossl_prov_digest_load_from_params c env w pd params ctx =
      (1,
       ERR_pop_to_mark (EVP_MD_fetch env
         (ERR_set_mark (EVP_MD_free (load_common c env w params pd.engine).world
           pd.alloc_md))
         ctx p.data (load_common c env w params pd.engine).propquery).2,
       ⟨some h, some h, (load_common c env w params pd.engine).engine⟩) := by
  simp [ossl_prov_digest_load_from_params, h1, hp, ht, EVP_MD_fetch, hf]

/-- `ossl_prov_digest_load_from_params` when the registry lacks the digest and
the legacy name table is compiled out (`FIPS_MODULE`). -/
theorem digest_load_unfetched_fips (c : Config) (env : Env) (w : World) (pd : PROV_DIGEST)
    (params : Option (List OSSL_PARAM)) (ctx : Nat) (p : OSSL_PARAM)
    (h1 : (load_common c env w params pd.engine).ret = 1)
    (hp : OSSL_PARAM_locate_const params c.OSSL_ALG_PARAM_DIGEST = some p)
    (ht : p.data_type = c.OSSL_PARAM_UTF8_STRING)
    (hf : env.md_fetch ctx p.data (load_common c env w params pd.engine).propquery
      = none)
    (hfips : c.FIPS_MODULE = true) :
    ossl_prov_digest_load_from_params c env w pd params ctx =
      (0,
       ERR_clear_last_mark (EVP_MD_fetch env
         (ERR_set_mark (EVP_MD_free (load_common c env w params pd.engine).world
           pd.alloc_md))
         ctx p.data (load_common c env w params pd.engine).propquery).2,
       ⟨none, none, (load_common c env w params pd.engine).engine⟩) := by
  simp [ossl_prov_digest_load_from_params, h1, hp, ht, EVP_MD_fetch, hf, hfips]

/-- `ossl_prov_digest_load_from_params` when the registry lacks the digest and
the legacy name table is asked. -/
theorem digest_load_unfetched_legacy (c : Config) (env : Env) (w : World) (pd : PROV_DIGEST)
    (params : Option (List OSSL_PARAM)) (ctx : Nat) (p : OSSL_PARAM)
    (h1 : (load_common c env w params pd.engine).ret = 1)
    (hp : OSSL_PARAM_locate_const params c.OSSL_ALG_PARAM_DIGEST = some p)
    (ht : p.data_type = c.OSSL_PARAM_UTF8_STRING)
    (hf : env.md_fetch ctx p.data (load_common c env w params pd.engine).propquery
      = none)
    (hfips : c.FIPS_MODULE = false) :
    ossl_prov_digest_load_from_params c env w pd params ctx =
      (if env.md_byname p.data ≠ none then 1 else 0,
       (if env.md_byname p.data ≠ none then ERR_pop_to_mark else ERR_clear_last_mark)
         (EVP_get_digestbyname env (EVP_MD_fetch env
           (ERR_set_mark (EVP_MD_free (load_common c env w params pd.engine).world
             pd.alloc_md))
           ctx p.data (load_common c env w params pd.engine).propquery).2 p.data).2,
       ⟨env.md_byname p.data, none, (load_common c env w params pd.engine).engine⟩) := by
  cases hb : env.md_byname p.data <;>
    simp [ossl_prov_digest_load_from_params, h1, hp, ht, EVP_MD_fetch, hf, hfips,
      EVP_get_digestbyname, hb]

/-- A failed `ossl_prov_cipher_load_from_params` leaves owned and active both
as they were or both empty; the engine field holds what the Common Loader
stored. -/
theorem cipher_load_failure (c : Config) (env : Env) (w : World) (pc : PROV_CIPHER)
    (params : Option (List OSSL_PARAM)) (ctx : Nat)
    (hret : (ossl_prov_cipher_load_from_params c env w pc params ctx).1 = 0) :
    (((ossl_prov_cipher_load_from_params c env w pc params ctx).2.2.alloc_cipher
         = pc.alloc_cipher ∧
       (ossl_prov_cipher_load_from_params c env w pc params ctx).2.2.cipher = pc.cipher ∧
       (ossl_prov_cipher_load_from_params c env w pc params ctx).2.1.refcnt = w.refcnt) ∨
      ((ossl_prov_cipher_load_from_params c env w pc params ctx).2.2.alloc_cipher = none ∧
       (ossl_prov_cipher_load_from_params c env w pc params ctx).2.2.cipher = none ∧
       ∀ h, pc.alloc_cipher = some h →
         (ossl_prov_cipher_load_from_params c env w pc params ctx).2.1.refcnt h
           = w.refcnt h - 1)) ∧
    ((ossl_prov_cipher_load_from_params c env w pc params ctx).2.2.engine = pc.engine ∨
      (ossl_prov_cipher_load_from_params c env w pc params ctx).2.2.engine = none ∨
      (ossl_prov_cipher_load_from_params c env w pc params ctx).2.2.engine
        = named_engine c env params) := by
  have hs := load_common_spec c env w params pc.engine
  have hw := (load_common_world c env w params pc.engine).1
  rcases hs.1 with h0 | h1
  · rw [cipher_load_common_failed c env w pc params ctx h0]
    exact ⟨Or.inl ⟨rfl, rfl, hw⟩, hs.2.2.2⟩
  · cases hp : OSSL_PARAM_locate_const params c.OSSL_ALG_PARAM_CIPHER with
    | none =>
      rw [cipher_load_no_entry c env w pc params ctx hp] at hret
      simp [h1] at hret
    | some p =>
      by_cases ht : p.data_type = c.OSSL_PARAM_UTF8_STRING
      · cases hf : env.cipher_fetch ctx p.data
            (load_common c env w params pc.engine).propquery with
        | some h =>
          rw [cipher_load_fetched c env w pc params ctx p h h1 hp ht hf] at hret
          simp at hret
        | none =>
          cases hfips : c.FIPS_MODULE with
          | true =>
            rw [cipher_load_unfetched_fips c env w pc params ctx p h1 hp ht hf hfips]
            refine ⟨Or.inr ⟨rfl, rfl, ?_⟩, hs.2.2.2⟩
            intro h hh
            simp [ERR_clear_last_mark, EVP_CIPHER_fetch, hf, ERR_set_mark, EVP_CIPHER_free,
              hh, hw]
            rfl
          | false =>
            rw [cipher_load_unfetched_legacy c env w pc params ctx p h1 hp ht hf hfips]
              at hret ⊢
            cases hb : env.cipher_byname p.data with
            | some h => simp [hb] at hret
            | none =>
              refine ⟨Or.inr ⟨rfl, rfl, ?_⟩, hs.2.2.2⟩
              intro h hh
              simp [ERR_clear_last_mark, EVP_CIPHER_fetch, hf, ERR_set_mark, EVP_CIPHER_free,
                hh, hw, EVP_get_cipherbyname]
              rfl
      · rw [cipher_load_malformed c env w pc params ctx p h1 hp ht]
        exact ⟨Or.inl ⟨rfl, rfl, hw⟩, hs.2.2.2⟩

/-- A failed `ossl_prov_digest_load_from_params` leaves owned and active both
as they were or both empty; the engine field holds what the Common Loader
stored. -/
theorem digest_load_failure (c : Config) (env : Env) (w : World) (pd : PROV_DIGEST)
    (params : Option (List OSSL_PARAM)) (ctx : Nat)
    (hret : (ossl_prov_digest_load_from_params c env w pd params ctx).1 = 0) :
    (((ossl_prov_digest_load_from_params c env w pd params ctx).2.2.alloc_md
         = pd.alloc_md ∧
       (ossl_prov_digest_load_from_params c env w pd params ctx).2.2.md = pd.md ∧
       (ossl_prov_digest_load_from_params c env w pd params ctx).2.1.refcnt = w.refcnt) ∨
      ((ossl_prov_digest_load_from_params c env w pd params ctx).2.2.alloc_md = none ∧
       (ossl_prov_digest_load_from_params c env w pd params ctx).2.2.md = none ∧
       ∀ h, pd.alloc_md = some h →
         (ossl_prov_digest_load_from_params c env w pd params ctx).2.1.refcnt h
           = w.refcnt h - 1)) ∧
    ((ossl_prov_digest_load_from_params c env w pd params ctx).2.2.engine = pd.engine ∨
      (ossl_prov_digest_load_from_params c env w pd params ctx).2.2.engine = none ∨
      (ossl_prov_digest_load_from_params c env w pd params ctx).2.2.engine
        = named_engine c env params) := by
  have hs := load_common_spec c env w params pd.engine
  have hw := (load_common_world c env w params pd.engine).1
  rcases hs.1 with h0 | h1
  · rw [digest_load_common_failed c env w pd params ctx h0]
    exact ⟨Or.inl ⟨rfl, rfl, hw⟩, hs.2.2.2⟩
  · cases hp : OSSL_PARAM_locate_const params c.OSSL_ALG_PARAM_DIGEST with
    | none =>
      rw [digest_load_no_entry c env w pd params ctx hp] at hret
      simp [h1] at hret
    | some p =>
      by_cases ht : p.data_type = c.OSSL_PARAM_UTF8_STRING
      · cases hf : env.md_fetch ctx p.data
            (load_common c env w params pd.engine).propquery with
        | some h =>
          rw [digest_load_fetched c env w pd params ctx p h h1 hp ht hf] at hret
          simp at hret
        | none =>
          cases hfips : c.FIPS_MODULE with
          | true =>
            rw [digest_load_unfetched_fips c env w pd params ctx p h1 hp ht hf hfips]
            refine ⟨Or.inr ⟨rfl, rfl, ?_⟩, hs.2.2.2⟩
            intro h hh
            simp [ERR_clear_last_mark, EVP_MD_fetch, hf, ERR_set_mark, EVP_MD_free,
              hh, hw]
            rfl
          | false =>
            rw [digest_load_unfetched_legacy c env w pd params ctx p h1 hp ht hf hfips]
              at hret ⊢
            cases hb : env.md_byname p.data with
            | some h => simp [hb] at hret
            | none =>
              refine ⟨Or.inr ⟨rfl, rfl, ?_⟩, hs.2.2.2⟩
              intro h hh
              simp [ERR_clear_last_mark, EVP_MD_fetch, hf, ERR_set_mark, EVP_MD_free,
                hh, hw, EVP_get_digestbyname]
              rfl
      · rw [digest_load_malformed c env w pd params ctx p h1 hp ht]
        exact ⟨Or.inl ⟨rfl, rfl, hw⟩, hs.2.2.2⟩

/-- `ossl_prov_cipher_load_from_params` preserves the binding invariant. -/
theorem cipher_load_inv (c : Config) (env : Env) (w : World) (pc : PROV_CIPHER)
    (params : Option (List OSSL_PARAM)) (ctx : Nat) (hinv : cipher_binding_inv env pc) :
    cipher_binding_inv env (ossl_prov_cipher_load_from_params c env w pc params ctx).2.2 := by
  rcases (load_common_spec c env w params pc.engine).1 with h0 | h1
  · rw [cipher_load_common_failed c env w pc params ctx h0]
    exact hinv
  · cases hp : OSSL_PARAM_locate_const params c.OSSL_ALG_PARAM_CIPHER with
    | none =>
      rw [cipher_load_no_entry c env w pc params ctx hp]
      exact hinv
    | some p =>
      by_cases ht : p.data_type = c.OSSL_PARAM_UTF8_STRING
      · cases hf : env.cipher_fetch ctx p.data
            (load_common c env w params pc.engine).propquery with
        | some h =>
          rw [cipher_load_fetched c env w pc params ctx p h h1 hp ht hf]
          exact ⟨fun _ e => e, fun e => by simp at e⟩
        | none =>
          cases hfips : c.FIPS_MODULE with
          | true =>
            rw [cipher_load_unfetched_fips c env w pc params ctx p h1 hp ht hf hfips]
            exact ⟨fun _ e => by simp at e, fun _ _ e => by simp at e⟩
          | false =>
            rw [cipher_load_unfetched_legacy c env w pc params ctx p h1 hp ht hf hfips]
            exact ⟨fun _ e => by simp at e, fun _ h e => ⟨p.data, e⟩⟩
      · rw [cipher_load_malformed c env w pc params ctx p h1 hp ht]
        exact hinv

/-- `ossl_prov_cipher_copy` hands the source's three fields to the destination
when it succeeds and changes nothing when it fails. -/
theorem cipher_copy_cases (env : Env) (w : World) (mc : Nat → PROV_CIPHER) (dst src : Nat) :
    ((ossl_prov_cipher_copy env w mc dst src).1 = 1 ∧
      (ossl_prov_cipher_copy env w mc dst src).2.2 dst = mc src ∧
      ∀ a, a ≠ dst → (ossl_prov_cipher_copy env w mc dst src).2.2 a = mc a) ∨
    ((ossl_prov_cipher_copy env w mc dst src).1 = 0 ∧
      (ossl_prov_cipher_copy env w mc dst src).2.2 = mc) := by
  have key : ∀ m : Nat → PROV_CIPHER,
      (store (store (store m dst { m dst with engine := (m src).engine }) dst
        { (store m dst { m dst with engine := (m src).engine }) dst with
          cipher := ((store m dst { m dst with engine := (m src).engine }) src).cipher }) dst
        { (store (store m dst { m dst with engine := (m src).engine }) dst
            { (store m dst { m dst with engine := (m src).engine }) dst with
              cipher := ((store m dst { m dst with engine := (m src).engine }) src).cipher })
            dst with
          alloc_cipher := ((store (store m dst { m dst with engine := (m src).engine }) dst
            { (store m dst { m dst with engine := (m src).engine }) dst with
              cipher := ((store m dst { m dst with engine := (m src).engine }) src).cipher })
            src).alloc_cipher }) dst = m src := by
    intro m
    by_cases hd : src = dst
    · subst hd; simp [store]
    · simp [store, hd]
  unfold ossl_prov_cipher_copy
  cases hs : (mc src).alloc_cipher with
  | none =>
    left
    refine ⟨rfl, key mc, ?_⟩
    intro a ha
    simp [store, ha]
  | some h =>
    cases hu : env.cipher_up_ref h with
    | true =>
      left
      simp only [EVP_CIPHER_up_ref, hu, if_true, Bool.not_true, Bool.false_eq_true, if_false]
      refine ⟨trivial, key mc, ?_⟩
      intro a ha
      simp [store, ha]
    | false =>
      right
      simp [EVP_CIPHER_up_ref, hu]

/-- `ossl_prov_digest_load_from_params` preserves the binding invariant. -/
theorem digest_load_inv (c : Config) (env : Env) (w : World) (pd : PROV_DIGEST)
    (params : Option (List OSSL_PARAM)) (ctx : Nat) (hinv : digest_binding_inv env pd) :
    digest_binding_inv env (ossl_prov_digest_load_from_params c env w pd params ctx).2.2 := by
  rcases (load_common_spec c env w params pd.engine).1 with h0 | h1
  · rw [digest_load_common_failed c env w pd params ctx h0]
    exact hinv
  · cases hp : OSSL_PARAM_locate_const params c.OSSL_ALG_PARAM_DIGEST with
    | none =>
      rw [digest_load_no_entry c env w pd params ctx hp]
      exact hinv
    | some p =>
      by_cases ht : p.data_type = c.OSSL_PARAM_UTF8_STRING
      · cases hf : env.md_fetch ctx p.data
            (load_common c env w params pd.engine).propquery with
        | some h =>
          rw [digest_load_fetched c env w pd params ctx p h h1 hp ht hf]
          exact ⟨fun _ e => e, fun e => by simp at e⟩
        | none =>
          cases hfips : c.FIPS_MODULE with
          | true =>
            rw [digest_load_unfetched_fips c env w pd params ctx p h1 hp ht hf hfips]
            exact ⟨fun _ e => by simp at e, fun _ _ e => by simp at e⟩
          | false =>
            rw [digest_load_unfetched_legacy c env w pd params ctx p h1 hp ht hf hfips]
            exact ⟨fun _ e => by simp at e, fun _ h e => ⟨p.data, e⟩⟩
      · rw [digest_load_malformed c env w pd params ctx p h1 hp ht]
        exact hinv

/-- `ossl_prov_digest_copy` hands the source's three fields to the destination
when it succeeds and changes nothing when it fails. -/
theorem digest_copy_cases (env : Env) (w : World) (md : Nat → PROV_DIGEST) (dst src : Nat) :
    ((ossl_prov_digest_copy env w md dst src).1 = 1 ∧
      (ossl_prov_digest_copy env w md dst src).2.2 dst = md src ∧
      ∀ a, a ≠ dst → (ossl_prov_digest_copy env w md dst src).2.2 a = md a) ∨
    ((ossl_prov_digest_copy env w md dst src).1 = 0 ∧
      (ossl_prov_digest_copy env w md dst src).2.2 = md) := by
  have key : ∀ m : Nat → PROV_DIGEST,
      (store (store (store m dst { m dst with engine := (m src).engine }) dst
        { (store m dst { m dst with engine := (m src).engine }) dst with
          md := ((store m dst { m dst with engine := (m src).engine }) src).md }) dst
        { (store (store m dst { m dst with engine := (m src).engine }) dst
            { (store m dst { m dst with engine := (m src).engine }) dst with
              md := ((store m dst { m dst with engine := (m src).engine }) src).md })
            dst with
          alloc_md := ((store (store m dst { m dst with engine := (m src).engine }) dst
            { (store m dst { m dst with engine := (m src).engine }) dst with
              md := ((store m dst { m dst with engine := (m src).engine }) src).md })
            src).alloc_md }) dst = m src := by
    intro m
    by_cases hd : src = dst
    · subst hd; simp [store]
    · simp [store, hd]
  unfold ossl_prov_digest_copy
  cases hs : (md src).alloc_md with
  | none =>
    left
    refine ⟨rfl, key md, ?_⟩
    intro a ha
    simp [store, ha]
  | some h =>
    cases hu : env.md_up_ref h with
    | true =>
      left
      simp only [EVP_MD_up_ref, hu, if_true, Bool.not_true, Bool.false_eq_true, if_false]
      refine ⟨trivial, key md, ?_⟩
      intro a ha
      simp [store, ha]
    | false =>
      right
      simp [EVP_MD_up_ref, hu]

/-- Without an engine entry the Common Loader makes no call. -/
theorem load_common_world_no_engine (c : Config) (env : Env) (w : World)
    (params : Option (List OSSL_PARAM)) (engine : Option Nat)
    (hE : OSSL_PARAM_locate_const params c.OSSL_ALG_PARAM_ENGINE = none) :
    (load_common c env w params engine).world = w := by
  unfold load_common load_common_engine
  cases hP : OSSL_PARAM_locate_const params c.OSSL_ALG_PARAM_PROPERTIES with
  | none => by_cases hen : (!c.FIPS_MODULE && !c.OPENSSL_NO_ENGINE) = true <;> simp [hE, hen]
  | some p =>
    by_cases hp : p.data_type = c.OSSL_PARAM_UTF8_STRING
    · by_cases hen : (!c.FIPS_MODULE && !c.OPENSSL_NO_ENGINE) = true <;> simp [hp, hE, hen]
    · simp [hp]

/-- When the engine lookup is compiled out the Common Loader makes no call. -/
theorem load_common_world_disabled (c : Config) (env : Env) (w : World)
    (params : Option (List OSSL_PARAM)) (engine : Option Nat)
    (hen : engine_enabled c = false) :
    (load_common c env w params engine).world = w := by
  unfold engine_enabled at hen
  unfold load_common load_common_engine
  cases hP : OSSL_PARAM_locate_const params c.OSSL_ALG_PARAM_PROPERTIES with
  | none => simp [hen]
  | some p =>
    by_cases hp : p.data_type = c.OSSL_PARAM_UTF8_STRING
    · simp [hp, hen]
    · simp [hp]

/-- For a positive bound, C's truncating division by two and the floor of the
half agree. -/
theorem tdiv_two_ge_iff (a k : Int) (hk : 0 < k) : k ≤ a.tdiv 2 ↔ k ≤ a.fdiv 2 := by
  rw [Int.fdiv_eq_ediv a (by decide)]
  rcases le_or_lt 0 a with h | h
  · rw [Int.tdiv_eq_ediv h (by decide)]
  · have e : a.tdiv 2 = -((-a) / 2) := by
      have := Int.neg_tdiv (-a) 2
      rw [neg_neg] at this
      rw [this, Int.tdiv_eq_ediv (by omega) (by decide)]
    rw [e]
    constructor <;> intro h1 <;> omega

/-- A C `int` stored in an `unsigned int` and cast back is the same `int`. -/
theorem int_of_uint_of_int (x : CInt) : int_of_uint (uint_of_int x.val) = x.val := by
  obtain ⟨v, hlo, hhi⟩ := x
  unfold int_of_uint uint_of_int
  simp only
  have h32 : (2 : Int) ^ 32 = 4294967296 := by norm_num
  have h31 : (2 : Int) ^ 31 = 2147483648 := by norm_num
  have n32 : (2 : Nat) ^ 32 = 4294967296 := by norm_num
  have n31 : (2 : Nat) ^ 31 = 2147483648 := by norm_num
  rw [h31] at hlo hhi
  rw [h32, n32, n31]
  split <;> omega

/-- A handle that is-a SHA-1 resolves to `NID_sha1` in the approved table. -/
theorem md_to_nid_sha1 (c : Config) (env : Env) (w : World) (h : Nat)
    (hs : env.md_is_a h c.OSSL_DIGEST_NAME_SHA1 = true) :
    (ossl_prov_digest_md_to_nid c env w (some h) (name_to_nid c)
      (OSSL_NELEM (name_to_nid c))).1 = c.NID_sha1.val := by
  simp [ossl_prov_digest_md_to_nid, OSSL_NELEM, name_to_nid, md_to_nid_loop, EVP_MD_is_a, hs,
    int_of_uint_of_int]

/-! ## Theorems -/

/-- C1 (as stated, refuted): the parameter set has no cipher entry, yet
(a) with an empty set the call succeeds and the binding is not what it was
(its legacy-fallback field is cleared), and (b) with an integer-typed
properties entry the call fails. -/
theorem load_without_name_not_noop :
    OSSL_PARAM_locate_const (some [])
      (openssl_config false false).OSSL_ALG_PARAM_CIPHER = none ∧
    (ossl_prov_cipher_load_from_params (openssl_config false false) env0 world0
      ⟨some 7, some 7, some 5⟩ (some []) 0).1 = 1 ∧
    (ossl_prov_cipher_load_from_params (openssl_config false false) env0 world0
      ⟨some 7, some 7, some 5⟩ (some []) 0).2.2 = ⟨some 7, some 7, none⟩ ∧
    (ossl_prov_cipher_load_from_params (openssl_config false false) env0 world0
      ⟨some 7, some 7, some 5⟩ (some []) 0).2.2 ≠ ⟨some 7, some 7, some 5⟩ ∧
    OSSL_PARAM_locate_const (some [int_param "properties"])
      (openssl_config false false).OSSL_ALG_PARAM_CIPHER = none ∧
    (ossl_prov_cipher_load_from_params (openssl_config false false) env0 world0
      ⟨some 7, some 7, some 5⟩ (some [int_param "properties"]) 0).1 = 0 := by
  decide

/-- C1 (amended): for every binding and every parameter set with no entry for
the algorithm-name key, `load_from_params` (cipher and digest variant) returns
success exactly when the Common Loader accepts the set and failure otherwise,
leaves owned and active exactly as they were, releases nothing (it calls only
the engine table and changes no reference count), and on success the
legacy-fallback field holds the engine the set names, empty if it names none. -/
theorem load_without_name_entry (c : Config) (env : Env) (w : World) (pc : PROV_CIPHER)
    (pd : PROV_DIGEST) (params : Option (List OSSL_PARAM)) (ctx : Nat) :
    (OSSL_PARAM_locate_const params c.OSSL_ALG_PARAM_CIPHER = none →
      ((ossl_prov_cipher_load_from_params c env w pc params ctx).1 = 1 ↔
        common_accepts c env params) ∧
      ((ossl_prov_cipher_load_from_params c env w pc params ctx).1 = 0 ∨
        (ossl_prov_cipher_load_from_params c env w pc params ctx).1 = 1) ∧
      (ossl_prov_cipher_load_from_params c env w pc params ctx).2.2.alloc_cipher
        = pc.alloc_cipher ∧
      (ossl_prov_cipher_load_from_params c env w pc params ctx).2.2.cipher = pc.cipher ∧
      ((ossl_prov_cipher_load_from_params c env w pc params ctx).1 = 1 →
        (ossl_prov_cipher_load_from_params c env w pc params ctx).2.2.engine
          = named_engine c env params) ∧
      (ossl_prov_cipher_load_from_params c env w pc params ctx).2.1.refcnt = w.refcnt ∧
      (∀ x ∈ calls_between w (ossl_prov_cipher_load_from_params c env w pc params ctx).2.1,
        (∃ e, x = Call.ENGINE_finish e) ∨ (∃ i, x = Call.ENGINE_by_id i))) ∧
    (OSSL_PARAM_locate_const params c.OSSL_ALG_PARAM_DIGEST = none →
      ((ossl_prov_digest_load_from_params c env w pd params ctx).1 = 1 ↔
        common_accepts c env params) ∧
      ((ossl_prov_digest_load_from_params c env w pd params ctx).1 = 0 ∨
        (ossl_prov_digest_load_from_params c env w pd params ctx).1 = 1) ∧
      (ossl_prov_digest_load_from_params c env w pd params ctx).2.2.alloc_md
        = pd.alloc_md ∧
      (ossl_prov_digest_load_from_params c env w pd params ctx).2.2.md = pd.md ∧
      ((ossl_prov_digest_load_from_params c env w pd params ctx).1 = 1 →
        (ossl_prov_digest_load_from_params c env w pd params ctx).2.2.engine
          = named_engine c env params) ∧
      (ossl_prov_digest_load_from_params c env w pd params ctx).2.1.refcnt = w.refcnt ∧
      (∀ x ∈ calls_between w (ossl_prov_digest_load_from_params c env w pd params ctx).2.1,
        (∃ e, x = Call.ENGINE_finish e) ∨ (∃ i, x = Call.ENGINE_by_id i))) := by
  constructor
  · intro h
    rw [cipher_load_no_entry c env w pc params ctx h]
    have hs := load_common_spec c env w params pc.engine
    exact ⟨hs.2.1, hs.1, rfl, rfl, fun h1 => (hs.2.2.1 h1).1,
      (load_common_world c env w params pc.engine).1,
      load_common_calls c env w params pc.engine⟩
  · intro h
    rw [digest_load_no_entry c env w pd params ctx h]
    have hs := load_common_spec c env w params pd.engine
    exact ⟨hs.2.1, hs.1, rfl, rfl, fun h1 => (hs.2.2.1 h1).1,
      (load_common_world c env w params pd.engine).1,
      load_common_calls c env w params pd.engine⟩

/-- C1 (instance): the set {properties: "fips=yes", engine: "pkcs11"} has
neither a cipher nor a digest entry; the load succeeds, owned and active stay,
and the legacy-fallback field becomes engine 5. -/
theorem load_without_name_entry_witness :
    OSSL_PARAM_locate_const
        (some [utf8_param "properties" "fips=yes", utf8_param "engine" "pkcs11"])
        (openssl_config false false).OSSL_ALG_PARAM_CIPHER = none ∧
    OSSL_PARAM_locate_const
        (some [utf8_param "properties" "fips=yes", utf8_param "engine" "pkcs11"])
        (openssl_config false false).OSSL_ALG_PARAM_DIGEST = none ∧
    (ossl_prov_cipher_load_from_params (openssl_config false false) env0 world0
        ⟨some 7, some 7, none⟩
        (some [utf8_param "properties" "fips=yes", utf8_param "engine" "pkcs11"]) 0).1 = 1 ∧
    common_accepts (openssl_config false false) env0
        (some [utf8_param "properties" "fips=yes", utf8_param "engine" "pkcs11"]) ∧
    (ossl_prov_cipher_load_from_params (openssl_config false false) env0 world0
        ⟨some 7, some 7, none⟩
        (some [utf8_param "properties" "fips=yes", utf8_param "engine" "pkcs11"]) 0).2.2
      = ⟨some 7, some 7, some 5⟩ ∧
    (ossl_prov_digest_load_from_params (openssl_config false false) env0 world0
        ⟨some 8, some 8, none⟩
        (some [utf8_param "properties" "fips=yes", utf8_param "engine" "pkcs11"]) 0).2.2.alloc_md
      = some 8 :=
  ⟨by decide, by decide, by decide,
   ((load_without_name_entry (openssl_config false false) env0 world0 ⟨some 7, some 7, none⟩
      ⟨some 8, some 8, none⟩
      (some [utf8_param "properties" "fips=yes", utf8_param "engine" "pkcs11"]) 0).1
      (by decide)).1.mp (by decide),
   by decide,
   ((load_without_name_entry (openssl_config false false) env0 world0 ⟨some 7, some 7, none⟩
      ⟨some 8, some 8, none⟩
      (some [utf8_param "properties" "fips=yes", utf8_param "engine" "pkcs11"]) 0).2
      (by decide)).2.2.1⟩

/-- C2 (as stated, refuted): with an integer-typed cipher entry the load
fails, and the binding afterwards (owned and active kept, legacy-fallback
cleared) is neither the binding before the call nor the empty binding. -/
theorem load_failure_partial_state :
    (ossl_prov_cipher_load_from_params (openssl_config false false) env0 world0
      ⟨some 7, some 7, some 5⟩ (some [int_param "cipher"]) 0).1 = 0 ∧
    (ossl_prov_cipher_load_from_params (openssl_config false false) env0 world0
      ⟨some 7, some 7, some 5⟩ (some [int_param "cipher"]) 0).2.2 = ⟨some 7, some 7, none⟩ ∧
    (ossl_prov_cipher_load_from_params (openssl_config false false) env0 world0
      ⟨some 7, some 7, some 5⟩ (some [int_param "cipher"]) 0).2.2 ≠ ⟨some 7, some 7, some 5⟩ ∧
    (ossl_prov_cipher_load_from_params (openssl_config false false) env0 world0
      ⟨some 7, some 7, some 5⟩ (some [int_param "cipher"]) 0).2.2 ≠ ⟨none, none, none⟩ := by
  decide

/-- C2 (amended): whenever `load_from_params` (cipher or digest variant)
returns failure, owned and active are either both exactly as before the call,
with no reference count changed, or both empty, with one reference of the
previous owned handle dropped; the legacy-fallback field is as before, or
empty, or the engine the parameter set names. -/
theorem load_failure_state (c : Config) (env : Env) (w : World) (pc : PROV_CIPHER)
    (pd : PROV_DIGEST) (params : Option (List OSSL_PARAM)) (ctx : Nat) :
    ((ossl_prov_cipher_load_from_params c env w pc params ctx).1 = 0 →
      (((ossl_prov_cipher_load_from_params c env w pc params ctx).2.2.alloc_cipher
           = pc.alloc_cipher ∧
         (ossl_prov_cipher_load_from_params c env w pc params ctx).2.2.cipher = pc.cipher ∧
         (ossl_prov_cipher_load_from_params c env w pc params ctx).2.1.refcnt = w.refcnt) ∨
        ((ossl_prov_cipher_load_from_params c env w pc params ctx).2.2.alloc_cipher = none ∧
         (ossl_prov_cipher_load_from_params c env w pc params ctx).2.2.cipher = none ∧
         ∀ h, pc.alloc_cipher = some h →
           (ossl_prov_cipher_load_from_params c env w pc params ctx).2.1.refcnt h
             = w.refcnt h - 1)) ∧
      ((ossl_prov_cipher_load_from_params c env w pc params ctx).2.2.engine = pc.engine ∨
        (ossl_prov_cipher_load_from_params c env w pc params ctx).2.2.engine = none ∨
        (ossl_prov_cipher_load_from_params c env w pc params ctx).2.2.engine
          = named_engine c env params)) ∧
    ((ossl_prov_digest_load_from_params c env w pd params ctx).1 = 0 →
      (((ossl_prov_digest_load_from_params c env w pd params ctx).2.2.alloc_md
           = pd.alloc_md ∧
         (ossl_prov_digest_load_from_params c env w pd params ctx).2.2.md = pd.md ∧
         (ossl_prov_digest_load_from_params c env w pd params ctx).2.1.refcnt = w.refcnt) ∨
        ((ossl_prov_digest_load_from_params c env w pd params ctx).2.2.alloc_md = none ∧
         (ossl_prov_digest_load_from_params c env w pd params ctx).2.2.md = none ∧
         ∀ h, pd.alloc_md = some h →
           (ossl_prov_digest_load_from_params c env w pd params ctx).2.1.refcnt h
             = w.refcnt h - 1)) ∧
      ((ossl_prov_digest_load_from_params c env w pd params ctx).2.2.engine = pd.engine ∨
        (ossl_prov_digest_load_from_params c env w pd params ctx).2.2.engine = none ∨
        (ossl_prov_digest_load_from_params c env w pd params ctx).2.2.engine
          = named_engine c env params)) :=
  ⟨cipher_load_failure c env w pc params ctx, digest_load_failure c env w pd params ctx⟩

/-- C2 (instance): the set {cipher: "NOPE", digest: "NOPE", engine: "pkcs11"}
names nothing the registry or the legacy tables know; both loads fail with
owned and active empty, and the legacy-fallback field is the newly looked-up
engine 5. -/
theorem load_failure_state_witness :
    (ossl_prov_cipher_load_from_params (openssl_config false false) env0 world0
      ⟨some 7, some 7, none⟩
      (some [utf8_param "cipher" "NOPE", utf8_param "digest" "NOPE",
             utf8_param "engine" "pkcs11"]) 0).1 = 0 ∧
    (ossl_prov_digest_load_from_params (openssl_config false false) env0 world0
      ⟨some 8, some 8, none⟩
      (some [utf8_param "cipher" "NOPE", utf8_param "digest" "NOPE",
             utf8_param "engine" "pkcs11"]) 0).1 = 0 ∧
    (ossl_prov_cipher_load_from_params (openssl_config false false) env0 world0
      ⟨some 7, some 7, none⟩
      (some [utf8_param "cipher" "NOPE", utf8_param "digest" "NOPE",
             utf8_param "engine" "pkcs11"]) 0).2.2 = ⟨none, none, some 5⟩ ∧
    ((ossl_prov_cipher_load_from_params (openssl_config false false) env0 world0
        ⟨some 7, some 7, none⟩
        (some [utf8_param "cipher" "NOPE", utf8_param "digest" "NOPE",
               utf8_param "engine" "pkcs11"]) 0).2.2.alloc_cipher = some 7 ∨
      (ossl_prov_cipher_load_from_params (openssl_config false false) env0 world0
        ⟨some 7, some 7, none⟩
        (some [utf8_param "cipher" "NOPE", utf8_param "digest" "NOPE",
               utf8_param "engine" "pkcs11"]) 0).2.2.alloc_cipher = none) ∧
    ((ossl_prov_digest_load_from_params (openssl_config false false) env0 world0
        ⟨some 8, some 8, none⟩
        (some [utf8_param "cipher" "NOPE", utf8_param "digest" "NOPE",
               utf8_param "engine" "pkcs11"]) 0).2.2.alloc_md = some 8 ∨
      (ossl_prov_digest_load_from_params (openssl_config false false) env0 world0
        ⟨some 8, some 8, none⟩
        (some [utf8_param "cipher" "NOPE", utf8_param "digest" "NOPE",
               utf8_param "engine" "pkcs11"]) 0).2.2.alloc_md = none) :=
  ⟨by decide, by decide, by decide,
   (((load_failure_state (openssl_config false false) env0 world0 ⟨some 7, some 7, none⟩
      ⟨some 8, some 8, none⟩
      (some [utf8_param "cipher" "NOPE", utf8_param "digest" "NOPE",
             utf8_param "engine" "pkcs11"]) 0).1 (by decide)).1).elim
      (fun a => Or.inl a.1) (fun b => Or.inr b.1),
   (((load_failure_state (openssl_config false false) env0 world0 ⟨some 7, some 7, none⟩
      ⟨some 8, some 8, none⟩
      (some [utf8_param "cipher" "NOPE", utf8_param "digest" "NOPE",
             utf8_param "engine" "pkcs11"]) 0).2 (by decide)).1).elim
      (fun a => Or.inl a.1) (fun b => Or.inr b.1)⟩

/-- C3: when the first entry for the algorithm-name key is not a UTF8 string,
`load_from_params` (cipher and digest variant) returns failure, makes no call
that releases an algorithm handle, changes no reference count, and leaves
owned and active as they were. -/
theorem load_malformed_name_keeps_owned (c : Config) (env : Env) (w : World)
    (pc : PROV_CIPHER) (pd : PROV_DIGEST) (params : Option (List OSSL_PARAM)) (ctx : Nat) :
    (∀ p, OSSL_PARAM_locate_const params c.OSSL_ALG_PARAM_CIPHER = some p →
      p.data_type ≠ c.OSSL_PARAM_UTF8_STRING →
      (ossl_prov_cipher_load_from_params c env w pc params ctx).1 = 0 ∧
      (ossl_prov_cipher_load_from_params c env w pc params ctx).2.2.alloc_cipher
        = pc.alloc_cipher ∧
      (ossl_prov_cipher_load_from_params c env w pc params ctx).2.2.cipher = pc.cipher ∧
      (ossl_prov_cipher_load_from_params c env w pc params ctx).2.1.refcnt = w.refcnt ∧
      ∀ q, Call.EVP_CIPHER_free q ∉
        calls_between w (ossl_prov_cipher_load_from_params c env w pc params ctx).2.1) ∧
    (∀ p, OSSL_PARAM_locate_const params c.OSSL_ALG_PARAM_DIGEST = some p →
      p.data_type ≠ c.OSSL_PARAM_UTF8_STRING →
      (ossl_prov_digest_load_from_params c env w pd params ctx).1 = 0 ∧
      (ossl_prov_digest_load_from_params c env w pd params ctx).2.2.alloc_md
        = pd.alloc_md ∧
      (ossl_prov_digest_load_from_params c env w pd params ctx).2.2.md = pd.md ∧
      (ossl_prov_digest_load_from_params c env w pd params ctx).2.1.refcnt = w.refcnt ∧
      ∀ q, Call.EVP_MD_free q ∉
        calls_between w (ossl_prov_digest_load_from_params c env w pd params ctx).2.1) := by
  constructor
  · intro p hp ht
    have hw := (load_common_world c env w params pc.engine).1
    have hc := load_common_calls c env w params pc.engine
    have e : ossl_prov_cipher_load_from_params c env w pc params ctx =
        (0, (load_common c env w params pc.engine).world,
         { pc with engine := (load_common c env w params pc.engine).engine }) := by
      rcases (load_common_spec c env w params pc.engine).1 with h0 | h1
      · exact cipher_load_common_failed c env w pc params ctx h0
      · exact cipher_load_malformed c env w pc params ctx p h1 hp ht
    rw [e]
    refine ⟨rfl, rfl, rfl, hw, ?_⟩
    intro q hq
    rcases hc _ hq with ⟨e, he⟩ | ⟨i, hi⟩
    · cases he
    · cases hi
  · intro p hp ht
    have hw := (load_common_world c env w params pd.engine).1
    have hc := load_common_calls c env w params pd.engine
    have e : ossl_prov_digest_load_from_params c env w pd params ctx =
        (0, (load_common c env w params pd.engine).world,
         { pd with engine := (load_common c env w params pd.engine).engine }) := by
      rcases (load_common_spec c env w params pd.engine).1 with h0 | h1
      · exact digest_load_common_failed c env w pd params ctx h0
      · exact digest_load_malformed c env w pd params ctx p h1 hp ht
    rw [e]
    refine ⟨rfl, rfl, rfl, hw, ?_⟩
    intro q hq
    rcases hc _ hq with ⟨e, he⟩ | ⟨i, hi⟩
    · cases he
    · cases hi

/-- C3 (instance): with integer-typed cipher and digest entries both loads
fail and the owned handles 7 and 8 stay in place. -/
theorem load_malformed_name_keeps_owned_witness :
    OSSL_PARAM_locate_const (some [int_param "cipher", int_param "digest"])
        (openssl_config false false).OSSL_ALG_PARAM_CIPHER = some (int_param "cipher") ∧
    OSSL_PARAM_locate_const (some [int_param "cipher", int_param "digest"])
        (openssl_config false false).OSSL_ALG_PARAM_DIGEST = some (int_param "digest") ∧
    (int_param "cipher").data_type ≠ (openssl_config false false).OSSL_PARAM_UTF8_STRING ∧
    (int_param "digest").data_type ≠ (openssl_config false false).OSSL_PARAM_UTF8_STRING ∧
    (ossl_prov_cipher_load_from_params (openssl_config false false) env0 world0
        ⟨some 7, some 7, none⟩ (some [int_param "cipher", int_param "digest"]) 0).1 = 0 ∧
    (ossl_prov_cipher_load_from_params (openssl_config false false) env0 world0
        ⟨some 7, some 7, none⟩
        (some [int_param "cipher", int_param "digest"]) 0).2.2.alloc_cipher = some 7 ∧
    (ossl_prov_digest_load_from_params (openssl_config false false) env0 world0
        ⟨some 8, some 8, none⟩ (some [int_param "cipher", int_param "digest"]) 0).1 = 0 ∧
    (ossl_prov_digest_load_from_params (openssl_config false false) env0 world0
        ⟨some 8, some 8, none⟩
        (some [int_param "cipher", int_param "digest"]) 0).2.2.alloc_md = some 8 :=
  ⟨by decide, by decide, by decide, by decide,
   ((load_malformed_name_keeps_owned (openssl_config false false) env0 world0
      ⟨some 7, some 7, none⟩ ⟨some 8, some 8, none⟩
      (some [int_param "cipher", int_param "digest"]) 0).1 (int_param "cipher")
      (by decide) (by decide)).1,
   ((load_malformed_name_keeps_owned (openssl_config false false) env0 world0
      ⟨some 7, some 7, none⟩ ⟨some 8, some 8, none⟩
      (some [int_param "cipher", int_param "digest"]) 0).1 (int_param "cipher")
      (by decide) (by decide)).2.1,
   ((load_malformed_name_keeps_owned (openssl_config false false) env0 world0
      ⟨some 7, some 7, none⟩ ⟨some 8, some 8, none⟩
      (some [int_param "cipher", int_param "digest"]) 0).2 (int_param "digest")
      (by decide) (by decide)).1,
   ((load_malformed_name_keeps_owned (openssl_config false false) env0 world0
      ⟨some 7, some 7, none⟩ ⟨some 8, some 8, none⟩
      (some [int_param "cipher", int_param "digest"]) 0).2 (int_param "digest")
      (by decide) (by decide)).2.1⟩

/-- C4: when the source's owned handle is set and its reference count cannot
be incremented, copy (cipher and digest variant) returns failure and the
whole memory of bindings, the destination included, is what it was; the only
call made is the failed increment and no reference count changes. -/
theorem copy_up_ref_failure (env : Env) (w : World) (mc : Nat → PROV_CIPHER)
    (md : Nat → PROV_DIGEST) (dst src h : Nat) :
    ((mc src).alloc_cipher = some h → env.cipher_up_ref h = false →
      (ossl_prov_cipher_copy env w mc dst src).1 = 0 ∧
      (ossl_prov_cipher_copy env w mc dst src).2.2 = mc ∧
      (ossl_prov_cipher_copy env w mc dst src).2.2 dst = mc dst ∧
      (ossl_prov_cipher_copy env w mc dst src).2.1.refcnt = w.refcnt ∧
      calls_between w (ossl_prov_cipher_copy env w mc dst src).2.1
        = [Call.EVP_CIPHER_up_ref h]) ∧
    ((md src).alloc_md = some h → env.md_up_ref h = false →
      (ossl_prov_digest_copy env w md dst src).1 = 0 ∧
      (ossl_prov_digest_copy env w md dst src).2.2 = md ∧
      (ossl_prov_digest_copy env w md dst src).2.2 dst = md dst ∧
      (ossl_prov_digest_copy env w md dst src).2.1.refcnt = w.refcnt ∧
      calls_between w (ossl_prov_digest_copy env w md dst src).2.1
        = [Call.EVP_MD_up_ref h]) := by
  constructor
  · intro hs hu
    simp [ossl_prov_cipher_copy, hs, EVP_CIPHER_up_ref, hu, calls_between]
  · intro hs hu
    simp [ossl_prov_digest_copy, hs, EVP_MD_up_ref, hu, calls_between]

/-- C4 (instance): the source at address 1 owns handle 200, whose reference
count cannot be incremented in `env0`; the destination at address 0 keeps its
three fields. -/
theorem copy_up_ref_failure_witness :
    (mem_cipher ⟨some 200, some 200, none⟩ 1).alloc_cipher = some 200 ∧
    env0.cipher_up_ref 200 = false ∧
    (mem_digest ⟨some 200, some 200, none⟩ 1).alloc_md = some 200 ∧
    env0.md_up_ref 200 = false ∧
    (ossl_prov_cipher_copy env0 world0 (mem_cipher ⟨some 200, some 200, none⟩) 0 1).1 = 0 ∧
    (ossl_prov_cipher_copy env0 world0 (mem_cipher ⟨some 200, some 200, none⟩) 0 1).2.2 0
      = ⟨some 7, some 7, some 5⟩ ∧
    (ossl_prov_digest_copy env0 world0 (mem_digest ⟨some 200, some 200, none⟩) 0 1).1 = 0 ∧
    (ossl_prov_digest_copy env0 world0 (mem_digest ⟨some 200, some 200, none⟩) 0 1).2.2 0
      = ⟨some 8, some 8, some 5⟩ :=
  ⟨by decide, by decide, by decide, by decide,
   ((copy_up_ref_failure env0 world0 (mem_cipher ⟨some 200, some 200, none⟩)
      (mem_digest ⟨some 200, some 200, none⟩) 0 1 200).1 (by decide) (by decide)).1,
   ((copy_up_ref_failure env0 world0 (mem_cipher ⟨some 200, some 200, none⟩)
      (mem_digest ⟨some 200, some 200, none⟩) 0 1 200).1 (by decide) (by decide)).2.2.1,
   ((copy_up_ref_failure env0 world0 (mem_cipher ⟨some 200, some 200, none⟩)
      (mem_digest ⟨some 200, some 200, none⟩) 0 1 200).2 (by decide) (by decide)).1,
   ((copy_up_ref_failure env0 world0 (mem_cipher ⟨some 200, some 200, none⟩)
      (mem_digest ⟨some 200, some 200, none⟩) 0 1 200).2 (by decide) (by decide)).2.2.1⟩

/-- C5: when the source's owned handle is empty, copy (cipher and digest
variant) returns success and makes no call at all (the world is untouched, so
no reference count is incremented); afterwards the destination's active and
legacy-fallback fields are the source's, its owned field is empty, and the
source and every binding other than the destination are unchanged. -/
theorem copy_without_owned (env : Env) (w : World) (mc : Nat → PROV_CIPHER)
    (md : Nat → PROV_DIGEST) (dst src : Nat) :
    ((mc src).alloc_cipher = none →
      (ossl_prov_cipher_copy env w mc dst src).1 = 1 ∧
      (ossl_prov_cipher_copy env w mc dst src).2.1 = w ∧
      calls_between w (ossl_prov_cipher_copy env w mc dst src).2.1 = [] ∧
      ((ossl_prov_cipher_copy env w mc dst src).2.2 dst).cipher = (mc src).cipher ∧
      ((ossl_prov_cipher_copy env w mc dst src).2.2 dst).engine = (mc src).engine ∧
      ((ossl_prov_cipher_copy env w mc dst src).2.2 dst).alloc_cipher = none ∧
      (ossl_prov_cipher_copy env w mc dst src).2.2 src = mc src ∧
      ∀ a, a ≠ dst → (ossl_prov_cipher_copy env w mc dst src).2.2 a = mc a) ∧
    ((md src).alloc_md = none →
      (ossl_prov_digest_copy env w md dst src).1 = 1 ∧
      (ossl_prov_digest_copy env w md dst src).2.1 = w ∧
      calls_between w (ossl_prov_digest_copy env w md dst src).2.1 = [] ∧
      ((ossl_prov_digest_copy env w md dst src).2.2 dst).md = (md src).md ∧
      ((ossl_prov_digest_copy env w md dst src).2.2 dst).engine = (md src).engine ∧
      ((ossl_prov_digest_copy env w md dst src).2.2 dst).alloc_md = none ∧
      (ossl_prov_digest_copy env w md dst src).2.2 src = md src ∧
      ∀ a, a ≠ dst → (ossl_prov_digest_copy env w md dst src).2.2 a = md a) := by
  constructor
  · intro hs
    by_cases hd : src = dst
    · subst hd
      have hb : mc src = ⟨(mc src).cipher, none, (mc src).engine⟩ := by
        rw [← hs]
      simp [ossl_prov_cipher_copy, hs, store]
      refine ⟨hb.symm, ?_⟩
      intro a ha
      simp [ha]
    · simp [ossl_prov_cipher_copy, hs, store, hd]
      intro a ha
      simp [ha]
  · intro hs
    by_cases hd : src = dst
    · subst hd
      have hb : md src = ⟨(md src).md, none, (md src).engine⟩ := by
        rw [← hs]
      simp [ossl_prov_digest_copy, hs, store]
      refine ⟨hb.symm, ?_⟩
      intro a ha
      simp [ha]
    · simp [ossl_prov_digest_copy, hs, store, hd]
      intro a ha
      simp [ha]

/-- C5 (instance): the sources at address 1 are legacy-only bindings (active
21 and 22, engine 5, nothing owned); the copies succeed and the destinations
at address 0 take the active and engine fields with nothing owned. -/
theorem copy_without_owned_witness :
    (mem_cipher ⟨some 21, none, some 5⟩ 1).alloc_cipher = none ∧
    (mem_digest ⟨some 22, none, some 5⟩ 1).alloc_md = none ∧
    (ossl_prov_cipher_copy env0 world0 (mem_cipher ⟨some 21, none, some 5⟩) 0 1).1 = 1 ∧
    (ossl_prov_cipher_copy env0 world0 (mem_cipher ⟨some 21, none, some 5⟩) 0 1).2.2 0
      = ⟨some 21, none, some 5⟩ ∧
    (ossl_prov_cipher_copy env0 world0 (mem_cipher ⟨some 21, none, some 5⟩) 0 1).2.2 1
      = ⟨some 21, none, some 5⟩ ∧
    (ossl_prov_digest_copy env0 world0 (mem_digest ⟨some 22, none, some 5⟩) 0 1).1 = 1 ∧
    (ossl_prov_digest_copy env0 world0 (mem_digest ⟨some 22, none, some 5⟩) 0 1).2.2 0
      = ⟨some 22, none, some 5⟩ ∧
    (ossl_prov_digest_copy env0 world0 (mem_digest ⟨some 22, none, some 5⟩) 0 1).2.2 1
      = ⟨some 22, none, some 5⟩ :=
  ⟨by decide, by decide,
   ((copy_without_owned env0 world0 (mem_cipher ⟨some 21, none, some 5⟩)
      (mem_digest ⟨some 22, none, some 5⟩) 0 1).1 (by decide)).1,
   by decide,
   ((copy_without_owned env0 world0 (mem_cipher ⟨some 21, none, some 5⟩)
      (mem_digest ⟨some 22, none, some 5⟩) 0 1).1 (by decide)).2.2.2.2.2.2.1,
   ((copy_without_owned env0 world0 (mem_cipher ⟨some 21, none, some 5⟩)
      (mem_digest ⟨some 22, none, some 5⟩) 0 1).2 (by decide)).1,
   by decide,
   ((copy_without_owned env0 world0 (mem_cipher ⟨some 22, none, some 5⟩)
      (mem_digest ⟨some 22, none, some 5⟩) 0 1).2 (by decide)).2.2.2.2.2.2.1⟩

/-- C6: reset (cipher and digest variant) makes exactly one call, the release
of the owned field: a handle is released once if it is the owned handle and
never otherwise, and its reference count drops by one; all three fields are
empty afterwards.  A second reset releases no handle (its one call is the
release of `NULL`), changes no reference count and yields the same empty
binding. -/
theorem reset_releases_once_idempotent (w : World) (pc : PROV_CIPHER) (pd : PROV_DIGEST) :
    ((ossl_prov_cipher_reset w pc).2 = ⟨none, none, none⟩ ∧
      calls_between w (ossl_prov_cipher_reset w pc).1
        = [Call.EVP_CIPHER_free pc.alloc_cipher] ∧
      (∀ h, (calls_between w (ossl_prov_cipher_reset w pc).1).count
          (Call.EVP_CIPHER_free (some h)) = if pc.alloc_cipher = some h then 1 else 0) ∧
      (∀ k, (ossl_prov_cipher_reset w pc).1.refcnt k
          = w.refcnt k - (if pc.alloc_cipher = some k then 1 else 0)) ∧
      (ossl_prov_cipher_reset (ossl_prov_cipher_reset w pc).1
          (ossl_prov_cipher_reset w pc).2).2 = (ossl_prov_cipher_reset w pc).2 ∧
      calls_between (ossl_prov_cipher_reset w pc).1
          (ossl_prov_cipher_reset (ossl_prov_cipher_reset w pc).1
            (ossl_prov_cipher_reset w pc).2).1 = [Call.EVP_CIPHER_free none] ∧
      (ossl_prov_cipher_reset (ossl_prov_cipher_reset w pc).1
          (ossl_prov_cipher_reset w pc).2).1.refcnt
        = (ossl_prov_cipher_reset w pc).1.refcnt) ∧
    ((ossl_prov_digest_reset w pd).2 = ⟨none, none, none⟩ ∧
      calls_between w (ossl_prov_digest_reset w pd).1
        = [Call.EVP_MD_free pd.alloc_md] ∧
      (∀ h, (calls_between w (ossl_prov_digest_reset w pd).1).count
          (Call.EVP_MD_free (some h)) = if pd.alloc_md = some h then 1 else 0) ∧
      (∀ k, (ossl_prov_digest_reset w pd).1.refcnt k
          = w.refcnt k - (if pd.alloc_md = some k then 1 else 0)) ∧
      (ossl_prov_digest_reset (ossl_prov_digest_reset w pd).1
          (ossl_prov_digest_reset w pd).2).2 = (ossl_prov_digest_reset w pd).2 ∧
      calls_between (ossl_prov_digest_reset w pd).1
          (ossl_prov_digest_reset (ossl_prov_digest_reset w pd).1
            (ossl_prov_digest_reset w pd).2).1 = [Call.EVP_MD_free none] ∧
      (ossl_prov_digest_reset (ossl_prov_digest_reset w pd).1
          (ossl_prov_digest_reset w pd).2).1.refcnt
        = (ossl_prov_digest_reset w pd).1.refcnt) := by
  constructor
  · cases ha : pc.alloc_cipher with
    | none =>
      simp [ossl_prov_cipher_reset, EVP_CIPHER_free, ha, calls_between]
    | some h0 =>
      simp [ossl_prov_cipher_reset, EVP_CIPHER_free, ha, calls_between]
      refine ⟨?_, ?_⟩
      · intro h
        by_cases e : h0 = h <;> simp [e, List.count_cons]
      · intro k
        by_cases e : k = h0
        · subst e; simp; ring
        · have e2 : ¬ h0 = k := fun x => e x.symm
          simp [e, e2]
  · cases ha : pd.alloc_md with
    | none =>
      simp [ossl_prov_digest_reset, EVP_MD_free, ha, calls_between]
    | some h0 =>
      simp [ossl_prov_digest_reset, EVP_MD_free, ha, calls_between]
      refine ⟨?_, ?_⟩
      · intro h
        by_cases e : h0 = h <;> simp [e, List.count_cons]
      · intro k
        by_cases e : k = h0
        · subst e; simp; ring
        · have e2 : ¬ h0 = k := fun x => e x.symm
          simp [e, e2]

/-- C7: the binding invariant holds for the empty binding and is preserved by
reset, by copy (for the destination and the source, on success and on
failure; on success the destination satisfies it as soon as the source does)
and by `load_from_params`, whatever the parameter set and whatever the
registry and the legacy tables answer; cipher and digest variant. -/
theorem binding_invariant_preserved (c : Config) (env : Env) (w : World)
    (pc : PROV_CIPHER) (pd : PROV_DIGEST) (params : Option (List OSSL_PARAM)) (ctx : Nat)
    (mc : Nat → PROV_CIPHER) (md : Nat → PROV_DIGEST) (dst src : Nat) :
    (cipher_binding_inv env ⟨none, none, none⟩ ∧
      cipher_binding_inv env (ossl_prov_cipher_reset w pc).2 ∧
      (cipher_binding_inv env (mc src) → cipher_binding_inv env (mc dst) →
        cipher_binding_inv env ((ossl_prov_cipher_copy env w mc dst src).2.2 dst) ∧
        cipher_binding_inv env ((ossl_prov_cipher_copy env w mc dst src).2.2 src)) ∧
      (cipher_binding_inv env (mc src) → (ossl_prov_cipher_copy env w mc dst src).1 = 1 →
        cipher_binding_inv env ((ossl_prov_cipher_copy env w mc dst src).2.2 dst)) ∧
      (cipher_binding_inv env pc →
        cipher_binding_inv env (ossl_prov_cipher_load_from_params c env w pc params ctx).2.2)) ∧
    (digest_binding_inv env ⟨none, none, none⟩ ∧
      digest_binding_inv env (ossl_prov_digest_reset w pd).2 ∧
      (digest_binding_inv env (md src) → digest_binding_inv env (md dst) →
        digest_binding_inv env ((ossl_prov_digest_copy env w md dst src).2.2 dst) ∧
        digest_binding_inv env ((ossl_prov_digest_copy env w md dst src).2.2 src)) ∧
      (digest_binding_inv env (md src) → (ossl_prov_digest_copy env w md dst src).1 = 1 →
        digest_binding_inv env ((ossl_prov_digest_copy env w md dst src).2.2 dst)) ∧
      (digest_binding_inv env pd →
        digest_binding_inv env (ossl_prov_digest_load_from_params c env w pd params ctx).2.2)) := by
  have hempty_c : cipher_binding_inv env ⟨none, none, none⟩ :=
    ⟨fun _ e => by simp at e, fun _ _ e => by simp at e⟩
  have hempty_d : digest_binding_inv env ⟨none, none, none⟩ :=
    ⟨fun _ e => by simp at e, fun _ _ e => by simp at e⟩
  refine ⟨⟨hempty_c, hempty_c, ?_, ?_, cipher_load_inv c env w pc params ctx⟩,
    ⟨hempty_d, hempty_d, ?_, ?_, digest_load_inv c env w pd params ctx⟩⟩
  · intro hsrc hdst
    rcases cipher_copy_cases env w mc dst src with ⟨_, hd, ho⟩ | ⟨_, hm⟩
    · refine ⟨by rw [hd]; exact hsrc, ?_⟩
      by_cases e : src = dst
      · subst e; rw [hd]; exact hsrc
      · rw [ho src e]; exact hsrc
    · rw [hm]; exact ⟨hdst, hsrc⟩
  · intro hsrc hret
    rcases cipher_copy_cases env w mc dst src with ⟨_, hd, _⟩ | ⟨h0, _⟩
    · rw [hd]; exact hsrc
    · rw [h0] at hret; exact absurd hret (by decide)
  · intro hsrc hdst
    rcases digest_copy_cases env w md dst src with ⟨_, hd, ho⟩ | ⟨_, hm⟩
    · refine ⟨by rw [hd]; exact hsrc, ?_⟩
      by_cases e : src = dst
      · subst e; rw [hd]; exact hsrc
      · rw [ho src e]; exact hsrc
    · rw [hm]; exact ⟨hdst, hsrc⟩
  · intro hsrc hret
    rcases digest_copy_cases env w md dst src with ⟨_, hd, _⟩ | ⟨h0, _⟩
    · rw [hd]; exact hsrc
    · rw [h0] at hret; exact absurd hret (by decide)

/-- In `env0` the binding that owns and uses cipher 7 satisfies the invariant. -/
theorem owned_cipher_inv : cipher_binding_inv env0 ⟨some 7, some 7, some 5⟩ :=
  ⟨fun _ e => e, fun e => by simp at e⟩

/-- In `env0` the legacy-only binding on cipher 21 ("DES-CBC") satisfies the
invariant. -/
theorem legacy_cipher_inv : cipher_binding_inv env0 ⟨some 21, none, none⟩ :=
  ⟨fun _ e => by simp at e,
   fun _ h e => ⟨Data.str "DES-CBC", by simp at e; subst e; decide⟩⟩

/-- In `env0` the binding that owns and uses digest 8 satisfies the invariant. -/
theorem owned_digest_inv : digest_binding_inv env0 ⟨some 8, some 8, some 5⟩ :=
  ⟨fun _ e => e, fun e => by simp at e⟩

/-- In `env0` the legacy-only binding on digest 22 ("MD5") satisfies the
invariant. -/
theorem legacy_digest_inv : digest_binding_inv env0 ⟨some 22, none, none⟩ :=
  ⟨fun _ e => by simp at e,
   fun _ h e => ⟨Data.str "MD5", by simp at e; subst e; decide⟩⟩

/-- C7 (instance): in `env0` the destinations at address 0 own handles 7 and
8 and the sources at address 1 are legacy-only; after a successful copy the
destinations satisfy the invariant, and loading {cipher: "DES-CBC",
digest: "MD5"}, which only the legacy tables know, leaves the legacy-only
bindings on handles 21 and 22, which satisfy it too. -/
theorem binding_invariant_preserved_witness :
    (ossl_prov_cipher_copy env0 world0 (mem_cipher ⟨some 21, none, none⟩) 0 1).1 = 1 ∧
    (ossl_prov_digest_copy env0 world0 (mem_digest ⟨some 22, none, none⟩) 0 1).1 = 1 ∧
    cipher_binding_inv env0
      ((ossl_prov_cipher_copy env0 world0 (mem_cipher ⟨some 21, none, none⟩) 0 1).2.2 0) ∧
    cipher_binding_inv env0
      ((ossl_prov_cipher_copy env0 world0 (mem_cipher ⟨some 21, none, none⟩) 0 1).2.2 1) ∧
    cipher_binding_inv env0
      ((ossl_prov_cipher_copy env0 world0 (mem_cipher ⟨some 21, none, none⟩) 0 1).2.2 0) ∧
    (ossl_prov_cipher_load_from_params (openssl_config false false) env0 world0
      ⟨some 7, some 7, some 5⟩
      (some [utf8_param "cipher" "DES-CBC", utf8_param "digest" "MD5"]) 0).2.2
      = ⟨some 21, none, none⟩ ∧
    cipher_binding_inv env0
      (ossl_prov_cipher_load_from_params (openssl_config false false) env0 world0
        ⟨some 7, some 7, some 5⟩
        (some [utf8_param "cipher" "DES-CBC", utf8_param "digest" "MD5"]) 0).2.2 ∧
    digest_binding_inv env0
      ((ossl_prov_digest_copy env0 world0 (mem_digest ⟨some 22, none, none⟩) 0 1).2.2 0) ∧
    digest_binding_inv env0
      ((ossl_prov_digest_copy env0 world0 (mem_digest ⟨some 22, none, none⟩) 0 1).2.2 1) ∧
    digest_binding_inv env0
      ((ossl_prov_digest_copy env0 world0 (mem_digest ⟨some 22, none, none⟩) 0 1).2.2 0) ∧
    (ossl_prov_digest_load_from_params (openssl_config false false) env0 world0
      ⟨some 8, some 8, some 5⟩
      (some [utf8_param "cipher" "DES-CBC", utf8_param "digest" "MD5"]) 0).2.2
      = ⟨some 22, none, none⟩ ∧
    digest_binding_inv env0
      (ossl_prov_digest_load_from_params (openssl_config false false) env0 world0
        ⟨some 8, some 8, some 5⟩
        (some [utf8_param "cipher" "DES-CBC", utf8_param "digest" "MD5"]) 0).2.2 :=
  have T := binding_invariant_preserved (openssl_config false false) env0 world0
    ⟨some 7, some 7, some 5⟩ ⟨some 8, some 8, some 5⟩
    (some [utf8_param "cipher" "DES-CBC", utf8_param "digest" "MD5"]) 0
    (mem_cipher ⟨some 21, none, none⟩) (mem_digest ⟨some 22, none, none⟩) 0 1
  ⟨by decide, by decide,
   (T.1.2.2.1 legacy_cipher_inv owned_cipher_inv).1,
   (T.1.2.2.1 legacy_cipher_inv owned_cipher_inv).2,
   T.1.2.2.2.1 legacy_cipher_inv (by decide),
   by decide,
   T.1.2.2.2.2 owned_cipher_inv,
   (T.2.2.2.1 legacy_digest_inv owned_digest_inv).1,
   (T.2.2.2.1 legacy_digest_inv owned_digest_inv).2,
   T.2.2.2.2.1 legacy_digest_inv (by decide),
   by decide,
   T.2.2.2.2.2 owned_digest_inv⟩

/-- C8: on an empty binding, with a string-typed algorithm-name entry `p`, a
properties entry that is absent or string-typed, no engine entry, and a
registry that answers handle `h` for (name, property query),
`load_from_params` returns success with owned = active = `h` and
legacy-fallback empty; the calls it makes are exactly the release of `NULL`,
the diagnostic checkpoint, the fetch and the discarding of diagnostics, so the
legacy name table is not consulted, and `h` gains one reference.  A reset
after it makes exactly one call, the release of `h`, brings the reference
count of `h` back to its value before the load and leaves the binding empty.
Cipher and digest variant, in every build mode. -/
theorem load_then_reset (c : Config) (env : Env) (w : World)
    (params : Option (List OSSL_PARAM)) (ctx : Nat) (p : OSSL_PARAM) (h : Nat)
    (ht : p.data_type = c.OSSL_PARAM_UTF8_STRING)
    (hprops : ∀ q, OSSL_PARAM_locate_const params c.OSSL_ALG_PARAM_PROPERTIES = some q →
      q.data_type = c.OSSL_PARAM_UTF8_STRING)
    (hE : OSSL_PARAM_locate_const params c.OSSL_ALG_PARAM_ENGINE = none) :
    (OSSL_PARAM_locate_const params c.OSSL_ALG_PARAM_CIPHER = some p →
      env.cipher_fetch ctx p.data
        ((OSSL_PARAM_locate_const params c.OSSL_ALG_PARAM_PROPERTIES).map (fun q => q.data))
        = some h →
      (ossl_prov_cipher_load_from_params c env w ⟨none, none, none⟩ params ctx).1 = 1 ∧
      (ossl_prov_cipher_load_from_params c env w ⟨none, none, none⟩ params ctx).2.2
        = ⟨some h, some h, none⟩ ∧
      calls_between w
          (ossl_prov_cipher_load_from_params c env w ⟨none, none, none⟩ params ctx).2.1
        = [Call.EVP_CIPHER_free none, Call.ERR_set_mark,
           Call.EVP_CIPHER_fetch ctx p.data
             ((OSSL_PARAM_locate_const params c.OSSL_ALG_PARAM_PROPERTIES).map
               (fun q => q.data)),
           Call.ERR_pop_to_mark] ∧
      (∀ n, Call.EVP_get_cipherbyname n ∉ calls_between w
          (ossl_prov_cipher_load_from_params c env w ⟨none, none, none⟩ params ctx).2.1) ∧
      (ossl_prov_cipher_load_from_params c env w ⟨none, none, none⟩ params ctx).2.1.refcnt h
        = w.refcnt h + 1 ∧
      (ossl_prov_cipher_reset
          (ossl_prov_cipher_load_from_params c env w ⟨none, none, none⟩ params ctx).2.1
          (ossl_prov_cipher_load_from_params c env w ⟨none, none, none⟩ params ctx).2.2).2
        = ⟨none, none, none⟩ ∧
      calls_between
          (ossl_prov_cipher_load_from_params c env w ⟨none, none, none⟩ params ctx).2.1
          (ossl_prov_cipher_reset
            (ossl_prov_cipher_load_from_params c env w ⟨none, none, none⟩ params ctx).2.1
            (ossl_prov_cipher_load_from_params c env w ⟨none, none, none⟩ params ctx).2.2).1
        = [Call.EVP_CIPHER_free (some h)] ∧
      (ossl_prov_cipher_reset
          (ossl_prov_cipher_load_from_params c env w ⟨none, none, none⟩ params ctx).2.1
          (ossl_prov_cipher_load_from_params c env w ⟨none, none, none⟩ params ctx).2.2).1.refcnt h
        = w.refcnt h) ∧
    (OSSL_PARAM_locate_const params c.OSSL_ALG_PARAM_DIGEST = some p →
      env.md_fetch ctx p.data
        ((OSSL_PARAM_locate_const params c.OSSL_ALG_PARAM_PROPERTIES).map (fun q => q.data))
        = some h →
      (ossl_prov_digest_load_from_params c env w ⟨none, none, none⟩ params ctx).1 = 1 ∧
      (ossl_prov_digest_load_from_params c env w ⟨none, none, none⟩ params ctx).2.2
        = ⟨some h, some h, none⟩ ∧
      calls_between w
          (ossl_prov_digest_load_from_params c env w ⟨none, none, none⟩ params ctx).2.1
        = [Call.EVP_MD_free none, Call.ERR_set_mark,
           Call.EVP_MD_fetch ctx p.data
             ((OSSL_PARAM_locate_const params c.OSSL_ALG_PARAM_PROPERTIES).map
               (fun q => q.data)),
           Call.ERR_pop_to_mark] ∧
      (∀ n, Call.EVP_get_digestbyname n ∉ calls_between w
          (ossl_prov_digest_load_from_params c env w ⟨none, none, none⟩ params ctx).2.1) ∧
      (ossl_prov_digest_load_from_params c env w ⟨none, none, none⟩ params ctx).2.1.refcnt h
        = w.refcnt h + 1 ∧
      (ossl_prov_digest_reset
          (ossl_prov_digest_load_from_params c env w ⟨none, none, none⟩ params ctx).2.1
          (ossl_prov_digest_load_from_params c env w ⟨none, none, none⟩ params ctx).2.2).2
        = ⟨none, none, none⟩ ∧
      calls_between
          (ossl_prov_digest_load_from_params c env w ⟨none, none, none⟩ params ctx).2.1
          (ossl_prov_digest_reset
            (ossl_prov_digest_load_from_params c env w ⟨none, none, none⟩ params ctx).2.1
            (ossl_prov_digest_load_from_params c env w ⟨none, none, none⟩ params ctx).2.2).1
        = [Call.EVP_MD_free (some h)] ∧
      (ossl_prov_digest_reset
          (ossl_prov_digest_load_from_params c env w ⟨none, none, none⟩ params ctx).2.1
          (ossl_prov_digest_load_from_params c env w ⟨none, none, none⟩ params ctx).2.2).1.refcnt h
        = w.refcnt h) := by
  have hacc : common_accepts c env params :=
    ⟨hprops, fun _ q hq => by rw [hE] at hq; cases hq⟩
  have hs := load_common_spec c env w params none
  have h1 := hs.2.1.mpr hacc
  have hne : named_engine c env params = none := by
    unfold named_engine; rw [hE]; simp
  have heng := (hs.2.2.1 h1).1.trans hne
  have hpq := (hs.2.2.1 h1).2
  have hw := load_common_world_no_engine c env w params none hE
  constructor
  · intro hp hf
    rw [← hpq] at hf
    rw [cipher_load_fetched c env w ⟨none, none, none⟩ params ctx p h h1 hp ht hf]
    simp only [EVP_CIPHER_fetch, hf, heng, hw]
    rw [hpq]
    simp [ERR_pop_to_mark, ERR_set_mark, EVP_CIPHER_free, calls_between,
      ossl_prov_cipher_reset]
  · intro hp hf
    rw [← hpq] at hf
    rw [digest_load_fetched c env w ⟨none, none, none⟩ params ctx p h h1 hp ht hf]
    simp only [EVP_MD_fetch, hf, heng, hw]
    rw [hpq]
    simp [ERR_pop_to_mark, ERR_set_mark, EVP_MD_free, calls_between,
      ossl_prov_digest_reset]

/-- C8 (instance): the set {cipher: "AES-256-CBC", properties: "fips=yes"} on
an empty binding: the registry of `env0` answers handle 7, the load succeeds
with owned = active = 7 and no legacy fallback, and the reset that follows
leaves the empty binding and the reference count of 7 at its old value 0. -/
theorem load_then_reset_witness :
    (utf8_param "cipher" "AES-256-CBC").data_type
      = (openssl_config false false).OSSL_PARAM_UTF8_STRING ∧
    OSSL_PARAM_locate_const
        (some [utf8_param "cipher" "AES-256-CBC", utf8_param "properties" "fips=yes"])
        (openssl_config false false).OSSL_ALG_PARAM_ENGINE = none ∧
    OSSL_PARAM_locate_const
        (some [utf8_param "cipher" "AES-256-CBC", utf8_param "properties" "fips=yes"])
        (openssl_config false false).OSSL_ALG_PARAM_CIPHER
      = some (utf8_param "cipher" "AES-256-CBC") ∧
    (ossl_prov_cipher_load_from_params (openssl_config false false) env0 world0
        ⟨none, none, none⟩
        (some [utf8_param "cipher" "AES-256-CBC", utf8_param "properties" "fips=yes"]) 0).1
      = 1 ∧
    (ossl_prov_cipher_load_from_params (openssl_config false false) env0 world0
        ⟨none, none, none⟩
        (some [utf8_param "cipher" "AES-256-CBC", utf8_param "properties" "fips=yes"]) 0).2.2
      = ⟨some 7, some 7, none⟩ ∧
    (ossl_prov_cipher_reset
        (ossl_prov_cipher_load_from_params (openssl_config false false) env0 world0
          ⟨none, none, none⟩
          (some [utf8_param "cipher" "AES-256-CBC", utf8_param "properties" "fips=yes"])
          0).2.1
        (ossl_prov_cipher_load_from_params (openssl_config false false) env0 world0
          ⟨none, none, none⟩
          (some [utf8_param "cipher" "AES-256-CBC", utf8_param "properties" "fips=yes"])
          0).2.2).1.refcnt 7 = 0 ∧
    (ossl_prov_digest_load_from_params (openssl_config false false) env0 world0
        ⟨none, none, none⟩
        (some [utf8_param "digest" "SHA2-256", utf8_param "properties" "fips=yes"]) 0).2.2
      = ⟨some 8, some 8, none⟩ := by
  have hpc : ∀ q, OSSL_PARAM_locate_const
      (some [utf8_param "cipher" "AES-256-CBC", utf8_param "properties" "fips=yes"])
      (openssl_config false false).OSSL_ALG_PARAM_PROPERTIES = some q →
      q.data_type = (openssl_config false false).OSSL_PARAM_UTF8_STRING := by
    intro q hq
    have e : OSSL_PARAM_locate_const
        (some [utf8_param "cipher" "AES-256-CBC", utf8_param "properties" "fips=yes"])
        (openssl_config false false).OSSL_ALG_PARAM_PROPERTIES
        = some (utf8_param "properties" "fips=yes") := by decide
    rw [e] at hq
    cases hq
    decide
  have hpd : ∀ q, OSSL_PARAM_locate_const
      (some [utf8_param "digest" "SHA2-256", utf8_param "properties" "fips=yes"])
      (openssl_config false false).OSSL_ALG_PARAM_PROPERTIES = some q →
      q.data_type = (openssl_config false false).OSSL_PARAM_UTF8_STRING := by
    intro q hq
    have e : OSSL_PARAM_locate_const
        (some [utf8_param "digest" "SHA2-256", utf8_param "properties" "fips=yes"])
        (openssl_config false false).OSSL_ALG_PARAM_PROPERTIES
        = some (utf8_param "properties" "fips=yes") := by decide
    rw [e] at hq
    cases hq
    decide
  have T := (load_then_reset (openssl_config false false) env0 world0
    (some [utf8_param "cipher" "AES-256-CBC", utf8_param "properties" "fips=yes"]) 0
    (utf8_param "cipher" "AES-256-CBC") 7 (by decide) hpc (by decide)).1
    (by decide) (by decide)
  have D := (load_then_reset (openssl_config false false) env0 world0
    (some [utf8_param "digest" "SHA2-256", utf8_param "properties" "fips=yes"]) 0
    (utf8_param "digest" "SHA2-256") 8 (by decide) hpd (by decide)).2
    (by decide) (by decide)
  exact ⟨by decide, by decide, by decide, T.1, T.2.1, T.2.2.2.2.2.2.2, D.2.1⟩

/-- C9: `ossl_prov_ec_check` returns 1 or 0, and it returns 1 exactly when the
build is not a FIPS build, or the key has a group whose curve identifier is
defined and has a NIST name, whose strength, the floor of half the order
bits, is at least 80, and at least 112 unless `protect` is 0.  In a FIPS
build, for a curve with a NIST name: order bits 224 pass with `protect` set,
order bits 160 pass with `protect` 0, order bits 150 fail whatever `protect`
is; and a curve without identifier (explicit parameters) fails whatever its
order bits and `protect` are. -/
theorem ec_check_iff (c : Config) (env : Env) (w : World) (ec : EC_KEY) (protect : Int) :
    ((ossl_prov_ec_check c env w ec protect).1 = 1 ↔
      (c.FIPS_MODULE = false ∨
        ∃ g, ec.group = some g ∧ g.curve_name ≠ c.NID_undef ∧
          env.nid2nist g.curve_name ≠ none ∧
          80 ≤ Int.fdiv g.order_bits 2 ∧
          (protect = 0 ∨ 112 ≤ Int.fdiv g.order_bits 2))) ∧
    ((ossl_prov_ec_check c env w ec protect).1 = 1 ∨
      (ossl_prov_ec_check c env w ec protect).1 = 0) ∧
    (c.FIPS_MODULE = true →
      (∀ nid, nid ≠ c.NID_undef → env.nid2nist nid ≠ none →
        (protect ≠ 0 → (ossl_prov_ec_check c env w ⟨some ⟨nid, 224⟩⟩ protect).1 = 1) ∧
        (ossl_prov_ec_check c env w ⟨some ⟨nid, 160⟩⟩ 0).1 = 1 ∧
        (ossl_prov_ec_check c env w ⟨some ⟨nid, 150⟩⟩ protect).1 = 0) ∧
      (∀ bits, (ossl_prov_ec_check c env w ⟨some ⟨c.NID_undef, bits⟩⟩ protect).1 = 0)) := by
  have main : ∀ (ec : EC_KEY) (protect : Int),
      ((ossl_prov_ec_check c env w ec protect).1 = 1 ↔
        (c.FIPS_MODULE = false ∨
          ∃ g, ec.group = some g ∧ g.curve_name ≠ c.NID_undef ∧
            env.nid2nist g.curve_name ≠ none ∧
            80 ≤ Int.fdiv g.order_bits 2 ∧
            (protect = 0 ∨ 112 ≤ Int.fdiv g.order_bits 2))) ∧
      ((ossl_prov_ec_check c env w ec protect).1 = 1 ∨
        (ossl_prov_ec_check c env w ec protect).1 = 0) := by
    intro ec protect
    unfold ossl_prov_ec_check
    cases hf : c.FIPS_MODULE with
    | false => simp
    | true =>
      cases hg : ec.group with
      | none => simp
      | some g =>
        by_cases hn : g.curve_name = c.NID_undef
        · simp [hn]
        · cases hc : env.nid2nist g.curve_name with
          | none => simp [hn, hc]
          | some name =>
            have h80 := tdiv_two_ge_iff g.order_bits 80 (by decide)
            have h112 := tdiv_two_ge_iff g.order_bits 112 (by decide)
            by_cases s80 : g.order_bits.tdiv 2 < 80
            · have : ¬ (80 ≤ g.order_bits.fdiv 2) := fun x => absurd (h80.mpr x) (by omega)
              simp [hn, hc, s80, this]
            · have a80 : 80 ≤ g.order_bits.fdiv 2 := h80.mp (by omega)
              by_cases hp : protect = 0
              · simp [hn, hc, s80, a80, hp]
              · by_cases s112 : g.order_bits.tdiv 2 < 112
                · have : ¬ (112 ≤ g.order_bits.fdiv 2) :=
                    fun x => absurd (h112.mpr x) (by omega)
                  simp [hn, hc, s80, a80, hp, s112, this]
                · have a112 : 112 ≤ g.order_bits.fdiv 2 := h112.mp (by omega)
                  simp [hn, hc, s80, a80, hp, s112, a112]
  refine ⟨(main ec protect).1, (main ec protect).2, ?_⟩
  intro hf
  refine ⟨?_, ?_⟩
  · intro nid hn hc
    refine ⟨?_, ?_, ?_⟩
    · intro _
      exact (main ⟨some ⟨nid, 224⟩⟩ protect).1.mpr
        (Or.inr ⟨⟨nid, 224⟩, rfl, hn, hc,
          show (80 : Int) ≤ Int.fdiv 224 2 by decide,
          Or.inr (show (112 : Int) ≤ Int.fdiv 224 2 by decide)⟩)
    · exact (main ⟨some ⟨nid, 160⟩⟩ 0).1.mpr
        (Or.inr ⟨⟨nid, 160⟩, rfl, hn, hc,
          show (80 : Int) ≤ Int.fdiv 160 2 by decide, Or.inl rfl⟩)
    · rcases (main ⟨some ⟨nid, 150⟩⟩ protect).2 with h1 | h0
      · rcases (main ⟨some ⟨nid, 150⟩⟩ protect).1.mp h1 with hx | ⟨g, hg, _, _, h80, _⟩
        · rw [hf] at hx; cases hx
        · simp at hg
          subst hg
          exact absurd (show (80 : Int) ≤ Int.fdiv 150 2 from h80) (by decide)
      · exact h0
  · intro bits
    rcases (main ⟨some ⟨c.NID_undef, bits⟩⟩ protect).2 with h1 | h0
    · rcases (main ⟨some ⟨c.NID_undef, bits⟩⟩ protect).1.mp h1 with hx | ⟨g, hg, hn, _⟩
      · rw [hf] at hx; cases hx
      · simp at hg
        subst hg
        exact absurd rfl hn
    · exact h0

/-- C9 (instance): a FIPS build, curve identifier 713 (NIST name "P-224" in
`env0`) and `protect` 1: 224 order bits pass, 160 pass with `protect` 0, 150
fail, and a curve without identifier fails. -/
theorem ec_check_iff_witness :
    (openssl_config true false).FIPS_MODULE = true ∧
    (713 : Int) ≠ (openssl_config true false).NID_undef ∧
    env0.nid2nist 713 ≠ none ∧
    (1 : Int) ≠ 0 ∧
    (ossl_prov_ec_check (openssl_config true false) env0 world0 ⟨some ⟨713, 224⟩⟩ 1).1 = 1 ∧
    (ossl_prov_ec_check (openssl_config true false) env0 world0 ⟨some ⟨713, 160⟩⟩ 0).1 = 1 ∧
    (ossl_prov_ec_check (openssl_config true false) env0 world0 ⟨some ⟨713, 150⟩⟩ 1).1 = 0 ∧
    (ossl_prov_ec_check (openssl_config true false) env0 world0 ⟨some ⟨0, 521⟩⟩ 1).1 = 0 :=
  ⟨by decide, by decide, by decide, by decide,
   (((ec_check_iff (openssl_config true false) env0 world0 ⟨none⟩ 1).2.2 (by decide)).1
      713 (by decide) (by decide)).1 (by decide),
   (((ec_check_iff (openssl_config true false) env0 world0 ⟨none⟩ 1).2.2 (by decide)).1
      713 (by decide) (by decide)).2.1,
   (((ec_check_iff (openssl_config true false) env0 world0 ⟨none⟩ 1).2.2 (by decide)).1
      713 (by decide) (by decide)).2.2,
   ((ec_check_iff (openssl_config true false) env0 world0 ⟨none⟩ 1).2.2 (by decide)).2 521⟩

/-- C10: the approved table has 11 entries.  For a digest handle that is-a
SHA-1, `ossl_prov_digest_get_approved_nid` returns `NID_undef` in a FIPS build
when `sha1_allowed` is 0, `NID_sha1` in a FIPS build when `sha1_allowed` is
set, and `NID_sha1` outside a FIPS build whatever `sha1_allowed` is.  For
every handle that `ossl_prov_digest_md_to_nid` does not resolve to `NID_sha1`
in the approved table, the result (and the world) is that of
`ossl_prov_digest_md_to_nid`, in both builds and for every `sha1_allowed`. -/
theorem approved_nid_sha1_gate (c : Config) (env : Env) (w : World) (md : Option Nat)
    (sha1_allowed : Int) :
    (name_to_nid c).length = 11 ∧
    (∀ h, md = some h → env.md_is_a h c.OSSL_DIGEST_NAME_SHA1 = true →
      (c.FIPS_MODULE = true → sha1_allowed = 0 →
        (ossl_prov_digest_get_approved_nid c env w md sha1_allowed).1 = c.NID_undef) ∧
      (c.FIPS_MODULE = true → sha1_allowed ≠ 0 →
        (ossl_prov_digest_get_approved_nid c env w md sha1_allowed).1 = c.NID_sha1.val) ∧
      (c.FIPS_MODULE = false →
        (ossl_prov_digest_get_approved_nid c env w md sha1_allowed).1 = c.NID_sha1.val)) ∧
    ((ossl_prov_digest_md_to_nid c env w md (name_to_nid c) 11).1 ≠ c.NID_sha1.val →
      ossl_prov_digest_get_approved_nid c env w md sha1_allowed
        = ossl_prov_digest_md_to_nid c env w md (name_to_nid c) 11) := by
  have hlen : OSSL_NELEM (name_to_nid c) = 11 := rfl
  refine ⟨rfl, ?_, ?_⟩
  · intro h hmd hs
    subst hmd
    have hr := md_to_nid_sha1 c env w h hs
    refine ⟨?_, ?_, ?_⟩
    · intro hf ha
      simp [ossl_prov_digest_get_approved_nid, hr, hf, ha]
    · intro hf ha
      simp [ossl_prov_digest_get_approved_nid, hr, hf, ha]
    · intro hf
      simp [ossl_prov_digest_get_approved_nid, hr, hf]
  · intro hne
    unfold ossl_prov_digest_get_approved_nid
    rw [hlen]
    simp [hne]

/-- C10 (instance): handle 30 is-a "SHA1" in `env0`; in a FIPS build the
approved id is 0 (`NID_undef`) when SHA-1 is not allowed and 64 when it is,
outside a FIPS build it is 64; handle 31 matches nothing and resolves to 0. -/
theorem approved_nid_sha1_gate_witness :
    env0.md_is_a 30 (openssl_config true false).OSSL_DIGEST_NAME_SHA1 = true ∧
    (ossl_prov_digest_get_approved_nid (openssl_config true false) env0 world0
      (some 30) 0).1 = 0 ∧
    (ossl_prov_digest_get_approved_nid (openssl_config true false) env0 world0
      (some 30) 1).1 = 64 ∧
    (ossl_prov_digest_get_approved_nid (openssl_config false false) env0 world0
      (some 30) 0).1 = 64 ∧
    (ossl_prov_digest_md_to_nid (openssl_config true false) env0 world0 (some 31)
      (name_to_nid (openssl_config true false)) 11).1
      ≠ (openssl_config true false).NID_sha1.val ∧
    (ossl_prov_digest_get_approved_nid (openssl_config true false) env0 world0
      (some 31) 0).1 = 0 :=
  ⟨by decide,
   ((approved_nid_sha1_gate (openssl_config true false) env0 world0 (some 30) 0).2.1 30 rfl
      (by decide)).1 (by decide) (by decide),
   ((approved_nid_sha1_gate (openssl_config true false) env0 world0 (some 30) 1).2.1 30 rfl
      (by decide)).2.1 (by decide) (by decide),
   ((approved_nid_sha1_gate (openssl_config false false) env0 world0 (some 30) 0).2.1 30 rfl
      (by decide)).2.2 (by decide),
   by decide,
   by
    rw [(approved_nid_sha1_gate (openssl_config true false) env0 world0 (some 31) 0).2.2
      (by decide)]
    decide⟩

/-! ## Digest identity: the scan -/

/-- The scan returns the id of the first entry the handle is-a match for. -/
theorem md_to_nid_loop_first (env : Env) (md : Nat) (mdnid : Int) :
    ∀ (l : List OSSL_ITEM) (w : World) (i : Nat) (e : OSSL_ITEM),
      l[i]? = some e → env.md_is_a md e.ptr = true →
      (∀ j e2, j < i → l[j]? = some e2 → env.md_is_a md e2.ptr = false) →
      (md_to_nid_loop env md mdnid w l).1 = int_of_uint e.id := by
  intro l
  induction l with
  | nil => intro w i e h; simp at h
  | cons a rest ih =>
    intro w i e h hm hprev
    cases i with
    | zero =>
      simp at h
      subst h
      simp [md_to_nid_loop, EVP_MD_is_a, hm]
    | succ k =>
      have ha : env.md_is_a md a.ptr = false := hprev 0 a (Nat.succ_pos k) (by simp)
      simp only [md_to_nid_loop, EVP_MD_is_a, ha]
      simp only [List.getElem?_cons_succ] at h
      apply ih _ k e h hm
      intro j e2 hj hj2
      exact hprev (j + 1) e2 (Nat.succ_lt_succ hj) (by simpa using hj2)

/-- The scan returns the initial value when no entry matches. -/
theorem md_to_nid_loop_none (env : Env) (md : Nat) (mdnid : Int) :
    ∀ (l : List OSSL_ITEM) (w : World),
      (∀ e ∈ l, env.md_is_a md e.ptr = false) →
      (md_to_nid_loop env md mdnid w l).1 = mdnid := by
  intro l
  induction l with
  | nil => intro w _; rfl
  | cons a rest ih =>
    intro w h
    have ha : env.md_is_a md a.ptr = false := h a (List.mem_cons_self a rest)
    simp only [md_to_nid_loop, EVP_MD_is_a, ha]
    exact ih _ (fun e he => h e (List.mem_cons_of_mem a he))

/-- A scan that returns something else than the initial value met a match. -/
theorem md_to_nid_loop_ne (env : Env) (md : Nat) (mdnid : Int) (l : List OSSL_ITEM)
    (w : World) (h : (md_to_nid_loop env md mdnid w l).1 ≠ mdnid) :
    ∃ e ∈ l, env.md_is_a md e.ptr = true := by
  by_contra hno
  apply h
  apply md_to_nid_loop_none
  intro e he
  cases hb : env.md_is_a md e.ptr with
  | false => rfl
  | true => exact absurd ⟨e, he, hb⟩ hno

/-- C11 (as stated, refuted): in `env0` handle 30 is-a "SHA1".  (a) Against the
one-row table {0, "SHA1"} the result is 0, the undefined sentinel, although
the handle is not empty and row 0 matches, so the sentinel is not returned
"exactly when" nothing matches.  (b) Against the one-row table
{4294967295, "SHA1"} the result is -1, not the id 4294967295 of the row. -/
theorem md_to_nid_sentinel_collision :
    env0.md_is_a 30 "SHA1" = true ∧
    (ossl_prov_digest_md_to_nid (openssl_config false false) env0 world0 (some 30)
      [⟨0, "SHA1"⟩] 1).1 = (openssl_config false false).NID_undef ∧
    (ossl_prov_digest_md_to_nid (openssl_config false false) env0 world0 (some 30)
      [⟨4294967295, "SHA1"⟩] 1).1 = -1 ∧
    (ossl_prov_digest_md_to_nid (openssl_config false false) env0 world0 (some 30)
      [⟨4294967295, "SHA1"⟩] 1).1 ≠ 4294967295 := by
  decide

/-- C11 (amended): for every digest handle, table and is-a relation.  An empty
handle gives the undefined sentinel and the is-a predicate is not evaluated
(the world is untouched).  For a handle `h`: if row `i < it_len` matches and no
row before it does, the result is the id of row `i` cast to `int`, which is the
id itself when the id is below 2^31, whether or not later rows match; if no
row below `it_len` matches, the result is the sentinel.  Conversely a result
other than the sentinel comes from a non-empty handle and a matching row
below `it_len`. -/
theorem md_to_nid_first_match (c : Config) (env : Env) (w : World) (md : Option Nat)
    (it : List OSSL_ITEM) (it_len : Nat) :
    (md = none →
      ossl_prov_digest_md_to_nid c env w md it it_len = (c.NID_undef, w)) ∧
    (∀ h, md = some h →
      (∀ i e, i < it_len → it[i]? = some e → env.md_is_a h e.ptr = true →
        (∀ j e2, j < i → it[j]? = some e2 → env.md_is_a h e2.ptr = false) →
        (ossl_prov_digest_md_to_nid c env w md it it_len).1 = int_of_uint e.id ∧
        (e.id < 2 ^ 31 →
          (ossl_prov_digest_md_to_nid c env w md it it_len).1 = (e.id : Int))) ∧
      ((∀ i e, i < it_len → it[i]? = some e → env.md_is_a h e.ptr = false) →
        (ossl_prov_digest_md_to_nid c env w md it it_len).1 = c.NID_undef)) ∧
    ((ossl_prov_digest_md_to_nid c env w md it it_len).1 ≠ c.NID_undef →
      ∃ h, md = some h ∧
        ∃ i e, i < it_len ∧ it[i]? = some e ∧ env.md_is_a h e.ptr = true) := by
  have hidx : ∀ e, e ∈ it.take it_len → ∃ i, i < it_len ∧ it[i]? = some e := by
    intro e he
    obtain ⟨i, hi⟩ := List.mem_iff_getElem?.mp he
    rw [List.getElem?_take] at hi
    split at hi
    · exact ⟨i, by assumption, hi⟩
    · cases hi
  refine ⟨?_, ?_, ?_⟩
  · intro h; subst h; rfl
  · intro h hmd
    subst hmd
    refine ⟨?_, ?_⟩
    · intro i e hi he hm hprev
      have key : (ossl_prov_digest_md_to_nid c env w (some h) it it_len).1
          = int_of_uint e.id := by
        unfold ossl_prov_digest_md_to_nid
        apply md_to_nid_loop_first env h c.NID_undef (it.take it_len) w i e
        · rw [List.getElem?_take_of_lt hi]; exact he
        · exact hm
        · intro j e2 hj hj2
          rw [List.getElem?_take_of_lt (lt_trans hj hi)] at hj2
          exact hprev j e2 hj hj2
      refine ⟨key, ?_⟩
      intro hsmall
      rw [key]
      unfold int_of_uint
      have n31 : (2 : Nat) ^ 31 = 2147483648 := by norm_num
      have n32 : (2 : Nat) ^ 32 = 4294967296 := by norm_num
      rw [n31] at hsmall
      rw [n31, n32]
      have hmod : e.id % 4294967296 = e.id := Nat.mod_eq_of_lt (by omega)
      rw [hmod]
      simp [hsmall]
    · intro hno
      unfold ossl_prov_digest_md_to_nid
      apply md_to_nid_loop_none
      intro e he
      obtain ⟨i, hi, hie⟩ := hidx e he
      exact hno i e hi hie
  · intro hne
    cases md with
    | none => exact absurd rfl hne
    | some h =>
      refine ⟨h, rfl, ?_⟩
      unfold ossl_prov_digest_md_to_nid at hne
      obtain ⟨e, he, hm⟩ := md_to_nid_loop_ne env h c.NID_undef _ w hne
      obtain ⟨i, hi, hie⟩ := hidx e he
      exact ⟨i, e, hi, hie, hm⟩

/-- C11 (instance): in `env0` handle 30 is-a "SHA1"; in the table "MD5",
"SHA1" (id 64), "SHA1" (id 99) the first match is row 1 although row 2
matches too, and the result is 64; the empty handle gives the sentinel 0. -/
theorem md_to_nid_first_match_witness :
    sample_items[1]? = some ⟨64, "SHA1"⟩ ∧
    env0.md_is_a 30 "SHA1" = true ∧
    env0.md_is_a 30 "MD5" = false ∧
    (ossl_prov_digest_md_to_nid (openssl_config false false) env0 world0 (some 30)
      sample_items 3).1 = 64 ∧
    (ossl_prov_digest_md_to_nid (openssl_config false false) env0 world0 none
      sample_items 3).1 = 0 := by
  have hprev : ∀ j e2, j < 1 → sample_items[j]? = some e2 → env0.md_is_a 30 e2.ptr = false := by
    intro j e2 hj h
    have hj0 : j = 0 := by omega
    subst hj0
    have e : sample_items[0]? = some ⟨5, "MD5"⟩ := by decide
    rw [e] at h
    cases h
    decide
  have T := (((md_to_nid_first_match (openssl_config false false) env0 world0 (some 30)
    sample_items 3).2.1 30 rfl).1 1 ⟨64, "SHA1"⟩ (by decide) (by decide) (by decide) hprev).2
    (by decide)
  have N := (md_to_nid_first_match (openssl_config false false) env0 world0 none
    sample_items 3).1 rfl
  exact ⟨by decide, by decide, by decide, T, by rw [N]; rfl⟩

/-! ## Capability export cache -/

/-- A slot below the first written one is not touched by `write_from`. -/
theorem write_from_below (l : List OSSL_ALGORITHM) :
    ∀ (out : Nat → OSSL_ALGORITHM) (j k : Nat), k < j → write_from out j l k = out k := by
  induction l with
  | nil => intro out j k _; rfl
  | cons a rest ih =>
    intro out j k hk
    simp only [write_from]
    rw [ih _ (j + 1) k (by omega)]
    simp [store]
    intro h; omega

/-- The slot `j + i` holds the `i`-th algorithm written by `write_from`. -/
theorem write_from_at (l : List OSSL_ALGORITHM) :
    ∀ (out : Nat → OSSL_ALGORITHM) (j i : Nat) (a : OSSL_ALGORITHM), l[i]? = some a →
      write_from out j l (j + i) = a := by
  induction l with
  | nil => intro out j i a h; simp at h
  | cons b rest ih =>
    intro out j i a h
    cases i with
    | zero =>
      simp at h
      subst h
      simp only [write_from, Nat.add_zero]
      rw [write_from_below rest _ (j + 1) j (by omega)]
      simp [store]
    | succ n =>
      simp only [List.getElem?_cons_succ] at h
      simp only [write_from]
      have := ih (store out j b) (j + 1) n a h
      rw [show j + (n + 1) = j + 1 + n by omega]
      exact this

/-- A slot past the last written one is not touched by `write_from`. -/
theorem write_from_above (l : List OSSL_ALGORITHM) :
    ∀ (out : Nat → OSSL_ALGORITHM) (j k : Nat), j + l.length ≤ k →
      write_from out j l k = out k := by
  induction l with
  | nil => intro out j k _; rfl
  | cons a rest ih =>
    intro out j k hk
    simp only [write_from]
    simp only [List.length_cons] at hk
    rw [ih _ (j + 1) k (by omega)]
    simp [store]
    intro h; omega

/-- On a table that reaches an entry with `NULL` names, the scan of
`ossl_prov_cache_exported_algorithms` returns: it evaluates the gates of the
entries before that entry, in order, and writes the passing entries and then
that entry to consecutive slots. -/
theorem cache_exported_loop_spec (env : Env) (s : OSSL_ALGORITHM_CAPABLE)
    (post : List OSSL_ALGORITHM_CAPABLE) (hs : s.alg.algorithm_names = none) :
    ∀ (pre : List OSSL_ALGORITHM_CAPABLE) (w : World) (out : Nat → OSSL_ALGORITHM) (j : Nat),
      (∀ e ∈ pre, e.alg.algorithm_names ≠ none) →
      cache_exported_loop env w (pre ++ s :: post) out j =
        some (⟨w.trace ++ gate_calls pre, w.refcnt⟩,
          write_from out j (((pre.filter (gate_passes env)).map (fun e => e.alg)) ++ [s.alg])) := by
  intro pre
  induction pre with
  | nil =>
    intro w out j _
    simp [cache_exported_loop, hs, gate_calls, write_from]
  | cons a rest ih =>
    intro w out j hpre
    have ha : a.alg.algorithm_names ≠ none := hpre a (List.mem_cons_self a rest)
    have hrest : ∀ e ∈ rest, e.alg.algorithm_names ≠ none :=
      fun e he => hpre e (List.mem_cons_of_mem a he)
    simp only [List.cons_append, cache_exported_loop, ha, ne_eq, not_false_eq_true, if_true,
      List.append_eq]
    cases hc : a.capable with
    | none =>
      simp only []
      rw [ih w (store out j a.alg) (j + 1) hrest]
      simp [gate_calls, gate_passes, hc, List.filter_cons, write_from]
    | some f =>
      cases hf : env.capable f with
      | true =>
        simp only [call_capable, hf, if_true]
        rw [ih _ (store out j a.alg) (j + 1) hrest]
        simp [gate_calls, gate_passes, hc, hf, List.filter_cons, write_from]
      | false =>
        simp only [call_capable, hf, Bool.false_eq_true, if_false]
        rw [ih _ out j hrest]
        simp [gate_calls, gate_passes, hc, hf, List.filter_cons]

/-- C12 (as stated, refuted): the only entry of `closed_table` is behind gate
1, which answers false in `env0`, and the first output slot is empty.  The
first export evaluates gate 1 and leaves the first slot empty, so the second
export evaluates gate 1 again: two evaluations of the same gate in total. -/
theorem export_gate_reevaluated :
    (out_empty 0).algorithm_names = none ∧
    (ossl_prov_cache_exported_algorithms env0 world0 closed_table out_empty).map
      (fun r => r.1.trace) = some [Call.capable 1] ∧
    ((ossl_prov_cache_exported_algorithms env0 world0 closed_table out_empty).bind
      (fun r => ossl_prov_cache_exported_algorithms env0 r.1 closed_table r.2)).map
      (fun r => r.1.trace) = some [Call.capable 1, Call.capable 1] := by
  decide

/-- C12 (amended): on a table that is terminated by an entry with `NULL` names
and an output buffer whose first slot has `NULL` names, the first export
returns and evaluates the gates of the entries before the terminating entry,
once each, in table order.  If at least one entry passes its gate, a second
export on the same table and buffer evaluates no gate and leaves world and
output as they are.  If no entry passes, the first slot is still empty, and
the second export evaluates every gate again (each entry has one) and, the
gates answering as before, leaves the output as it is. -/
theorem export_twice (env : Env) (w : World) (pre : List OSSL_ALGORITHM_CAPABLE)
    (s : OSSL_ALGORITHM_CAPABLE) (post : List OSSL_ALGORITHM_CAPABLE)
    (out : Nat → OSSL_ALGORITHM)
    (hpre : ∀ e ∈ pre, e.alg.algorithm_names ≠ none) (hs : s.alg.algorithm_names = none)
    (h0 : (out 0).algorithm_names = none) :
    ∃ w1 out1,
      ossl_prov_cache_exported_algorithms env w (pre ++ s :: post) out = some (w1, out1) ∧
      calls_between w w1 = gate_calls pre ∧
      ((∃ e ∈ pre, gate_passes env e = true) →
        ossl_prov_cache_exported_algorithms env w1 (pre ++ s :: post) out1
          = some (w1, out1)) ∧
      ((∀ e ∈ pre, gate_passes env e = false) →
        ∃ w2, ossl_prov_cache_exported_algorithms env w1 (pre ++ s :: post) out1
            = some (w2, out1) ∧
          calls_between w1 w2 = gate_calls pre ∧
          (gate_calls pre).length = pre.length) := by
  refine ⟨⟨w.trace ++ gate_calls pre, w.refcnt⟩,
    write_from out 0 (((pre.filter (gate_passes env)).map (fun e => e.alg)) ++ [s.alg]),
    ?_, ?_, ?_, ?_⟩
  · unfold ossl_prov_cache_exported_algorithms
    rw [if_pos h0]
    exact cache_exported_loop_spec env s post hs pre w out 0 hpre
  · simp [calls_between]
  · rintro ⟨e, he, hpass⟩
    have hmem : e ∈ pre.filter (gate_passes env) := List.mem_filter.mpr ⟨he, hpass⟩
    cases hfl : pre.filter (gate_passes env) with
    | nil => rw [hfl] at hmem; cases hmem
    | cons a rest =>
      have ha : a ∈ pre := by
        have : a ∈ pre.filter (gate_passes env) := by rw [hfl]; exact List.mem_cons_self a rest
        exact (List.mem_filter.mp this).1
      have hslot : write_from out 0 (((a :: rest).map (fun e => e.alg)) ++ [s.alg]) 0
          = a.alg := by
        have := write_from_at (((a :: rest).map (fun e => e.alg)) ++ [s.alg]) out 0 0 a.alg
          (by simp)
        simpa using this
      unfold ossl_prov_cache_exported_algorithms
      rw [if_neg]
      rw [hslot]
      exact hpre a ha
  · intro hnone
    have hfl : pre.filter (gate_passes env) = [] := by
      apply List.filter_eq_nil_iff.mpr
      intro e he
      simp [hnone e he]
    have hout : write_from out 0 (((pre.filter (gate_passes env)).map (fun e => e.alg))
        ++ [s.alg]) = store out 0 s.alg := by
      rw [hfl]; rfl
    rw [hout]
    have hstore : store (store out 0 s.alg) 0 s.alg = store out 0 s.alg := by
      funext k
      by_cases hk : k = 0 <;> simp [store, hk]
    refine ⟨⟨(w.trace ++ gate_calls pre) ++ gate_calls pre, w.refcnt⟩, ?_, ?_, ?_⟩
    · unfold ossl_prov_cache_exported_algorithms
      rw [if_pos (by simp [store, hs])]
      rw [cache_exported_loop_spec env s post hs pre _ _ 0 hpre, hfl]
      simp only [List.map_nil, List.nil_append, write_from, hstore]
    · simp [calls_between]
    · have hall : ∀ l : List OSSL_ALGORITHM_CAPABLE,
          (∀ e ∈ l, gate_passes env e = false) → (gate_calls l).length = l.length := by
        intro l
        induction l with
        | nil => intro _; rfl
        | cons a rest ih =>
          intro h
          have ha := h a (List.mem_cons_self a rest)
          cases hc : a.capable with
          | none => simp [gate_passes, hc] at ha
          | some f =>
            have := ih (fun e he => h e (List.mem_cons_of_mem a he))
            simp [gate_calls, hc] at this ⊢
            exact this
      exact hall pre hnone

/-- C12 (instance): on `sample_table` with an empty buffer the first export
evaluates gates 1 and 0, and the second export evaluates nothing and changes
nothing. -/
theorem export_twice_witness :
    (∀ e ∈ sample_entries, e.alg.algorithm_names ≠ none) ∧
    alg_sentinel.alg.algorithm_names = none ∧
    (out_empty 0).algorithm_names = none ∧
    (∃ e ∈ sample_entries, gate_passes env0 e = true) ∧
    ∃ w1 out1,
      ossl_prov_cache_exported_algorithms env0 world0 sample_table out_empty
        = some (w1, out1) ∧
      calls_between world0 w1 = [Call.capable 1, Call.capable 0] ∧
      ossl_prov_cache_exported_algorithms env0 w1 sample_table out1 = some (w1, out1) := by
  obtain ⟨w1, out1, h1, hc, hp, _⟩ := export_twice env0 world0 sample_entries alg_sentinel []
    out_empty (by decide) (by decide) (by decide)
  exact ⟨by decide, by decide, by decide, by decide, w1, out1, h1, hc, hp (by decide)⟩

/-- C13: on a table that is terminated by an entry with `NULL` names and an
output buffer whose first slot has `NULL` names, export returns; slot `k` of
the output holds the `k`-th of the entries whose gate is absent or true, in
table order, the slot right after them holds the terminating entry, and every
later slot is as before, so exactly the passing entries plus one slot are
written; the calls made are the gate evaluations.  If the names of the first
output slot are not `NULL`, export makes no call and writes nothing, on any
table. -/
theorem export_writes_passing (env : Env) (w : World) (pre : List OSSL_ALGORITHM_CAPABLE)
    (s : OSSL_ALGORITHM_CAPABLE) (post tbl : List OSSL_ALGORITHM_CAPABLE)
    (out : Nat → OSSL_ALGORITHM) :
    ((∀ e ∈ pre, e.alg.algorithm_names ≠ none) → s.alg.algorithm_names = none →
      (out 0).algorithm_names = none →
      ∃ w1 out1,
        ossl_prov_cache_exported_algorithms env w (pre ++ s :: post) out = some (w1, out1) ∧
        (∀ k e, (pre.filter (gate_passes env))[k]? = some e → out1 k = e.alg) ∧
        out1 (pre.filter (gate_passes env)).length = s.alg ∧
        (∀ k, (pre.filter (gate_passes env)).length < k → out1 k = out k) ∧
        calls_between w w1 = gate_calls pre ∧ w1.refcnt = w.refcnt) ∧
    ((out 0).algorithm_names ≠ none →
      ossl_prov_cache_exported_algorithms env w tbl out = some (w, out)) := by
  constructor
  · intro hpre hs h0
    refine ⟨⟨w.trace ++ gate_calls pre, w.refcnt⟩,
      write_from out 0 (((pre.filter (gate_passes env)).map (fun e => e.alg)) ++ [s.alg]),
      ?_, ?_, ?_, ?_, ?_, rfl⟩
    · unfold ossl_prov_cache_exported_algorithms
      rw [if_pos h0]
      exact cache_exported_loop_spec env s post hs pre w out 0 hpre
    · intro k e hk
      have := write_from_at (((pre.filter (gate_passes env)).map (fun e => e.alg)) ++ [s.alg])
        out 0 k e.alg (by
          have hlt : k < (pre.filter (gate_passes env)).length := by
            by_contra hge
            rw [List.getElem?_eq_none (by omega)] at hk
            cases hk
          rw [List.getElem?_append_left (by simpa using hlt)]
          simp [hk])
      simpa using this
    · have := write_from_at (((pre.filter (gate_passes env)).map (fun e => e.alg)) ++ [s.alg])
        out 0 (pre.filter (gate_passes env)).length s.alg (by
          rw [List.getElem?_append_right (by simp)]
          simp)
      simpa using this
    · intro k hk
      apply write_from_above
      simp
      omega
    · simp [calls_between]
  · intro h0
    unfold ossl_prov_cache_exported_algorithms
    rw [if_neg h0]

/-- C13 (instance): exporting `sample_table` into an empty buffer writes
"AES", "SHA" and the terminating entry to slots 0, 1 and 2 and leaves slot 3
as it was. -/
theorem export_writes_passing_witness :
    (∀ e ∈ sample_entries, e.alg.algorithm_names ≠ none) ∧
    alg_sentinel.alg.algorithm_names = none ∧
    (out_empty 0).algorithm_names = none ∧
    (∃ w1 out1,
      ossl_prov_cache_exported_algorithms env0 world0 sample_table out_empty
        = some (w1, out1) ∧
      out1 0 = ⟨some "AES", none, some 1⟩ ∧
      out1 1 = ⟨some "SHA", none, some 3⟩ ∧
      out1 2 = ⟨none, none, none⟩ ∧
      out1 3 = out_empty 3) ∧
    (store out_empty 0 ⟨some "AES", none, some 1⟩ 0).algorithm_names ≠ none ∧
    ossl_prov_cache_exported_algorithms env0 world0 sample_table
      (store out_empty 0 ⟨some "AES", none, some 1⟩)
      = some (world0, store out_empty 0 ⟨some "AES", none, some 1⟩) := by
  obtain ⟨w1, out1, h1, hk, hsent, habove, _, _⟩ :=
    (export_writes_passing env0 world0 sample_entries alg_sentinel [] sample_table
      out_empty).1 (by decide) (by decide) (by decide)
  refine ⟨by decide, by decide, by decide, ⟨w1, out1, h1, ?_, ?_, ?_, ?_⟩, by decide, ?_⟩
  · exact hk 0 ⟨⟨some "AES", none, some 1⟩, none⟩ (by decide)
  · exact hk 1 ⟨⟨some "SHA", none, some 3⟩, some 0⟩ (by decide)
  · exact hsent
  · exact habove 3 (by decide)
  · exact (export_writes_passing env0 world0 sample_entries alg_sentinel [] sample_table
      (store out_empty 0 ⟨some "AES", none, some 1⟩)).2 (by decide)

/-! ## MAC configuration -/

/-- An ambient lookup that meets no malformed entry yields the explicit value
or the ambient one. -/
theorem set_macctx_ambient_ok (c : Config) (params : Option (List OSSL_PARAM)) (key : String)
    (name : Option Data)
    (h : name = none → ∀ p, OSSL_PARAM_locate_const params key = some p →
      p.data_type = c.OSSL_PARAM_UTF8_STRING) :
    set_macctx_ambient c params key name = some (explicit_or_ambient params key name) := by
  cases name with
  | some v => rfl
  | none =>
    cases hp : OSSL_PARAM_locate_const params key with
    | none => simp [set_macctx_ambient, explicit_or_ambient, hp]
    | some p => simp [set_macctx_ambient, explicit_or_ambient, hp, h rfl p hp]

/-- The names after the ambient lookups, when no lookup meets a malformed
entry. -/
theorem set_macctx_names_ok (c : Config) (params : Option (List OSSL_PARAM))
    (ciphername mdname engine : Option Data)
    (hmd : mdname = none → ∀ p, OSSL_PARAM_locate_const params c.OSSL_ALG_PARAM_DIGEST
      = some p → p.data_type = c.OSSL_PARAM_UTF8_STRING)
    (hci : ciphername = none → ∀ p, OSSL_PARAM_locate_const params c.OSSL_ALG_PARAM_CIPHER
      = some p → p.data_type = c.OSSL_PARAM_UTF8_STRING)
    (hen : engine = none → ∀ p, OSSL_PARAM_locate_const params c.OSSL_ALG_PARAM_ENGINE
      = some p → p.data_type = c.OSSL_PARAM_UTF8_STRING) :
    set_macctx_names c params ciphername mdname engine =
      some (explicit_or_ambient params c.OSSL_ALG_PARAM_DIGEST mdname,
            explicit_or_ambient params c.OSSL_ALG_PARAM_CIPHER ciphername,
            explicit_or_ambient params c.OSSL_ALG_PARAM_ENGINE engine) := by
  cases params with
  | none =>
    cases mdname <;> cases ciphername <;> cases engine <;>
      simp [set_macctx_names, explicit_or_ambient, OSSL_PARAM_locate_const]
  | some ps =>
    simp only [set_macctx_names]
    rw [set_macctx_ambient_ok c (some ps) _ mdname hmd,
      set_macctx_ambient_ok c (some ps) _ ciphername hci,
      set_macctx_ambient_ok c (some ps) _ engine hen]

/-- The slots `ossl_prov_set_macctx` writes: digest, cipher, properties, engine
(when the engine is compiled in), key, end marker; no write leaves the array. -/
theorem set_macctx_batch_eq (c : Config) (env : Env)
    (ciphername mdname engine properties : Option Data) (key : Option (List Nat))
    (keylen : Nat) :
    set_macctx_batch c env ciphername mdname engine properties key keylen =
      some (utf8_slots c env c.OSSL_MAC_PARAM_DIGEST mdname ++
        utf8_slots c env c.OSSL_MAC_PARAM_CIPHER ciphername ++
        utf8_slots c env c.OSSL_MAC_PARAM_PROPERTIES properties ++
        (if engine_enabled c then utf8_slots c env c.OSSL_ALG_PARAM_ENGINE engine else []) ++
        key_slots c key keylen ++ [ParamSlot.END]) := by
  cases hf : c.FIPS_MODULE <;> cases hn : c.OPENSSL_NO_ENGINE <;>
    cases mdname <;> cases ciphername <;> cases properties <;> cases engine <;> cases key <;>
    simp [set_macctx_batch, mp_write, utf8_slots, key_slots, engine_enabled, hf, hn,
      OSSL_PARAM_construct_utf8_string, OSSL_PARAM_construct_octet_string,
      OSSL_PARAM_construct_end]

/-- `ossl_prov_set_macctx` when no ambient entry it consults is malformed. -/
theorem set_macctx_applied (c : Config) (env : Env) (w : World) (macctx : Nat)
    (params : Option (List OSSL_PARAM)) (ciphername mdname engine properties : Option Data)
    (key : Option (List Nat)) (keylen : Nat)
    (hmd : mdname = none → ∀ p, OSSL_PARAM_locate_const params c.OSSL_ALG_PARAM_DIGEST
      = some p → p.data_type = c.OSSL_PARAM_UTF8_STRING)
    (hci : ciphername = none → ∀ p, OSSL_PARAM_locate_const params c.OSSL_ALG_PARAM_CIPHER
      = some p → p.data_type = c.OSSL_PARAM_UTF8_STRING)
    (hen : engine = none → ∀ p, OSSL_PARAM_locate_const params c.OSSL_ALG_PARAM_ENGINE
      = some p → p.data_type = c.OSSL_PARAM_UTF8_STRING) :
    ossl_prov_set_macctx c env w macctx params ciphername mdname engine properties
        key keylen =
      some (EVP_MAC_CTX_set_params env w macctx
        (utf8_slots c env c.OSSL_MAC_PARAM_DIGEST
            (explicit_or_ambient params c.OSSL_ALG_PARAM_DIGEST mdname) ++
          utf8_slots c env c.OSSL_MAC_PARAM_CIPHER
            (explicit_or_ambient params c.OSSL_ALG_PARAM_CIPHER ciphername) ++
          utf8_slots c env c.OSSL_MAC_PARAM_PROPERTIES properties ++
          (if engine_enabled c then utf8_slots c env c.OSSL_ALG_PARAM_ENGINE
            (explicit_or_ambient params c.OSSL_ALG_PARAM_ENGINE engine) else []) ++
          key_slots c key keylen ++ [ParamSlot.END])) := by
  unfold ossl_prov_set_macctx
  rw [set_macctx_names_ok c params ciphername mdname engine hmd hci hen]
  simp only [set_macctx_batch_eq]

/-- C14: whenever `ossl_prov_set_macctx` reaches the apply step, that is, no
ambient entry it consults is malformed, it makes exactly one call, handing the
MAC context the batch: digest (explicit if supplied, else the ambient set's
first digest entry, if any), cipher (likewise), properties if supplied, engine
(explicit, else ambient; only when the engine is compiled in), the key bytes
with their length if a key is supplied, then the end marker; its result is
that call's result. -/
theorem macctx_batch_contents (c : Config) (env : Env) (w : World) (macctx : Nat)
    (params : Option (List OSSL_PARAM)) (ciphername mdname engine properties : Option Data)
    (key : Option (List Nat)) (keylen : Nat)
    (hmd : mdname = none → ∀ p, OSSL_PARAM_locate_const params c.OSSL_ALG_PARAM_DIGEST
      = some p → p.data_type = c.OSSL_PARAM_UTF8_STRING)
    (hci : ciphername = none → ∀ p, OSSL_PARAM_locate_const params c.OSSL_ALG_PARAM_CIPHER
      = some p → p.data_type = c.OSSL_PARAM_UTF8_STRING)
    (hen : engine = none → ∀ p, OSSL_PARAM_locate_const params c.OSSL_ALG_PARAM_ENGINE
      = some p → p.data_type = c.OSSL_PARAM_UTF8_STRING) :
    ∃ r w1,
      ossl_prov_set_macctx c env w macctx params ciphername mdname engine properties
        key keylen = some (r, w1) ∧
      calls_between w w1 = [Call.EVP_MAC_CTX_set_params macctx
        (utf8_slots c env c.OSSL_MAC_PARAM_DIGEST
            (explicit_or_ambient params c.OSSL_ALG_PARAM_DIGEST mdname) ++
          utf8_slots c env c.OSSL_MAC_PARAM_CIPHER
            (explicit_or_ambient params c.OSSL_ALG_PARAM_CIPHER ciphername) ++
          utf8_slots c env c.OSSL_MAC_PARAM_PROPERTIES properties ++
          (if engine_enabled c then utf8_slots c env c.OSSL_ALG_PARAM_ENGINE
            (explicit_or_ambient params c.OSSL_ALG_PARAM_ENGINE engine) else []) ++
          key_slots c key keylen ++ [ParamSlot.END])] ∧
      r = (if env.mac_set_params macctx
        (utf8_slots c env c.OSSL_MAC_PARAM_DIGEST
            (explicit_or_ambient params c.OSSL_ALG_PARAM_DIGEST mdname) ++
          utf8_slots c env c.OSSL_MAC_PARAM_CIPHER
            (explicit_or_ambient params c.OSSL_ALG_PARAM_CIPHER ciphername) ++
          utf8_slots c env c.OSSL_MAC_PARAM_PROPERTIES properties ++
          (if engine_enabled c then utf8_slots c env c.OSSL_ALG_PARAM_ENGINE
            (explicit_or_ambient params c.OSSL_ALG_PARAM_ENGINE engine) else []) ++
          key_slots c key keylen ++ [ParamSlot.END]) then 1 else 0) := by
  refine ⟨_, w.log (Call.EVP_MAC_CTX_set_params macctx _),
    set_macctx_applied c env w macctx params ciphername mdname engine properties key keylen
      hmd hci hen, ?_, rfl⟩
  simp [calls_between]

/-- C15: in every build and for every combination of explicit arguments and
ambient set, the writes to `mac_params[6]` all land inside the array: the
slots written are at most 5 entries followed by the end marker, and
`ossl_prov_set_macctx` never ends in a write outside the array. -/
theorem macctx_batch_capacity (c : Config) (env : Env) (w : World) (macctx : Nat)
    (params : Option (List OSSL_PARAM)) (ciphername mdname engine properties : Option Data)
    (key : Option (List Nat)) (keylen : Nat) :
    (∃ batch, set_macctx_batch c env ciphername mdname engine properties key keylen
        = some (batch ++ [ParamSlot.END]) ∧
      batch.length ≤ 5 ∧ (batch ++ [ParamSlot.END]).length ≤ 6 ∧
      ∀ x ∈ batch, x ≠ ParamSlot.END) ∧
    ossl_prov_set_macctx c env w macctx params ciphername mdname engine properties
      key keylen ≠ none := by
  have hlen : ∀ k (v : Option Data), (utf8_slots c env k v).length ≤ 1 := by
    intro k v; cases v <;> simp [utf8_slots]
  have hklen : (key_slots c key keylen).length ≤ 1 := by
    cases key <;> simp [key_slots]
  have hne : ∀ k (v : Option Data), ∀ x ∈ utf8_slots c env k v, x ≠ ParamSlot.END := by
    intro k v x hx
    cases v <;> simp [utf8_slots] at hx
    subst hx
    intro h; cases h
  have hkne : ∀ x ∈ key_slots c key keylen, x ≠ ParamSlot.END := by
    intro x hx
    cases key <;> simp [key_slots] at hx
    subst hx
    intro h; cases h
  constructor
  · refine ⟨_, set_macctx_batch_eq c env ciphername mdname engine properties key keylen,
      ?_, ?_, ?_⟩
    · have h1 := hlen c.OSSL_MAC_PARAM_DIGEST mdname
      have h2 := hlen c.OSSL_MAC_PARAM_CIPHER ciphername
      have h3 := hlen c.OSSL_MAC_PARAM_PROPERTIES properties
      have h4 := hlen c.OSSL_ALG_PARAM_ENGINE engine
      simp only [List.length_append]
      split <;> simp <;> omega
    · have h1 := hlen c.OSSL_MAC_PARAM_DIGEST mdname
      have h2 := hlen c.OSSL_MAC_PARAM_CIPHER ciphername
      have h3 := hlen c.OSSL_MAC_PARAM_PROPERTIES properties
      have h4 := hlen c.OSSL_ALG_PARAM_ENGINE engine
      simp only [List.length_append, List.length_singleton]
      split <;> simp <;> omega
    · intro x hx
      simp only [List.mem_append] at hx
      rcases hx with (((hx | hx) | hx) | hx) | hx
      · exact hne _ _ x hx
      · exact hne _ _ x hx
      · exact hne _ _ x hx
      · split at hx
        · exact hne _ _ x hx
        · cases hx
      · exact hkne x hx
  · unfold ossl_prov_set_macctx
    cases set_macctx_names c params ciphername mdname engine with
    | none => simp
    | some t =>
      obtain ⟨a, b, e⟩ := t
      simp [set_macctx_batch_eq]

/-- C14 (instance): the ambient set {mac: "HMAC", digest: "SHA256"} with the
explicit key bytes 1, 2, 3 and nothing else explicit: the MAC context 41 is
handed the batch digest = "SHA256", key = 3 bytes, end marker. -/
theorem macctx_batch_contents_witness :
    OSSL_PARAM_locate_const (some [utf8_param "mac" "HMAC", utf8_param "digest" "SHA256"])
      (openssl_config false false).OSSL_ALG_PARAM_DIGEST
      = some (utf8_param "digest" "SHA256") ∧
    OSSL_PARAM_locate_const (some [utf8_param "mac" "HMAC", utf8_param "digest" "SHA256"])
      (openssl_config false false).OSSL_ALG_PARAM_CIPHER = none ∧
    OSSL_PARAM_locate_const (some [utf8_param "mac" "HMAC", utf8_param "digest" "SHA256"])
      (openssl_config false false).OSSL_ALG_PARAM_ENGINE = none ∧
    ∃ r w1,
      ossl_prov_set_macctx (openssl_config false false) env0 world0 41
        (some [utf8_param "mac" "HMAC", utf8_param "digest" "SHA256"])
        none none none none (some [1, 2, 3]) 3 = some (r, w1) ∧
      calls_between world0 w1 = [Call.EVP_MAC_CTX_set_params 41
        [ParamSlot.entry ⟨"digest", 4, Data.str "SHA256", 7⟩,
         ParamSlot.entry ⟨"key", 5, Data.octets [1, 2, 3], 3⟩,
         ParamSlot.END]] ∧
      r = 1 := by
  have hd : OSSL_PARAM_locate_const
      (some [utf8_param "mac" "HMAC", utf8_param "digest" "SHA256"])
      (openssl_config false false).OSSL_ALG_PARAM_DIGEST
      = some (utf8_param "digest" "SHA256") := by decide
  have hc : OSSL_PARAM_locate_const
      (some [utf8_param "mac" "HMAC", utf8_param "digest" "SHA256"])
      (openssl_config false false).OSSL_ALG_PARAM_CIPHER = none := by decide
  have he : OSSL_PARAM_locate_const
      (some [utf8_param "mac" "HMAC", utf8_param "digest" "SHA256"])
      (openssl_config false false).OSSL_ALG_PARAM_ENGINE = none := by decide
  obtain ⟨r, w1, h1, hcalls, hr⟩ := macctx_batch_contents (openssl_config false false) env0
    world0 41 (some [utf8_param "mac" "HMAC", utf8_param "digest" "SHA256"])
    none none none none (some [1, 2, 3]) 3
    (fun _ p hp => by rw [hd] at hp; cases hp; decide)
    (fun _ p hp => by rw [hc] at hp; cases hp)
    (fun _ p hp => by rw [he] at hp; cases hp)
  exact ⟨hd, hc, he, r, w1, h1, hcalls.trans (by decide), hr.trans (by decide)⟩

/-! ## MAC context loading -/

/-- `ossl_prov_set_macctx` makes no call or the one `set_params` call. -/
theorem set_macctx_world (c : Config) (env : Env) (w : World) (macctx : Nat)
    (params : Option (List OSSL_PARAM)) (ciphername mdname engine properties : Option Data)
    (key : Option (List Nat)) (keylen : Nat) (r : Int) (w2 : World)
    (h : ossl_prov_set_macctx c env w macctx params ciphername mdname engine properties
      key keylen = some (r, w2)) :
    w2 = w ∨ ∃ b, w2 = w.log (Call.EVP_MAC_CTX_set_params macctx b) := by
  unfold ossl_prov_set_macctx at h
  cases hn : set_macctx_names c params ciphername mdname engine with
  | none =>
    rw [hn] at h
    simp at h
    exact Or.inl h.2.symm
  | some t =>
    obtain ⟨a, b, e⟩ := t
    rw [hn] at h
    simp only [set_macctx_batch_eq, EVP_MAC_CTX_set_params] at h
    simp at h
    exact Or.inr ⟨_, h.2.symm⟩

/-- With a resolved MAC name and a well-typed properties entry,
`ossl_prov_macctx_load_from_params` goes on to the fetch. -/
theorem macctx_load_named (c : Config) (env : Env) (w : World) (macctx : Option Nat)
    (params : Option (List OSSL_PARAM)) (macname ciphername mdname : Option Data)
    (libctx : Nat) (name : Data)
    (hname : macname = some name ∨
      (macname = none ∧ ∃ p, OSSL_PARAM_locate_const params c.OSSL_ALG_PARAM_MAC = some p ∧
        p.data_type = c.OSSL_PARAM_UTF8_STRING ∧ p.data = name))
    (hprops : ∀ p, OSSL_PARAM_locate_const params c.OSSL_ALG_PARAM_PROPERTIES = some p →
      p.data_type = c.OSSL_PARAM_UTF8_STRING) :
    ossl_prov_macctx_load_from_params c env w macctx params macname ciphername mdname libctx
      = macctx_load_new c env w macctx params (some name) ciphername mdname
          ((OSSL_PARAM_locate_const params c.OSSL_ALG_PARAM_PROPERTIES).map (fun p => p.data))
          libctx := by
  have hp : macctx_load_properties c env w macctx params (some name) ciphername mdname libctx
      = macctx_load_new c env w macctx params (some name) ciphername mdname
          ((OSSL_PARAM_locate_const params c.OSSL_ALG_PARAM_PROPERTIES).map (fun p => p.data))
          libctx := by
    unfold macctx_load_properties
    cases hq : OSSL_PARAM_locate_const params c.OSSL_ALG_PARAM_PROPERTIES with
    | none => simp
    | some q => simp [hprops q hq]
  rcases hname with h | ⟨h, p, hl, ht, hd⟩
  · subst h
    simp only [ossl_prov_macctx_load_from_params]
    exact hp
  · subst h
    simp only [ossl_prov_macctx_load_from_params, hl, ht, hd, ne_eq, not_true_eq_false,
      if_false]
    exact hp

/-- C16 (as stated, refuted): no MAC name is supplied and the slot is empty,
yet with an integer-typed properties entry in the set the call fails. -/
theorem macctx_unnamed_malformed_properties :
    OSSL_PARAM_locate_const (some [int_param "properties"])
      (openssl_config false false).OSSL_ALG_PARAM_MAC = none ∧
    (ossl_prov_macctx_load_from_params (openssl_config false false) env0 world0 none
      (some [int_param "properties"]) none none none 0).map (fun r => (r.1, r.2.2))
      = some (0, none) := by
  decide

/-- C16 (amended): when no MAC name is supplied (no explicit name, no MAC-name
entry in the set) and the slot is empty, `ossl_prov_macctx_load_from_params`
makes no call (so no fetch) and leaves the slot empty; it returns success when
the properties entry is absent or a UTF8 string, whatever else the set holds,
and failure when the properties entry has another type. -/
theorem macctx_load_unnamed (c : Config) (env : Env) (w : World)
    (params : Option (List OSSL_PARAM)) (ciphername mdname : Option Data) (libctx : Nat)
    (hmac : OSSL_PARAM_locate_const params c.OSSL_ALG_PARAM_MAC = none) :
    ((∀ p, OSSL_PARAM_locate_const params c.OSSL_ALG_PARAM_PROPERTIES = some p →
        p.data_type = c.OSSL_PARAM_UTF8_STRING) →
      ossl_prov_macctx_load_from_params c env w none params none ciphername mdname libctx
        = some (1, w, none)) ∧
    (∀ p, OSSL_PARAM_locate_const params c.OSSL_ALG_PARAM_PROPERTIES = some p →
      p.data_type ≠ c.OSSL_PARAM_UTF8_STRING →
      ossl_prov_macctx_load_from_params c env w none params none ciphername mdname libctx
        = some (0, w, none)) := by
  constructor
  · intro hprops
    simp only [ossl_prov_macctx_load_from_params, hmac, macctx_load_properties]
    cases hq : OSSL_PARAM_locate_const params c.OSSL_ALG_PARAM_PROPERTIES with
    | none => simp [macctx_load_new, macctx_load_configure]
    | some q => simp [hprops q hq, macctx_load_new, macctx_load_configure]
  · intro p hp ht
    simp [ossl_prov_macctx_load_from_params, hmac, macctx_load_properties, hp, ht]

/-- C16 (instance): the set {digest: "SHA256", cipher: 1 (an integer)} names
no MAC; on an empty slot the call succeeds and leaves it empty. -/
theorem macctx_load_unnamed_witness :
    OSSL_PARAM_locate_const (some [utf8_param "digest" "SHA256", int_param "cipher"])
      (openssl_config false false).OSSL_ALG_PARAM_MAC = none ∧
    OSSL_PARAM_locate_const (some [utf8_param "digest" "SHA256", int_param "cipher"])
      (openssl_config false false).OSSL_ALG_PARAM_PROPERTIES = none ∧
    (ossl_prov_macctx_load_from_params (openssl_config false false) env0 world0 none
      (some [utf8_param "digest" "SHA256", int_param "cipher"]) none none none 0).map
      (fun r => (r.1, r.2.2)) = some (1, none) := by
  have hq : OSSL_PARAM_locate_const
      (some [utf8_param "digest" "SHA256", int_param "cipher"])
      (openssl_config false false).OSSL_ALG_PARAM_PROPERTIES = none := by decide
  have T := (macctx_load_unnamed (openssl_config false false) env0 world0
    (some [utf8_param "digest" "SHA256", int_param "cipher"]) none none 0 (by decide)).1
    (fun p hp => by rw [hq] at hp; cases hp)
  exact ⟨by decide, hq, by rw [T]; rfl⟩

/-- The failures of `ossl_prov_macctx_load_from_params` after a MAC name is
resolved: failed fetch, failed construction, failed configuration. -/
theorem macctx_named_failure (c : Config) (env : Env) (w : World) (macctx : Option Nat)
    (params : Option (List OSSL_PARAM)) (macname ciphername mdname : Option Data)
    (libctx : Nat) (name : Data)
    (hname : macname = some name ∨
      (macname = none ∧ ∃ p, OSSL_PARAM_locate_const params c.OSSL_ALG_PARAM_MAC = some p ∧
        p.data_type = c.OSSL_PARAM_UTF8_STRING ∧ p.data = name))
    (hprops : ∀ p, OSSL_PARAM_locate_const params c.OSSL_ALG_PARAM_PROPERTIES = some p →
      p.data_type = c.OSSL_PARAM_UTF8_STRING) :
    (env.mac_fetch libctx name
        ((OSSL_PARAM_locate_const params c.OSSL_ALG_PARAM_PROPERTIES).map (fun p => p.data))
        = none →
      ∃ w1, ossl_prov_macctx_load_from_params c env w macctx params macname ciphername
          mdname libctx = some (0, w1, none) ∧
        calls_between w w1 =
          [Call.EVP_MAC_fetch libctx name
             ((OSSL_PARAM_locate_const params c.OSSL_ALG_PARAM_PROPERTIES).map
               (fun p => p.data)),
           Call.EVP_MAC_CTX_free macctx, Call.EVP_MAC_free none]) ∧
    (∀ m, env.mac_fetch libctx name
        ((OSSL_PARAM_locate_const params c.OSSL_ALG_PARAM_PROPERTIES).map (fun p => p.data))
        = some m →
      env.mac_ctx_new m = none →
      ∃ w1, ossl_prov_macctx_load_from_params c env w macctx params macname ciphername
          mdname libctx = some (0, w1, none) ∧
        calls_between w w1 =
          [Call.EVP_MAC_fetch libctx name
             ((OSSL_PARAM_locate_const params c.OSSL_ALG_PARAM_PROPERTIES).map
               (fun p => p.data)),
           Call.EVP_MAC_CTX_free macctx, Call.EVP_MAC_CTX_new m,
           Call.EVP_MAC_free (some m)]) ∧
    (∀ m ctx, env.mac_fetch libctx name
        ((OSSL_PARAM_locate_const params c.OSSL_ALG_PARAM_PROPERTIES).map (fun p => p.data))
        = some m →
      env.mac_ctx_new m = some ctx →
      (∀ w0, ∃ w2, ossl_prov_set_macctx c env w0 ctx params ciphername mdname none
        ((OSSL_PARAM_locate_const params c.OSSL_ALG_PARAM_PROPERTIES).map (fun p => p.data))
        none 0 = some (0, w2)) →
      ∃ w1 t, ossl_prov_macctx_load_from_params c env w macctx params macname ciphername
          mdname libctx = some (0, w1, none) ∧
        calls_between w w1 =
          [Call.EVP_MAC_fetch libctx name
             ((OSSL_PARAM_locate_const params c.OSSL_ALG_PARAM_PROPERTIES).map
               (fun p => p.data)),
           Call.EVP_MAC_CTX_free macctx, Call.EVP_MAC_CTX_new m,
           Call.EVP_MAC_free (some m)] ++ t ++ [Call.EVP_MAC_CTX_free (some ctx)] ∧
        (t = [] ∨ ∃ b, t = [Call.EVP_MAC_CTX_set_params ctx b])) := by
  have hload := macctx_load_named c env w macctx params macname ciphername mdname libctx name
    hname hprops
  refine ⟨?_, ?_, ?_⟩
  · intro hf
    have e : ossl_prov_macctx_load_from_params c env w macctx params macname ciphername
        mdname libctx = some (0, ((w.log (Call.EVP_MAC_fetch libctx name
          ((OSSL_PARAM_locate_const params c.OSSL_ALG_PARAM_PROPERTIES).map
            (fun p => p.data)))).log (Call.EVP_MAC_CTX_free macctx)).log
          (Call.EVP_MAC_free none), none) := by
      rw [hload]
      simp [macctx_load_new, EVP_MAC_fetch, hf, EVP_MAC_CTX_free, EVP_MAC_free]
    exact ⟨_, e, by simp [calls_between]⟩
  · intro m hf hn
    have e : ossl_prov_macctx_load_from_params c env w macctx params macname ciphername
        mdname libctx = some (0, (((w.log (Call.EVP_MAC_fetch libctx name
          ((OSSL_PARAM_locate_const params c.OSSL_ALG_PARAM_PROPERTIES).map
            (fun p => p.data)))).log (Call.EVP_MAC_CTX_free macctx)).log
          (Call.EVP_MAC_CTX_new m)).log (Call.EVP_MAC_free (some m)), none) := by
      rw [hload]
      simp [macctx_load_new, EVP_MAC_fetch, hf, EVP_MAC_CTX_free, EVP_MAC_free,
        EVP_MAC_CTX_new, hn]
    exact ⟨_, e, by simp [calls_between]⟩
  · intro m ctx hf hn hfail
    obtain ⟨w2, h2⟩ := hfail ((((w.log (Call.EVP_MAC_fetch libctx name
      ((OSSL_PARAM_locate_const params c.OSSL_ALG_PARAM_PROPERTIES).map
        (fun p => p.data)))).log (Call.EVP_MAC_CTX_free macctx)).log
      (Call.EVP_MAC_CTX_new m)).log (Call.EVP_MAC_free (some m)))
    have e : ossl_prov_macctx_load_from_params c env w macctx params macname ciphername
        mdname libctx = some (0, w2.log (Call.EVP_MAC_CTX_free (some ctx)), none) := by
      rw [hload]
      simp [macctx_load_new, EVP_MAC_fetch, hf, EVP_MAC_CTX_free, EVP_MAC_free,
        EVP_MAC_CTX_new, hn, macctx_load_configure, h2]
    rcases set_macctx_world _ _ _ _ _ _ _ _ _ _ _ _ _ h2 with hw | ⟨b, hw⟩
    · exact ⟨_, [], e, by simp [calls_between, hw], Or.inl rfl⟩
    · exact ⟨_, [Call.EVP_MAC_CTX_set_params ctx b], e, by simp [calls_between, hw],
        Or.inr ⟨b, rfl⟩⟩

/-- The failure of `ossl_prov_macctx_load_from_params` when no MAC name is
supplied, the slot holds a context and its configuration fails (lines
274-283): the context is released and the slot cleared. -/
theorem macctx_unnamed_failure (c : Config) (env : Env) (w : World) (macctx : Option Nat)
    (params : Option (List OSSL_PARAM)) (macname ciphername mdname : Option Data)
    (libctx : Nat)
    (hprops : ∀ p, OSSL_PARAM_locate_const params c.OSSL_ALG_PARAM_PROPERTIES = some p →
      p.data_type = c.OSSL_PARAM_UTF8_STRING) :
    (macname = none → OSSL_PARAM_locate_const params c.OSSL_ALG_PARAM_MAC = none →
      ∀ ctx, macctx = some ctx →
      (∀ w0, ∃ w2, ossl_prov_set_macctx c env w0 ctx params ciphername mdname none
        ((OSSL_PARAM_locate_const params c.OSSL_ALG_PARAM_PROPERTIES).map (fun p => p.data))
        none 0 = some (0, w2)) →
      ∃ w1 t, ossl_prov_macctx_load_from_params c env w macctx params macname ciphername
          mdname libctx = some (0, w1, none) ∧
        calls_between w w1 = t ++ [Call.EVP_MAC_CTX_free (some ctx)] ∧
        (t = [] ∨ ∃ b, t = [Call.EVP_MAC_CTX_set_params ctx b])) := by
  intro hmn hmac ctx hctx hfail
  subst hmn
  subst hctx
  obtain ⟨w2, h2⟩ := hfail w
  have hp : macctx_load_properties c env w (some ctx) params none ciphername mdname libctx
      = macctx_load_new c env w (some ctx) params none ciphername mdname
          ((OSSL_PARAM_locate_const params c.OSSL_ALG_PARAM_PROPERTIES).map (fun p => p.data))
          libctx := by
    unfold macctx_load_properties
    cases hq : OSSL_PARAM_locate_const params c.OSSL_ALG_PARAM_PROPERTIES with
    | none => simp
    | some q => simp [hprops q hq]
  have e : ossl_prov_macctx_load_from_params c env w (some ctx) params none ciphername
      mdname libctx = some (0, w2.log (Call.EVP_MAC_CTX_free (some ctx)), none) := by
    simp only [ossl_prov_macctx_load_from_params, hmac]
    rw [hp]
    simp [macctx_load_new, macctx_load_configure, h2, EVP_MAC_CTX_free]
  rcases set_macctx_world _ _ _ _ _ _ _ _ _ _ _ _ _ h2 with hw | ⟨b, hw⟩
  · exact ⟨_, [], e, by simp [calls_between, hw], Or.inl rfl⟩
  · exact ⟨_, [Call.EVP_MAC_CTX_set_params ctx b], e, by simp [calls_between, hw],
      Or.inr ⟨b, rfl⟩⟩

/-- C17: let the properties entry be absent or a string.  (1) When a MAC name
is resolved (explicit, or a string-typed MAC entry of the set): if the fetch
fails, or the fetch succeeds and the context construction fails, or both
succeed and applying the configuration to the fresh context fails, the call
returns failure with the slot empty.  The calls made are, in order: the
fetch, the release of the previously held context (of `NULL` if there was
none), the construction if the fetch succeeded, the release of the
implementation reference, and, when the configuration fails, at most one
`set_params` call followed by the release of the fresh context.  (2) When no
MAC name is supplied and the slot holds a context whose configuration fails,
the call returns failure with the slot empty, after at most one `set_params`
call followed by the release of that context.  Each context is released by
one call. -/
theorem macctx_load_failure (c : Config) (env : Env) (w : World) (macctx : Option Nat)
    (params : Option (List OSSL_PARAM)) (macname ciphername mdname : Option Data)
    (libctx : Nat)
    (hprops : ∀ p, OSSL_PARAM_locate_const params c.OSSL_ALG_PARAM_PROPERTIES = some p →
      p.data_type = c.OSSL_PARAM_UTF8_STRING) :
    (∀ name, (macname = some name ∨
        (macname = none ∧ ∃ p, OSSL_PARAM_locate_const params c.OSSL_ALG_PARAM_MAC = some p ∧
          p.data_type = c.OSSL_PARAM_UTF8_STRING ∧ p.data = name)) →
      (env.mac_fetch libctx name
          ((OSSL_PARAM_locate_const params c.OSSL_ALG_PARAM_PROPERTIES).map (fun p => p.data))
          = none →
        ∃ w1, ossl_prov_macctx_load_from_params c env w macctx params macname ciphername
            mdname libctx = some (0, w1, none) ∧
          calls_between w w1 =
            [Call.EVP_MAC_fetch libctx name
               ((OSSL_PARAM_locate_const params c.OSSL_ALG_PARAM_PROPERTIES).map
                 (fun p => p.data)),
             Call.EVP_MAC_CTX_free macctx, Call.EVP_MAC_free none]) ∧
      (∀ m, env.mac_fetch libctx name
          ((OSSL_PARAM_locate_const params c.OSSL_ALG_PARAM_PROPERTIES).map (fun p => p.data))
          = some m →
        env.mac_ctx_new m = none →
        ∃ w1, ossl_prov_macctx_load_from_params c env w macctx params macname ciphername
            mdname libctx = some (0, w1, none) ∧
          calls_between w w1 =
            [Call.EVP_MAC_fetch libctx name
               ((OSSL_PARAM_locate_const params c.OSSL_ALG_PARAM_PROPERTIES).map
                 (fun p => p.data)),
             Call.EVP_MAC_CTX_free macctx, Call.EVP_MAC_CTX_new m,
             Call.EVP_MAC_free (some m)]) ∧
      (∀ m ctx, env.mac_fetch libctx name
          ((OSSL_PARAM_locate_const params c.OSSL_ALG_PARAM_PROPERTIES).map (fun p => p.data))
          = some m →
        env.mac_ctx_new m = some ctx →
        (∀ w0, ∃ w2, ossl_prov_set_macctx c env w0 ctx params ciphername mdname none
          ((OSSL_PARAM_locate_const params c.OSSL_ALG_PARAM_PROPERTIES).map (fun p => p.data))
          none 0 = some (0, w2)) →
        ∃ w1 t, ossl_prov_macctx_load_from_params c env w macctx params macname ciphername
            mdname libctx = some (0, w1, none) ∧
          calls_between w w1 =
            [Call.EVP_MAC_fetch libctx name
               ((OSSL_PARAM_locate_const params c.OSSL_ALG_PARAM_PROPERTIES).map
                 (fun p => p.data)),
             Call.EVP_MAC_CTX_free macctx, Call.EVP_MAC_CTX_new m,
             Call.EVP_MAC_free (some m)] ++ t ++ [Call.EVP_MAC_CTX_free (some ctx)] ∧
          (t = [] ∨ ∃ b, t = [Call.EVP_MAC_CTX_set_params ctx b]))) ∧
    (macname = none → OSSL_PARAM_locate_const params c.OSSL_ALG_PARAM_MAC = none →
      ∀ ctx, macctx = some ctx →
      (∀ w0, ∃ w2, ossl_prov_set_macctx c env w0 ctx params ciphername mdname none
        ((OSSL_PARAM_locate_const params c.OSSL_ALG_PARAM_PROPERTIES).map (fun p => p.data))
        none 0 = some (0, w2)) →
      ∃ w1 t, ossl_prov_macctx_load_from_params c env w macctx params macname ciphername
          mdname libctx = some (0, w1, none) ∧
        calls_between w w1 = t ++ [Call.EVP_MAC_CTX_free (some ctx)] ∧
        (t = [] ∨ ∃ b, t = [Call.EVP_MAC_CTX_set_params ctx b])) :=
  ⟨fun name hname => macctx_named_failure c env w macctx params macname ciphername mdname
      libctx name hname hprops,
   macctx_unnamed_failure c env w macctx params macname ciphername mdname libctx hprops⟩

/-- C17 (instance): on a slot that holds context 50, in `env0`: the set
{mac: "CMAC"} names a MAC the registry lacks; {mac: "KMAC"} names one for
which no context can be constructed; {mac: "HMAC", digest: 1 (an integer)}
gets the fresh context 41, whose configuration fails; {digest: 1 (an
integer)} names no MAC, so the configuration of context 50 itself fails.  In
all four the call returns 0 with the slot empty, context 50 is released once
and, in the third, context 41 is released once. -/
theorem macctx_load_failure_witness :
    (∃ w1, ossl_prov_macctx_load_from_params (openssl_config false false) env0 world0
        (some 50) (some [utf8_param "mac" "CMAC"]) none none none 0 = some (0, w1, none) ∧
      calls_between world0 w1 =
        [Call.EVP_MAC_fetch 0 (Data.str "CMAC") none, Call.EVP_MAC_CTX_free (some 50),
         Call.EVP_MAC_free none]) ∧
    (∃ w1, ossl_prov_macctx_load_from_params (openssl_config false false) env0 world0
        (some 50) (some [utf8_param "mac" "KMAC"]) none none none 0 = some (0, w1, none) ∧
      calls_between world0 w1 =
        [Call.EVP_MAC_fetch 0 (Data.str "KMAC") none, Call.EVP_MAC_CTX_free (some 50),
         Call.EVP_MAC_CTX_new 42, Call.EVP_MAC_free (some 42)]) ∧
    (∃ w1 t, ossl_prov_macctx_load_from_params (openssl_config false false) env0 world0
        (some 50) (some [utf8_param "mac" "HMAC", int_param "digest"]) none none none 0
        = some (0, w1, none) ∧
      calls_between world0 w1 =
        [Call.EVP_MAC_fetch 0 (Data.str "HMAC") none, Call.EVP_MAC_CTX_free (some 50),
         Call.EVP_MAC_CTX_new 40, Call.EVP_MAC_free (some 40)] ++ t ++
        [Call.EVP_MAC_CTX_free (some 41)] ∧
      (t = [] ∨ ∃ b, t = [Call.EVP_MAC_CTX_set_params 41 b])) ∧
    OSSL_PARAM_locate_const (some [int_param "digest"])
      (openssl_config false false).OSSL_ALG_PARAM_MAC = none ∧
    (∃ w1 t, ossl_prov_macctx_load_from_params (openssl_config false false) env0 world0
        (some 50) (some [int_param "digest"]) none none none 0 = some (0, w1, none) ∧
      calls_between world0 w1 = t ++ [Call.EVP_MAC_CTX_free (some 50)] ∧
      (t = [] ∨ ∃ b, t = [Call.EVP_MAC_CTX_set_params 50 b])) := by
  have hq : ∀ ps : List OSSL_PARAM,
      OSSL_PARAM_locate_const (some ps)
        (openssl_config false false).OSSL_ALG_PARAM_PROPERTIES = none →
      ∀ p, OSSL_PARAM_locate_const (some ps)
        (openssl_config false false).OSSL_ALG_PARAM_PROPERTIES = some p →
        p.data_type = (openssl_config false false).OSSL_PARAM_UTF8_STRING := by
    intro ps h p hp
    rw [h] at hp
    cases hp
  refine ⟨?_, ?_, ?_, by decide, ?_⟩
  · exact ((macctx_load_failure (openssl_config false false) env0 world0 (some 50)
      (some [utf8_param "mac" "CMAC"]) none none none 0 (hq _ (by decide))).1
      (Data.str "CMAC")
      (Or.inr ⟨rfl, utf8_param "mac" "CMAC", by decide, by decide, rfl⟩)).1 (by decide)
  · exact ((macctx_load_failure (openssl_config false false) env0 world0 (some 50)
      (some [utf8_param "mac" "KMAC"]) none none none 0 (hq _ (by decide))).1
      (Data.str "KMAC")
      (Or.inr ⟨rfl, utf8_param "mac" "KMAC", by decide, by decide, rfl⟩)).2.1 42
      (by decide) (by decide)
  · exact ((macctx_load_failure (openssl_config false false) env0 world0 (some 50)
      (some [utf8_param "mac" "HMAC", int_param "digest"]) none none none 0
      (hq _ (by decide))).1 (Data.str "HMAC")
      (Or.inr ⟨rfl, utf8_param "mac" "HMAC", by decide, by decide, rfl⟩)).2.2 40 41
      (by decide) (by decide) (fun w0 => ⟨w0, rfl⟩)
  · exact (macctx_load_failure (openssl_config false false) env0 world0 (some 50)
      (some [int_param "digest"]) none none none 0 (hq _ (by decide))).2 rfl (by decide)
      50 rfl (fun w0 => ⟨w0, rfl⟩)

/-! ## The legacy engine -/

/-- The Common Loader never releases an engine: every `ENGINE_finish` call it
makes is on `NULL`. -/
theorem load_common_finish_null (c : Config) (env : Env) (w : World)
    (params : Option (List OSSL_PARAM)) (engine : Option Nat) (e : Nat) :
    Call.ENGINE_finish (some e) ∉ calls_between w (load_common c env w params engine).world := by
  have key : ∀ pq, Call.ENGINE_finish (some e) ∉
      calls_between w (load_common_engine c env w params pq).world := by
    intro pq
    unfold load_common_engine
    by_cases hen : (!c.FIPS_MODULE && !c.OPENSSL_NO_ENGINE) = true
    · cases hE : OSSL_PARAM_locate_const params c.OSSL_ALG_PARAM_ENGINE with
      | none => simp [hen]
      | some q =>
        by_cases hq : q.data_type = c.OSSL_PARAM_UTF8_STRING
        · cases hb : env.engine_by_id q.data <;>
            simp [hen, hq, hb, ENGINE_by_id, ENGINE_finish, calls_between]
        · simp [hen, hq]
    · simp [hen]
  unfold load_common
  cases hP : OSSL_PARAM_locate_const params c.OSSL_ALG_PARAM_PROPERTIES with
  | none => exact key _
  | some p =>
    by_cases hp : p.data_type = c.OSSL_PARAM_UTF8_STRING
    · simp only [hp, ne_eq, not_true_eq_false, if_false]
      exact key _
    · simp [hp]

/-- C18 (code defect): with the engine lookup compiled in, the binding holding
engine 9 and the set {engine: "pkcs11"}, `load_common` calls `ENGINE_finish` on
`NULL` and then `ENGINE_by_id`: engine 9 is never released, although the
engine field is overwritten with engine 5.  The second half of the claim
holds: for the unknown name "nope" the result is failure. -/
theorem load_common_leaks_engine :
    (load_common (openssl_config false false) env0 world0
      (some [utf8_param "engine" "pkcs11"]) (some 9)).ret = 1 ∧
    (load_common (openssl_config false false) env0 world0
      (some [utf8_param "engine" "pkcs11"]) (some 9)).engine = some 5 ∧
    calls_between world0 (load_common (openssl_config false false) env0 world0
      (some [utf8_param "engine" "pkcs11"]) (some 9)).world
      = [Call.ENGINE_finish none, Call.ENGINE_by_id (Data.str "pkcs11")] ∧
    Call.ENGINE_finish (some 9) ∉ calls_between world0
      (load_common (openssl_config false false) env0 world0
        (some [utf8_param "engine" "pkcs11"]) (some 9)).world ∧
    (load_common (openssl_config false false) env0 world0
      (some [utf8_param "engine" "nope"]) (some 9)).ret = 0 := by
  decide

/-! ## The restricted build -/

/-- In a FIPS build the Common Loader makes no call; it succeeds exactly when
the properties entry is well typed, and then stores no engine. -/
theorem load_common_fips (c : Config) (env : Env) (w : World)
    (params : Option (List OSSL_PARAM)) (engine : Option Nat) (hf : c.FIPS_MODULE = true) :
    (load_common c env w params engine).world = w ∧
    (properties_ok c params →
      (load_common c env w params engine).ret = 1 ∧
      (load_common c env w params engine).engine = none ∧
      (load_common c env w params engine).propquery =
        (OSSL_PARAM_locate_const params c.OSSL_ALG_PARAM_PROPERTIES).map (fun p => p.data)) ∧
    (¬ properties_ok c params → (load_common c env w params engine).ret = 0) := by
  have hen : engine_enabled c = false := by simp [engine_enabled, hf]
  have hs := load_common_spec c env w params engine
  have hne : named_engine c env params = none := by simp [named_engine, hen]
  have hacc : common_accepts c env params ↔ properties_ok c params := by
    unfold common_accepts properties_ok
    simp [hen]
  refine ⟨load_common_world_disabled c env w params engine hen, ?_, ?_⟩
  · intro hpo
    have h1 := hs.2.1.mpr (hacc.mpr hpo)
    exact ⟨h1, (hs.2.2.1 h1).1.trans hne, (hs.2.2.1 h1).2⟩
  · intro hpo
    rcases hs.1 with h0 | h1
    · exact h0
    · exact absurd (hacc.mp (hs.2.1.mp h1)) hpo

/-- In a FIPS build `ossl_prov_cipher_load_from_params` consults neither the
engine table nor the legacy name table, and succeeds on a string-typed name
entry exactly when the fetch it makes returns a handle. -/
theorem cipher_load_fips (c : Config) (env : Env) (w : World) (pc : PROV_CIPHER)
    (params : Option (List OSSL_PARAM)) (ctx : Nat) (hf : c.FIPS_MODULE = true) :
    (∀ x ∈ calls_between w (ossl_prov_cipher_load_from_params c env w pc params ctx).2.1,
      (∀ e, x ≠ Call.ENGINE_finish e) ∧ (∀ i, x ≠ Call.ENGINE_by_id i) ∧
      (∀ n, x ≠ Call.EVP_get_cipherbyname n)) ∧
    (properties_ok c params →
      (ossl_prov_cipher_load_from_params c env w pc params ctx).2.2.engine = none) ∧
    (∀ p, OSSL_PARAM_locate_const params c.OSSL_ALG_PARAM_CIPHER = some p →
      p.data_type = c.OSSL_PARAM_UTF8_STRING →
      ((ossl_prov_cipher_load_from_params c env w pc params ctx).1 = 1 ↔
        ∃ q h, Call.EVP_CIPHER_fetch ctx p.data q ∈
            calls_between w (ossl_prov_cipher_load_from_params c env w pc params ctx).2.1 ∧
          env.cipher_fetch ctx p.data q = some h) ∧
      (properties_ok c params →
        ((ossl_prov_cipher_load_from_params c env w pc params ctx).1 = 1 ↔
          env.cipher_fetch ctx p.data
            ((OSSL_PARAM_locate_const params c.OSSL_ALG_PARAM_PROPERTIES).map
              (fun q => q.data)) ≠ none)) ∧
      ((ossl_prov_cipher_load_from_params c env w pc params ctx).1 = 1 →
        (ossl_prov_cipher_load_from_params c env w pc params ctx).2.2.cipher =
          (ossl_prov_cipher_load_from_params c env w pc params ctx).2.2.alloc_cipher) ∧
      (properties_ok c params →
        (ossl_prov_cipher_load_from_params c env w pc params ctx).2.2.cipher =
          (ossl_prov_cipher_load_from_params c env w pc params ctx).2.2.alloc_cipher)) := by
  have hlc := load_common_fips c env w params pc.engine hf
  have hw := hlc.1
  by_cases hpo : properties_ok c params
  · obtain ⟨h1, heng, hpq⟩ := hlc.2.1 hpo
    cases hp : OSSL_PARAM_locate_const params c.OSSL_ALG_PARAM_CIPHER with
    | none =>
      rw [cipher_load_no_entry c env w pc params ctx hp, hw]
      refine ⟨by simp, fun _ => heng, ?_⟩
      intro p hp2
      cases hp2
    | some p =>
      by_cases ht : p.data_type = c.OSSL_PARAM_UTF8_STRING
      · cases hfe : env.cipher_fetch ctx p.data
            (load_common c env w params pc.engine).propquery with
        | some h =>
          rw [cipher_load_fetched c env w pc params ctx p h h1 hp ht hfe]
          have hfe2 := hfe
          rw [hpq] at hfe2
          have htr : calls_between w (ERR_pop_to_mark (EVP_CIPHER_fetch env
              (ERR_set_mark (EVP_CIPHER_free (load_common c env w params pc.engine).world
                pc.alloc_cipher)) ctx p.data
              (load_common c env w params pc.engine).propquery).2)
              = [Call.EVP_CIPHER_free pc.alloc_cipher, Call.ERR_set_mark,
                 Call.EVP_CIPHER_fetch ctx p.data
                   ((OSSL_PARAM_locate_const params c.OSSL_ALG_PARAM_PROPERTIES).map
                     (fun q => q.data)),
                 Call.ERR_pop_to_mark] := by
            rw [hw, hpq]
            cases pc.alloc_cipher <;>
              simp [calls_between, ERR_pop_to_mark, EVP_CIPHER_fetch, hfe2, ERR_set_mark,
                EVP_CIPHER_free]
          dsimp only
          rw [htr]
          refine ⟨?_, fun _ => heng, ?_⟩
          · intro x hx
            simp at hx
            rcases hx with rfl | rfl | rfl | rfl <;> simp
          · intro p2 hp2 _
            cases hp2
            refine ⟨?_, ?_, ?_, ?_⟩
            · constructor
              · intro _
                exact ⟨_, h, by simp, hfe2⟩
              · intro _; rfl
            · intro _
              simp [hfe2]
            · intro _; rfl
            · intro _; rfl
        | none =>
          rw [cipher_load_unfetched_fips c env w pc params ctx p h1 hp ht hfe hf]
          have hfe2 := hfe
          rw [hpq] at hfe2
          have htr : calls_between w (ERR_clear_last_mark (EVP_CIPHER_fetch env
              (ERR_set_mark (EVP_CIPHER_free (load_common c env w params pc.engine).world
                pc.alloc_cipher)) ctx p.data
              (load_common c env w params pc.engine).propquery).2)
              = [Call.EVP_CIPHER_free pc.alloc_cipher, Call.ERR_set_mark,
                 Call.EVP_CIPHER_fetch ctx p.data
                   ((OSSL_PARAM_locate_const params c.OSSL_ALG_PARAM_PROPERTIES).map
                     (fun q => q.data)),
                 Call.ERR_clear_last_mark] := by
            rw [hw, hpq]
            cases pc.alloc_cipher <;>
              simp [calls_between, ERR_clear_last_mark, EVP_CIPHER_fetch, hfe2, ERR_set_mark,
                EVP_CIPHER_free]
          dsimp only
          rw [htr]
          refine ⟨?_, fun _ => heng, ?_⟩
          · intro x hx
            simp at hx
            rcases hx with rfl | rfl | rfl | rfl <;> simp
          · intro p2 hp2 _
            cases hp2
            refine ⟨?_, ?_, ?_, ?_⟩
            · constructor
              · intro h01
                exact absurd h01 (by decide)
              · rintro ⟨q, h, hmem, hq⟩
                simp at hmem
                rw [hmem, hfe2] at hq
                cases hq
            · intro _
              simp [hfe2]
            · intro h01
              exact absurd h01 (by decide)
            · intro _; rfl
      · rw [cipher_load_malformed c env w pc params ctx p h1 hp ht, hw]
        refine ⟨by simp, fun _ => heng, ?_⟩
        intro p2 hp2 ht2
        cases hp2
        exact absurd ht2 ht
  · have h0 := hlc.2.2 hpo
    rw [cipher_load_common_failed c env w pc params ctx h0, hw]
    refine ⟨by simp, fun h => absurd h hpo, ?_⟩
    intro p _ _
    refine ⟨?_, fun h => absurd h hpo, ?_, fun h => absurd h hpo⟩
    · constructor
      · intro h01
        simp at h01
      · rintro ⟨q, h, hmem, _⟩
        simp at hmem
    · intro h01
      simp at h01

/-- In a FIPS build `ossl_prov_digest_load_from_params` consults neither the
engine table nor the legacy name table, and succeeds on a string-typed name
entry exactly when the fetch it makes returns a handle. -/
theorem digest_load_fips (c : Config) (env : Env) (w : World) (pd : PROV_DIGEST)
    (params : Option (List OSSL_PARAM)) (ctx : Nat) (hf : c.FIPS_MODULE = true) :
    (∀ x ∈ calls_between w (ossl_prov_digest_load_from_params c env w pd params ctx).2.1,
      (∀ e, x ≠ Call.ENGINE_finish e) ∧ (∀ i, x ≠ Call.ENGINE_by_id i) ∧
      (∀ n, x ≠ Call.EVP_get_digestbyname n)) ∧
    (properties_ok c params →
      (ossl_prov_digest_load_from_params c env w pd params ctx).2.2.engine = none) ∧
    (∀ p, OSSL_PARAM_locate_const params c.OSSL_ALG_PARAM_DIGEST = some p →
      p.data_type = c.OSSL_PARAM_UTF8_STRING →
      ((ossl_prov_digest_load_from_params c env w pd params ctx).1 = 1 ↔
        ∃ q h, Call.EVP_MD_fetch ctx p.data q ∈
            calls_between w (ossl_prov_digest_load_from_params c env w pd params ctx).2.1 ∧
          env.md_fetch ctx p.data q = some h) ∧
      (properties_ok c params →
        ((ossl_prov_digest_load_from_params c env w pd params ctx).1 = 1 ↔
          env.md_fetch ctx p.data
            ((OSSL_PARAM_locate_const params c.OSSL_ALG_PARAM_PROPERTIES).map
              (fun q => q.data)) ≠ none)) ∧
      ((ossl_prov_digest_load_from_params c env w pd params ctx).1 = 1 →
        (ossl_prov_digest_load_from_params c env w pd params ctx).2.2.md =
          (ossl_prov_digest_load_from_params c env w pd params ctx).2.2.alloc_md) ∧
      (properties_ok c params →
        (ossl_prov_digest_load_from_params c env w pd params ctx).2.2.md =
          (ossl_prov_digest_load_from_params c env w pd params ctx).2.2.alloc_md)) := by
  have hlc := load_common_fips c env w params pd.engine hf
  have hw := hlc.1
  by_cases hpo : properties_ok c params
  · obtain ⟨h1, heng, hpq⟩ := hlc.2.1 hpo
    cases hp : OSSL_PARAM_locate_const params c.OSSL_ALG_PARAM_DIGEST with
    | none =>
      rw [digest_load_no_entry c env w pd params ctx hp, hw]
      refine ⟨by simp, fun _ => heng, ?_⟩
      intro p hp2
      cases hp2
    | some p =>
      by_cases ht : p.data_type = c.OSSL_PARAM_UTF8_STRING
      · cases hfe : env.md_fetch ctx p.data
            (load_common c env w params pd.engine).propquery with
        | some h =>
          rw [digest_load_fetched c env w pd params ctx p h h1 hp ht hfe]
          have hfe2 := hfe
          rw [hpq] at hfe2
          have htr : calls_between w (ERR_pop_to_mark (EVP_MD_fetch env
              (ERR_set_mark (EVP_MD_free (load_common c env w params pd.engine).world
                pd.alloc_md)) ctx p.data
              (load_common c env w params pd.engine).propquery).2)
              = [Call.EVP_MD_free pd.alloc_md, Call.ERR_set_mark,
                 Call.EVP_MD_fetch ctx p.data
                   ((OSSL_PARAM_locate_const params c.OSSL_ALG_PARAM_PROPERTIES).map
                     (fun q => q.data)),
                 Call.ERR_pop_to_mark] := by
            rw [hw, hpq]
            cases pd.alloc_md <;>
              simp [calls_between, ERR_pop_to_mark, EVP_MD_fetch, hfe2, ERR_set_mark,
                EVP_MD_free]
          dsimp only
          rw [htr]
          refine ⟨?_, fun _ => heng, ?_⟩
          · intro x hx
            simp at hx
            rcases hx with rfl | rfl | rfl | rfl <;> simp
          · intro p2 hp2 _
            cases hp2
            refine ⟨?_, ?_, ?_, ?_⟩
            · constructor
              · intro _
                exact ⟨_, h, by simp, hfe2⟩
              · intro _; rfl
            · intro _
              simp [hfe2]
            · intro _; rfl
            · intro _; rfl
        | none =>
          rw [digest_load_unfetched_fips c env w pd params ctx p h1 hp ht hfe hf]
          have hfe2 := hfe
          rw [hpq] at hfe2
          have htr : calls_between w (ERR_clear_last_mark (EVP_MD_fetch env
              (ERR_set_mark (EVP_MD_free (load_common c env w params pd.engine).world
                pd.alloc_md)) ctx p.data
              (load_common c env w params pd.engine).propquery).2)
              = [Call.EVP_MD_free pd.alloc_md, Call.ERR_set_mark,
                 Call.EVP_MD_fetch ctx p.data
                   ((OSSL_PARAM_locate_const params c.OSSL_ALG_PARAM_PROPERTIES).map
                     (fun q => q.data)),
                 Call.ERR_clear_last_mark] := by
            rw [hw, hpq]
            cases pd.alloc_md <;>
              simp [calls_between, ERR_clear_last_mark, EVP_MD_fetch, hfe2, ERR_set_mark,
                EVP_MD_free]
          dsimp only
          rw [htr]
          refine ⟨?_, fun _ => heng, ?_⟩
          · intro x hx
            simp at hx
            rcases hx with rfl | rfl | rfl | rfl <;> simp
          · intro p2 hp2 _
            cases hp2
            refine ⟨?_, ?_, ?_, ?_⟩
            · constructor
              · intro h01
                exact absurd h01 (by decide)
              · rintro ⟨q, h, hmem, hq⟩
                simp at hmem
                rw [hmem, hfe2] at hq
                cases hq
            · intro _
              simp [hfe2]
            · intro h01
              exact absurd h01 (by decide)
            · intro _; rfl
      · rw [digest_load_malformed c env w pd params ctx p h1 hp ht, hw]
        refine ⟨by simp, fun _ => heng, ?_⟩
        intro p2 hp2 ht2
        cases hp2
        exact absurd ht2 ht
  · have h0 := hlc.2.2 hpo
    rw [digest_load_common_failed c env w pd params ctx h0, hw]
    refine ⟨by simp, fun h => absurd h hpo, ?_⟩
    intro p _ _
    refine ⟨?_, fun h => absurd h hpo, ?_, fun h => absurd h hpo⟩
    · constructor
      · intro h01
        simp at h01
      · rintro ⟨q, h, hmem, _⟩
        simp at hmem
    · intro h01
      simp at h01

/-- With a properties entry that is not a string the Common Loader fails at
once, storing no engine, in every build. -/
theorem load_common_malformed_properties (c : Config) (env : Env) (w : World)
    (params : Option (List OSSL_PARAM)) (engine : Option Nat)
    (hpo : ¬ properties_ok c params) :
    load_common c env w params engine = ⟨0, w, none, engine⟩ := by
  unfold properties_ok at hpo
  push_neg at hpo
  obtain ⟨p, hp, ht⟩ := hpo
  simp [load_common, hp, ht]

/-- With a properties entry that is not a string
`ossl_prov_cipher_load_from_params` fails without a call and leaves the
binding as it was. -/
theorem cipher_load_malformed_properties (c : Config) (env : Env) (w : World)
    (pc : PROV_CIPHER) (params : Option (List OSSL_PARAM)) (ctx : Nat)
    (hpo : ¬ properties_ok c params) :
    ossl_prov_cipher_load_from_params c env w pc params ctx = (0, w, pc) := by
  simp [ossl_prov_cipher_load_from_params,
    load_common_malformed_properties c env w params pc.engine hpo]

/-- With a properties entry that is not a string
`ossl_prov_digest_load_from_params` fails without a call and leaves the
binding as it was. -/
theorem digest_load_malformed_properties (c : Config) (env : Env) (w : World)
    (pd : PROV_DIGEST) (params : Option (List OSSL_PARAM)) (ctx : Nat)
    (hpo : ¬ properties_ok c params) :
    ossl_prov_digest_load_from_params c env w pd params ctx = (0, w, pd) := by
  simp [ossl_prov_digest_load_from_params,
    load_common_malformed_properties c env w params pd.engine hpo]

/-- C19 (as stated, refuted): a FIPS build and the set {cipher: "AES-256-CBC",
digest: "SHA2-256", properties: 1 (an integer)}, whose name entries are
strings.  The registry of `env0` has both names under every property query,
yet both loads fail (the properties entry is rejected before any fetch), and
the bindings (21, NULL, 9) and (22, NULL, 9) come back unchanged, with active
different from owned. -/
theorem fips_load_malformed_properties :
    (openssl_config true false).FIPS_MODULE = true ∧
    OSSL_PARAM_locate_const
        (some [utf8_param "cipher" "AES-256-CBC", utf8_param "digest" "SHA2-256",
             int_param "properties"])
        (openssl_config true false).OSSL_ALG_PARAM_CIPHER
      = some (utf8_param "cipher" "AES-256-CBC") ∧
    (utf8_param "cipher" "AES-256-CBC").data_type
      = (openssl_config true false).OSSL_PARAM_UTF8_STRING ∧
    env0.cipher_fetch 0 (Data.str "AES-256-CBC") none = some 7 ∧
    (ossl_prov_cipher_load_from_params (openssl_config true false) env0 world0
      ⟨none, none, none⟩
      (some [utf8_param "cipher" "AES-256-CBC", utf8_param "digest" "SHA2-256",
             int_param "properties"]) 0).1 = 0 ∧
    (ossl_prov_cipher_load_from_params (openssl_config true false) env0 world0
      ⟨some 21, none, some 9⟩
      (some [utf8_param "cipher" "AES-256-CBC", utf8_param "digest" "SHA2-256",
             int_param "properties"]) 0).1 = 0 ∧
    (ossl_prov_cipher_load_from_params (openssl_config true false) env0 world0
      ⟨some 21, none, some 9⟩
      (some [utf8_param "cipher" "AES-256-CBC", utf8_param "digest" "SHA2-256",
             int_param "properties"]) 0).2.2.cipher ≠
    (ossl_prov_cipher_load_from_params (openssl_config true false) env0 world0
      ⟨some 21, none, some 9⟩
      (some [utf8_param "cipher" "AES-256-CBC", utf8_param "digest" "SHA2-256",
             int_param "properties"]) 0).2.2.alloc_cipher ∧
    env0.md_fetch 0 (Data.str "SHA2-256") none = some 8 ∧
    (ossl_prov_digest_load_from_params (openssl_config true false) env0 world0
      ⟨some 22, none, some 9⟩
      (some [utf8_param "cipher" "AES-256-CBC", utf8_param "digest" "SHA2-256",
             int_param "properties"]) 0).1 = 0 ∧
    (ossl_prov_digest_load_from_params (openssl_config true false) env0 world0
      ⟨some 22, none, some 9⟩
      (some [utf8_param "cipher" "AES-256-CBC", utf8_param "digest" "SHA2-256",
             int_param "properties"]) 0).2.2.md ≠
    (ossl_prov_digest_load_from_params (openssl_config true false) env0 world0
      ⟨some 22, none, some 9⟩
      (some [utf8_param "cipher" "AES-256-CBC", utf8_param "digest" "SHA2-256",
             int_param "properties"]) 0).2.2.alloc_md := by
  decide

/-- C19 (amended): in a FIPS build, for every binding and every parameter set
(engine entries included), `load_from_params` (cipher and digest variant)
makes no call to the engine table (`ENGINE_by_id`, `ENGINE_finish`) or to the
legacy name table.  When the properties entry is absent or a string, the
legacy-fallback field is empty on return and, if the algorithm-name entry is
present and a string, the call succeeds exactly when the registry has the
name under the property query, with active equal to owned afterwards.  When
the properties entry has another type, the call fails without making any
call and leaves the binding as it was.  In every case with a string-typed
name entry, the call succeeds exactly when the fetch it makes returns a
handle, and active equals owned after a success. -/
theorem fips_load_no_legacy (c : Config) (env : Env) (w : World) (pc : PROV_CIPHER)
    (pd : PROV_DIGEST) (params : Option (List OSSL_PARAM)) (ctx : Nat)
    (hf : c.FIPS_MODULE = true) :
    (((∀ x ∈ calls_between w (ossl_prov_cipher_load_from_params c env w pc params ctx).2.1,
          (∀ e, x ≠ Call.ENGINE_finish e) ∧ (∀ i, x ≠ Call.ENGINE_by_id i) ∧
          (∀ n, x ≠ Call.EVP_get_cipherbyname n)) ∧
        (properties_ok c params →
          (ossl_prov_cipher_load_from_params c env w pc params ctx).2.2.engine = none) ∧
        (∀ p, OSSL_PARAM_locate_const params c.OSSL_ALG_PARAM_CIPHER = some p →
          p.data_type = c.OSSL_PARAM_UTF8_STRING →
          ((ossl_prov_cipher_load_from_params c env w pc params ctx).1 = 1 ↔
            ∃ q h, Call.EVP_CIPHER_fetch ctx p.data q ∈
                calls_between w (ossl_prov_cipher_load_from_params c env w pc params ctx).2.1 ∧
              env.cipher_fetch ctx p.data q = some h) ∧
          (properties_ok c params →
            ((ossl_prov_cipher_load_from_params c env w pc params ctx).1 = 1 ↔
              env.cipher_fetch ctx p.data
                ((OSSL_PARAM_locate_const params c.OSSL_ALG_PARAM_PROPERTIES).map
                  (fun q => q.data)) ≠ none)) ∧
          ((ossl_prov_cipher_load_from_params c env w pc params ctx).1 = 1 →
            (ossl_prov_cipher_load_from_params c env w pc params ctx).2.2.cipher =
              (ossl_prov_cipher_load_from_params c env w pc params ctx).2.2.alloc_cipher) ∧
          (properties_ok c params →
            (ossl_prov_cipher_load_from_params c env w pc params ctx).2.2.cipher =
              (ossl_prov_cipher_load_from_params c env w pc params ctx).2.2.alloc_cipher))) ∧
      (¬ properties_ok c params →
        ossl_prov_cipher_load_from_params c env w pc params ctx = (0, w, pc))) ∧
    (((∀ x ∈ calls_between w (ossl_prov_digest_load_from_params c env w pd params ctx).2.1,
          (∀ e, x ≠ Call.ENGINE_finish e) ∧ (∀ i, x ≠ Call.ENGINE_by_id i) ∧
          (∀ n, x ≠ Call.EVP_get_digestbyname n)) ∧
        (properties_ok c params →
          (ossl_prov_digest_load_from_params c env w pd params ctx).2.2.engine = none) ∧
        (∀ p, OSSL_PARAM_locate_const params c.OSSL_ALG_PARAM_DIGEST = some p →
          p.data_type = c.OSSL_PARAM_UTF8_STRING →
          ((ossl_prov_digest_load_from_params c env w pd params ctx).1 = 1 ↔
            ∃ q h, Call.EVP_MD_fetch ctx p.data q ∈
                calls_between w (ossl_prov_digest_load_from_params c env w pd params ctx).2.1 ∧
              env.md_fetch ctx p.data q = some h) ∧
          (properties_ok c params →
            ((ossl_prov_digest_load_from_params c env w pd params ctx).1 = 1 ↔
              env.md_fetch ctx p.data
                ((OSSL_PARAM_locate_const params c.OSSL_ALG_PARAM_PROPERTIES).map
                  (fun q => q.data)) ≠ none)) ∧
          ((ossl_prov_digest_load_from_params c env w pd params ctx).1 = 1 →
            (ossl_prov_digest_load_from_params c env w pd params ctx).2.2.md =
              (ossl_prov_digest_load_from_params c env w pd params ctx).2.2.alloc_md) ∧
          (properties_ok c params →
            (ossl_prov_digest_load_from_params c env w pd params ctx).2.2.md =
              (ossl_prov_digest_load_from_params c env w pd params ctx).2.2.alloc_md))) ∧
      (¬ properties_ok c params →
        ossl_prov_digest_load_from_params c env w pd params ctx = (0, w, pd))) :=
  ⟨⟨cipher_load_fips c env w pc params ctx hf,
    cipher_load_malformed_properties c env w pc params ctx⟩,
   ⟨digest_load_fips c env w pd params ctx hf,
    digest_load_malformed_properties c env w pd params ctx⟩⟩

/-- C19 (instance): a FIPS build.  With the set {cipher: "AES-256-CBC",
digest: "SHA2-256", engine: "pkcs11"} the engine entry is ignored, the loads
succeed through the registry, and the bindings end with owned = active and no
legacy fallback, whatever they held before.  With an integer-typed properties
entry in place of the engine entry the cipher load fails and the binding is
untouched. -/
theorem fips_load_no_legacy_witness :
    (openssl_config true false).FIPS_MODULE = true ∧
    OSSL_PARAM_locate_const
        (some [utf8_param "cipher" "AES-256-CBC", utf8_param "digest" "SHA2-256",
             utf8_param "engine" "pkcs11"])
        (openssl_config true false).OSSL_ALG_PARAM_CIPHER
      = some (utf8_param "cipher" "AES-256-CBC") ∧
    OSSL_PARAM_locate_const
        (some [utf8_param "cipher" "AES-256-CBC", utf8_param "digest" "SHA2-256",
             utf8_param "engine" "pkcs11"])
        (openssl_config true false).OSSL_ALG_PARAM_DIGEST
      = some (utf8_param "digest" "SHA2-256") ∧
    (ossl_prov_cipher_load_from_params (openssl_config true false) env0 world0
      ⟨some 21, none, some 9⟩
      (some [utf8_param "cipher" "AES-256-CBC", utf8_param "digest" "SHA2-256",
             utf8_param "engine" "pkcs11"]) 0).1 = 1 ∧
    (ossl_prov_cipher_load_from_params (openssl_config true false) env0 world0
      ⟨some 21, none, some 9⟩
      (some [utf8_param "cipher" "AES-256-CBC", utf8_param "digest" "SHA2-256",
             utf8_param "engine" "pkcs11"]) 0).2.2.engine = none ∧
    (ossl_prov_cipher_load_from_params (openssl_config true false) env0 world0
      ⟨some 21, none, some 9⟩
      (some [utf8_param "cipher" "AES-256-CBC", utf8_param "digest" "SHA2-256",
             utf8_param "engine" "pkcs11"]) 0).2.2 = ⟨some 7, some 7, none⟩ ∧
    (ossl_prov_digest_load_from_params (openssl_config true false) env0 world0
      ⟨some 22, none, some 9⟩
      (some [utf8_param "cipher" "AES-256-CBC", utf8_param "digest" "SHA2-256",
             utf8_param "engine" "pkcs11"]) 0).1 = 1 ∧
    (ossl_prov_digest_load_from_params (openssl_config true false) env0 world0
      ⟨some 22, none, some 9⟩
      (some [utf8_param "cipher" "AES-256-CBC", utf8_param "digest" "SHA2-256",
             utf8_param "engine" "pkcs11"]) 0).2.2.engine = none ∧
    ¬ properties_ok (openssl_config true false)
      (some [utf8_param "cipher" "AES-256-CBC", utf8_param "digest" "SHA2-256",
             int_param "properties"]) ∧
    ossl_prov_cipher_load_from_params (openssl_config true false) env0 world0
      ⟨some 21, none, some 9⟩
      (some [utf8_param "cipher" "AES-256-CBC", utf8_param "digest" "SHA2-256",
             int_param "properties"]) 0
      = (0, world0, ⟨some 21, none, some 9⟩) := by
  have hpo : properties_ok (openssl_config true false)
      (some [utf8_param "cipher" "AES-256-CBC", utf8_param "digest" "SHA2-256",
             utf8_param "engine" "pkcs11"]) := by
    intro p hp
    have e : OSSL_PARAM_locate_const
        (some [utf8_param "cipher" "AES-256-CBC", utf8_param "digest" "SHA2-256",
             utf8_param "engine" "pkcs11"])
        (openssl_config true false).OSSL_ALG_PARAM_PROPERTIES = none := by decide
    rw [e] at hp
    cases hp
  have hbad : ¬ properties_ok (openssl_config true false)
      (some [utf8_param "cipher" "AES-256-CBC", utf8_param "digest" "SHA2-256",
             int_param "properties"]) :=
    fun h => absurd (h (int_param "properties") (by decide)) (by decide)
  have T := fips_load_no_legacy (openssl_config true false) env0 world0
    ⟨some 21, none, some 9⟩ ⟨some 22, none, some 9⟩
    (some [utf8_param "cipher" "AES-256-CBC", utf8_param "digest" "SHA2-256",
             utf8_param "engine" "pkcs11"]) 0 (by decide)
  have B := fips_load_no_legacy (openssl_config true false) env0 world0
    ⟨some 21, none, some 9⟩ ⟨some 22, none, some 9⟩
    (some [utf8_param "cipher" "AES-256-CBC", utf8_param "digest" "SHA2-256",
             int_param "properties"]) 0 (by decide)
  exact ⟨by decide, by decide, by decide,
    ((T.1.1.2.2 (utf8_param "cipher" "AES-256-CBC") (by decide) (by decide)).2.1 hpo).mpr
      (by decide),
    T.1.1.2.1 hpo, by decide,
    ((T.2.1.2.2 (utf8_param "digest" "SHA2-256") (by decide) (by decide)).2.1 hpo).mpr
      (by decide),
    T.2.1.2.1 hpo, hbad, B.1.2 hbad⟩

/-! ## Copy followed by reset -/

/-- C20: if the destination binding is empty and copy succeeds, then after the
reset of the destination the source binding is what it was, the destination is
empty, and every reference count is what it was before the copy: the count of
the source's owned handle went up by one in the copy and down by one in the
reset, the calls being exactly that increment and that release (or, with
nothing owned, just the release of `NULL`).  Copy itself makes no release
call, whatever the destination held.  Cipher and digest variant; the
source need not satisfy the binding invariant for this. -/
theorem copy_then_reset (env : Env) (w : World) (mc : Nat → PROV_CIPHER)
    (md : Nat → PROV_DIGEST) (dst src : Nat) :
    ((mc dst = ⟨none, none, none⟩ → (ossl_prov_cipher_copy env w mc dst src).1 = 1 →
        (cipher_reset_at (ossl_prov_cipher_copy env w mc dst src).2.1
          (ossl_prov_cipher_copy env w mc dst src).2.2 dst).2 src = mc src ∧
        (cipher_reset_at (ossl_prov_cipher_copy env w mc dst src).2.1
          (ossl_prov_cipher_copy env w mc dst src).2.2 dst).2 dst = ⟨none, none, none⟩ ∧
        (cipher_reset_at (ossl_prov_cipher_copy env w mc dst src).2.1
          (ossl_prov_cipher_copy env w mc dst src).2.2 dst).1.refcnt = w.refcnt ∧
        (∀ h, (mc src).alloc_cipher = some h →
          (ossl_prov_cipher_copy env w mc dst src).2.1.refcnt h = w.refcnt h + 1) ∧
        calls_between w (cipher_reset_at (ossl_prov_cipher_copy env w mc dst src).2.1
            (ossl_prov_cipher_copy env w mc dst src).2.2 dst).1 =
          (match (mc src).alloc_cipher with
           | some h => [Call.EVP_CIPHER_up_ref h, Call.EVP_CIPHER_free (some h)]
           | none => [Call.EVP_CIPHER_free none])) ∧
      (∀ q, Call.EVP_CIPHER_free q ∉
        calls_between w (ossl_prov_cipher_copy env w mc dst src).2.1)) ∧
    ((md dst = ⟨none, none, none⟩ → (ossl_prov_digest_copy env w md dst src).1 = 1 →
        (digest_reset_at (ossl_prov_digest_copy env w md dst src).2.1
          (ossl_prov_digest_copy env w md dst src).2.2 dst).2 src = md src ∧
        (digest_reset_at (ossl_prov_digest_copy env w md dst src).2.1
          (ossl_prov_digest_copy env w md dst src).2.2 dst).2 dst = ⟨none, none, none⟩ ∧
        (digest_reset_at (ossl_prov_digest_copy env w md dst src).2.1
          (ossl_prov_digest_copy env w md dst src).2.2 dst).1.refcnt = w.refcnt ∧
        (∀ h, (md src).alloc_md = some h →
          (ossl_prov_digest_copy env w md dst src).2.1.refcnt h = w.refcnt h + 1) ∧
        calls_between w (digest_reset_at (ossl_prov_digest_copy env w md dst src).2.1
            (ossl_prov_digest_copy env w md dst src).2.2 dst).1 =
          (match (md src).alloc_md with
           | some h => [Call.EVP_MD_up_ref h, Call.EVP_MD_free (some h)]
           | none => [Call.EVP_MD_free none])) ∧
      (∀ q, Call.EVP_MD_free q ∉
        calls_between w (ossl_prov_digest_copy env w md dst src).2.1)) := by
  refine ⟨⟨?_, ?_⟩, ⟨?_, ?_⟩⟩
  · intro hd hret
    have hsrc : src ≠ dst ∨ mc src = ⟨none, none, none⟩ := by
      by_cases e : src = dst
      · right; rw [e]; exact hd
      · left; exact e
    cases hs : (mc src).alloc_cipher with
    | none =>
      by_cases e : src = dst
      · subst e
        simp [ossl_prov_cipher_copy, hs, cipher_reset_at, ossl_prov_cipher_reset, store,
          EVP_CIPHER_free, calls_between, hd]
      · simp [ossl_prov_cipher_copy, hs, cipher_reset_at, ossl_prov_cipher_reset, store,
          EVP_CIPHER_free, calls_between, e]
    | some h =>
      cases hu : env.cipher_up_ref h with
      | false =>
        simp [ossl_prov_cipher_copy, hs, EVP_CIPHER_up_ref, hu] at hret
      | true =>
        have e : src ≠ dst := by
          rcases hsrc with e | e
          · exact e
          · rw [e] at hs; cases hs
        simp [ossl_prov_cipher_copy, hs, EVP_CIPHER_up_ref, hu, cipher_reset_at,
          ossl_prov_cipher_reset, store, EVP_CIPHER_free, calls_between, e]
        funext k
        by_cases hk : k = h <;> simp [hk]
  · intro q
    cases hs : (mc src).alloc_cipher with
    | none => simp [ossl_prov_cipher_copy, hs, calls_between]
    | some h =>
      cases hu : env.cipher_up_ref h <;>
        simp [ossl_prov_cipher_copy, hs, EVP_CIPHER_up_ref, hu, calls_between]
  · intro hd hret
    have hsrc : src ≠ dst ∨ md src = ⟨none, none, none⟩ := by
      by_cases e : src = dst
      · right; rw [e]; exact hd
      · left; exact e
    cases hs : (md src).alloc_md with
    | none =>
      by_cases e : src = dst
      · subst e
        simp [ossl_prov_digest_copy, hs, digest_reset_at, ossl_prov_digest_reset, store,
          EVP_MD_free, calls_between, hd]
      · simp [ossl_prov_digest_copy, hs, digest_reset_at, ossl_prov_digest_reset, store,
          EVP_MD_free, calls_between, e]
    | some h =>
      cases hu : env.md_up_ref h with
      | false =>
        simp [ossl_prov_digest_copy, hs, EVP_MD_up_ref, hu] at hret
      | true =>
        have e : src ≠ dst := by
          rcases hsrc with e | e
          · exact e
          · rw [e] at hs; cases hs
        simp [ossl_prov_digest_copy, hs, EVP_MD_up_ref, hu, digest_reset_at,
          ossl_prov_digest_reset, store, EVP_MD_free, calls_between, e]
        funext k
        by_cases hk : k = h <;> simp [hk]
  · intro q
    cases hs : (md src).alloc_md with
    | none => simp [ossl_prov_digest_copy, hs, calls_between]
    | some h =>
      cases hu : env.md_up_ref h <;>
        simp [ossl_prov_digest_copy, hs, EVP_MD_up_ref, hu, calls_between]

/-- C20 (instance): the sources at address 1 own handles 7 and 8, the
destinations at address 0 are empty; the copies succeed, the counts of 7 and
8 go to 1, and after the reset of the destinations the sources are intact,
the destinations empty and the counts back at 0. -/
theorem copy_then_reset_witness :
    mem_cipher_empty ⟨some 7, some 7, none⟩ 0 = ⟨none, none, none⟩ ∧
    (ossl_prov_cipher_copy env0 world0 (mem_cipher_empty ⟨some 7, some 7, none⟩) 0 1).1 = 1 ∧
    mem_digest_empty ⟨some 8, some 8, none⟩ 0 = ⟨none, none, none⟩ ∧
    (ossl_prov_digest_copy env0 world0 (mem_digest_empty ⟨some 8, some 8, none⟩) 0 1).1 = 1 ∧
    (cipher_reset_at
      (ossl_prov_cipher_copy env0 world0 (mem_cipher_empty ⟨some 7, some 7, none⟩) 0 1).2.1
      (ossl_prov_cipher_copy env0 world0 (mem_cipher_empty ⟨some 7, some 7, none⟩) 0 1).2.2
      0).2 1 = ⟨some 7, some 7, none⟩ ∧
    (cipher_reset_at
      (ossl_prov_cipher_copy env0 world0 (mem_cipher_empty ⟨some 7, some 7, none⟩) 0 1).2.1
      (ossl_prov_cipher_copy env0 world0 (mem_cipher_empty ⟨some 7, some 7, none⟩) 0 1).2.2
      0).2 0 = ⟨none, none, none⟩ ∧
    (ossl_prov_cipher_copy env0 world0 (mem_cipher_empty ⟨some 7, some 7, none⟩) 0
      1).2.1.refcnt 7 = 1 ∧
    (cipher_reset_at
      (ossl_prov_cipher_copy env0 world0 (mem_cipher_empty ⟨some 7, some 7, none⟩) 0 1).2.1
      (ossl_prov_cipher_copy env0 world0 (mem_cipher_empty ⟨some 7, some 7, none⟩) 0 1).2.2
      0).1.refcnt 7 = 0 ∧
    (digest_reset_at
      (ossl_prov_digest_copy env0 world0 (mem_digest_empty ⟨some 8, some 8, none⟩) 0 1).2.1
      (ossl_prov_digest_copy env0 world0 (mem_digest_empty ⟨some 8, some 8, none⟩) 0 1).2.2
      0).2 1 = ⟨some 8, some 8, none⟩ ∧
    (digest_reset_at
      (ossl_prov_digest_copy env0 world0 (mem_digest_empty ⟨some 8, some 8, none⟩) 0 1).2.1
      (ossl_prov_digest_copy env0 world0 (mem_digest_empty ⟨some 8, some 8, none⟩) 0 1).2.2
      0).1.refcnt 8 = 0 := by
  have C := (copy_then_reset env0 world0 (mem_cipher_empty ⟨some 7, some 7, none⟩)
    (mem_digest_empty ⟨some 8, some 8, none⟩) 0 1).1.1 (by decide) (by decide)
  have D := (copy_then_reset env0 world0 (mem_cipher_empty ⟨some 7, some 7, none⟩)
    (mem_digest_empty ⟨some 8, some 8, none⟩) 0 1).2.1 (by decide) (by decide)
  exact ⟨by decide, by decide, by decide, by decide, C.1, C.2.1,
    C.2.2.2.1 7 rfl, congrFun C.2.2.1 7, D.1, congrFun D.2.2.1 8⟩

end ProviderUtil
